import Mathlib

/-!
# passport-saml (`lib/passport-saml/saml.js`): message validation and building

A shallow embedding of the Service Provider side code of `saml.js`: XML
signature checks, the POST / Redirect validators, replay protection through
the request-id cache, profile extraction, and the builders of outbound
messages (request documents, redirect signature, form escaping).

Conventions of the embedding

* A parsed XML document is a `Node` tree.  Both parsers used by the source
  (`xmldom` for the DOM / xpath view, `xml2js` for the object view) are read
  as views of the same tree; serialising a node and parsing it again
  (`assertions[0].toString()`) is the identity on trees.
* Library code that is not part of `saml.js` (xml-crypto, xml-encryption,
  `crypto`, `zlib`, `Date.parse`, `encodeURIComponent`, the xpath engine on
  expressions that are not modelled) is a field of `Lib`, and of `BuilderLib`
  for the builders (`crypto.createSign`, `querystring`).  A document built with
  `xmlbuilder` is given as the tree its text parses to.
* A JavaScript `throw` / rejected promise is `Except.error` with the message.
* Millisecond timestamps and the clock skew are integers.
-/

namespace Saml

/-! ## XML trees -/

/-- An XML node: character data, or an element with its local name, resolved
namespace URI, attributes (qualified name, value) and children in document
order. -/
inductive Node where
  | text (s : String)
  | elem (localName : String) (ns : String) (attrs : List (String × String))
      (children : List Node)

namespace Node

/-- The element test of xpath `*`. -/
def isElement : Node → Bool
  | .elem _ _ _ _ => true
  | .text _ => false

/-- The xpath function `local-name()`; empty for character data. -/
def localName : Node → String
  | .elem l _ _ _ => l
  | .text _ => ""

/-- The xpath function `namespace-uri()`; empty for character data. -/
def namespaceUri : Node → String
  | .elem _ ns _ _ => ns
  | .text _ => ""

/-- The attribute list of an element. -/
def attrs : Node → List (String × String)
  | .elem _ _ as _ => as
  | .text _ => []

/-- The child nodes of an element. -/
def children : Node → List Node
  | .elem _ _ _ cs => cs
  | .text _ => []

/-- The value of attribute `name`, `none` (JavaScript `undefined`) when the
element has no such attribute: `node.$.name` of xml2js, `@name` of xpath. -/
def attr? (n : Node) (name : String) : Option String :=
  (n.attrs.find? (fun a => a.1 == name)).map (·.2)

/-- The xmldom method `getAttribute(name)`: the attribute value, and the empty
string when the attribute is absent. -/
def getAttribute (n : Node) (name : String) : String :=
  (n.attr? name).getD ""

mutual
/-- All descendants of a node (the node itself excluded), in document order. -/
def descendants : Node → List Node
  | .text _ => []
  | .elem _ _ _ cs => descendantsList cs
/-- The nodes of a forest with all their descendants, in document order. -/
def descendantsList : List Node → List Node
  | [] => []
  | c :: cs => (c :: descendants c) ++ descendantsList cs
end

/-- The child elements whose local name is `name`: xpath
`*[local-name()=name]`, and the array `node.name` of xml2js (tag names with
the prefix stripped); the xml2js key is present exactly when this list is
non-empty. -/
def childrenNamed (n : Node) (name : String) : List Node :=
  n.children.filter (fun c => c.isElement && c.localName == name)

/-- The character data directly inside an element, concatenated. -/
def charData (n : Node) : String :=
  String.join (n.children.map (fun c => match c with
    | .text s => s
    | .elem _ _ _ _ => ""))

end Node

/-- The characters matched by `\s` in a JavaScript regular expression. -/
def isJsSpace (c : Char) : Bool :=
  let n := c.toNat
  n == 9 || n == 10 || n == 11 || n == 12 || n == 13 || n == 32 || n == 160 ||
  n == 5760 || (8192 ≤ n && n ≤ 8202) || n == 8232 || n == 8233 || n == 8239 ||
  n == 8287 || n == 12288 || n == 65279

/-- The test `/^\s*$/` xml2js applies to the character data of an element. -/
def isBlank (s : String) : Bool :=
  s.data.all isJsSpace

/-- JavaScript truthiness of a value that is a string or `undefined`. -/
def truthy : Option String → Bool
  | some s => s != ""
  | none => false

/-- A value that is a string or `undefined`, converted to a string by `+`. -/
def jsStr : Option String → String
  | some s => s
  | none => "undefined"

namespace Node

/-- Whether xml2js represents the element by a plain string (its character
data): it has no attribute, no child element, and only blank character
data. -/
def x2jIsString (n : Node) : Bool :=
  n.attrs.isEmpty && (n.children.filter isElement).isEmpty && isBlank n.charData

/-- JavaScript truthiness of the xml2js value of an element: an object is
truthy, a string is truthy unless empty. -/
def x2jTruthy (n : Node) : Bool :=
  !n.x2jIsString || n.charData != ""

/-- The xml2js character key `node._` (`explicitCharkey`): the character data
unless it is blank, in which case the key is deleted. -/
def x2jText (n : Node) : Option String :=
  if isBlank n.charData then none else some n.charData

/-- Whether the xml2js value has the attribute key `$`. -/
def x2jHasAttrs (n : Node) : Bool :=
  !n.attrs.isEmpty

end Node

/-! ## Libraries used by `saml.js` -/

/-- The library functions `saml.js` calls and does not define. -/
structure Lib where
  /-- xml-crypto `loadSignature`: the URIs of `sig.references` for a
  `Signature` element.  (On a signature it cannot load, for instance one
  without any `Reference`, `loadSignature` throws; that exception ends the
  validation with an error and is not represented.) -/
  references : Node → List String
  /-- xml-crypto `checkSignature(fullXml)` for a loaded signature, with the key
  `certToPEM(cert)`: arguments are the certificate, the signature element and
  the document.  An exception thrown by the check (for a reference that names
  more than one element, or has a quote) ends the validation with an error; it
  is read as the answer `false`. -/
  checkSignature : String → Node → Node → Bool
  /-- The xpath engine, for expressions built from text the embedding does not
  interpret: arguments are the context document and the expression. -/
  xpath : Node → String → List Node
  /-- Base64 decoding followed by the XML parser, for the POST binding; the
  error is the one the xml2js parser reports for the same text. -/
  parsePost : String → Except String Node
  /-- Base64 decoding, `zlib.inflateRaw` and the xml2js parser, for the redirect
  binding. -/
  parseRedirect : String → Except String Node
  /-- xml-encryption `decrypt` followed by the XML parser: arguments are the
  `EncryptedAssertion` element and the private key; the result is the document
  element of the decrypted text, if any. -/
  decrypt : Node → String → Except String (Option Node)
  /-- The function `Date.parse`; `none` stands for `NaN`. -/
  dateParse : String → Option Int
  /-- The function `encodeURIComponent`. -/
  encodeURIComponent : String → String
  /-- The list `crypto.getHashes()`. -/
  getHashes : List String
  /-- The test `new RegExp(h).test(alg)`: arguments are `h` and `alg`. -/
  regExpTest : String → String → Bool
  /-- The check `crypto.createVerify(hash).update(urlString).verify(cert,
  signature, 'base64')`: arguments are the hash name, `urlString`, the
  certificate and the signature. -/
  cryptoVerify : String → String → String → String → Bool

/-! ## XML signature verification -/

/-- The namespace of XML-DSig. -/
def dsigNs : String := "http://www.w3.org/2000/09/xmldsig#"

/-- The query `.//*[local-name(.)='Signature' and namespace-uri(.)=dsig]` of
`validateSignature`, evaluated at `currentNode`. -/
def xpathSignatures (currentNode : Node) : List Node :=
  currentNode.descendants.filter
    (fun n => n.isElement && n.localName == "Signature" && n.namespaceUri == dsigNs)

/-- All elements of a document, the document element first. -/
def allElements (doc : Node) : List Node :=
  (doc :: doc.descendants).filter Node.isElement

/-- The query `"//*[@" + idAttribute + "='" + refId + "']"` evaluated at the
owner document.  The text of `refId` is spliced into the expression: when it
has no apostrophe the expression selects the elements whose attribute
`idAttribute` equals `refId`; otherwise the literal is broken and the expression
is left to the xpath engine. -/
def xpathReferenced (lib : Lib) (doc : Node) (idAttribute refId : String) : List Node :=
  if refId.data.contains (Char.ofNat 39) then
    lib.xpath doc ("//*[@" ++ idAttribute ++ "=" ++ String.singleton (Char.ofNat 39)
      ++ refId ++ String.singleton (Char.ofNat 39) ++ "]")
  else
    (allElements doc).filter (fun n => n.attr? idAttribute == some refId)

/-- The expression `(refUri[0] === '#') ? refUri.substring(1) : refUri`. -/
def refIdOf (refUri : String) : String :=
  match refUri.data with
  | '#' :: rest => String.mk rest
  | _ => refUri

/-- The expression `currentNode.getAttribute('ID') ? 'ID' : 'Id'`. -/
def idAttributeOf (currentNode : Node) : String :=
  if currentNode.getAttribute "ID" != "" then "ID" else "Id"

/-- `SAML.prototype.validateSignatureForCert`.  `fullXml` is the parsed
document: it stands both for the XML text given to `checkSignature` and for
`currentNode.ownerDocument`. -/
def validateSignatureForCert (lib : Lib) (signature : Node) (cert : String)
    (fullXml : Node) (currentNode : Node) : Bool :=
  let references := lib.references signature
  if references.length != 1 then false
  else
    match references.head? with
    | none => false
    | some refUri =>
      let refId := refIdOf refUri
      let idAttribute := idAttributeOf currentNode
      if currentNode.getAttribute idAttribute != refId then false
      else
        let totalReferencedNodes := xpathReferenced lib fullXml idAttribute refId
        if totalReferencedNodes.length > 1 then false
        else lib.checkSignature cert signature fullXml

/-- `SAML.prototype.validateSignature`. -/
def validateSignature (lib : Lib) (fullXml : Node) (currentNode : Node)
    (certs : List String) : Bool :=
  let signatures := xpathSignatures currentNode
  if signatures.length != 1 then false
  else
    match signatures.head? with
    | none => false
    | some signature =>
      certs.any (fun certToCheck =>
        validateSignatureForCert lib signature certToCheck fullXml currentNode)

/-! ## Configuration, cache, results -/

/-- The option `cert`: absent, one certificate or an array of certificates, or
a resolver function (given by what calling it yields, already wrapped into an
array). A present option is truthy: `initialize` refuses an empty value. -/
inductive CertOption where
  | absent
  | static (certs : List String)
  | resolver (result : Except String (List String))

/-- The options read by the validation code, after `initialize`. -/
structure Options where
  cert : CertOption
  validateInResponseTo : Bool
  acceptedClockSkewMs : Int
  requestIdExpirationPeriodMs : Int
  audience : Option String
  decryptionPvk : Option String
  idpIssuer : Option String

/-- The test `self.options.cert` (truthiness). -/
def Options.hasCert (o : Options) : Bool :=
  match o.cert with
  | .absent => false
  | _ => true

/-- `SAML.prototype.certsToCheck`: `none` is the `undefined` resolved when no
certificate is configured. -/
def certsToCheck (o : Options) : Except String (Option (List String)) :=
  match o.cert with
  | .absent => .ok none
  | .resolver (.error e) => .error e
  | .resolver (.ok certs) => .ok (some certs)
  | .static certs => .ok (some certs)

/-- An operation performed on the cache provider. -/
inductive CacheOp where
  | save (key : String) (value : String)
  | get (key : String)
  | remove (key : String)
deriving DecidableEq

/-- Modelled from the spec: the Cache Provider (`inmemory-cache-provider.js` is
not among the sources), a key/value store `requestId → issueInstant` with
`save`, `get` and `remove`.  `log` records the operations performed, oldest
first.  Expiry of entries by age is left to the provider and not represented. -/
structure CacheProvider where
  store : List (String × String)
  log : List CacheOp

namespace CacheProvider

/-- Modelled from the spec: `get(key) → value|absent`. -/
def get (c : CacheProvider) (key : String) : Option String × CacheProvider :=
  ((c.store.find? (fun e => e.1 == key)).map (·.2),
   { c with log := c.log ++ [.get key] })

/-- Modelled from the spec: `remove(key) → ack`. -/
def remove (c : CacheProvider) (key : String) : CacheProvider :=
  { store := c.store.filter (fun e => !(e.1 == key)), log := c.log ++ [.remove key] }

/-- Modelled from the spec: `save(key, value) → ack`. -/
def save (c : CacheProvider) (key value : String) : CacheProvider :=
  { store := (key, value) :: c.store.filter (fun e => !(e.1 == key)),
    log := c.log ++ [.save key value] }

/-- Whether the store holds a value for `key`. -/
def holds (c : CacheProvider) (key : String) : Bool :=
  c.store.any (fun e => e.1 == key)

end CacheProvider

/-- A profile property value: a string or `undefined`, or an array of such. -/
inductive PVal where
  | scalar (v : Option String)
  | list (vs : List (Option String))
deriving DecidableEq

/-- JavaScript truthiness of a property value (an array is truthy). -/
def PVal.truthy : PVal → Bool
  | .scalar v => Saml.truthy v
  | .list _ => true

/-- The profile object: its own string-keyed data properties in insertion
order, and what the accessor functions `getAssertionXml` / `getAssertion` and
`getSamlResponseXml` return (absent on a logout profile).  The three properties
that hold the accessor functions are not listed in `fields`. -/
structure Profile where
  fields : List (String × PVal)
  assertion : Option Node
  samlResponse : Option Node

/-- The empty object. -/
def Profile.empty : Profile := { fields := [], assertion := none, samlResponse := none }

/-- Property read `profile[key]`; `none` when the property does not exist. -/
def Profile.get (p : Profile) (key : String) : Option PVal :=
  (p.fields.find? (fun e => e.1 == key)).map (·.2)

/-- Property write `profile[key] = v` for a key that names a data property
(every key but `__proto__`): the property is replaced in place, or created
last. -/
def Profile.set (p : Profile) (key : String) (v : PVal) : Profile :=
  if p.fields.any (fun e => e.1 == key) then
    { p with fields := p.fields.map (fun e => if e.1 == key then (key, v) else e) }
  else
    { p with fields := p.fields ++ [(key, v)] }

/-- Property write `profile[key] = v` with a key computed from the message.
On an object literal the key `__proto__` names the prototype accessor: the
write creates no property of the object (a string or `undefined` is ignored, an
array becomes the prototype, which gives the object none of the properties
read below). -/
def Profile.assign (p : Profile) (key : String) (v : PVal) : Profile :=
  if key == "__proto__" then p else p.set key v

/-- The names of the accessor functions a login profile receives last. -/
def accessorNames : List String := ["getAssertionXml", "getAssertion", "getSamlResponseXml"]

/-- The writes `profile.getAssertionXml = ...`, `profile.getAssertion = ...`
and `profile.getSamlResponseXml = ...`: a value held under one of these names
is replaced by the function. -/
def Profile.withAccessors (p : Profile) (xml samlResponseXml : Node) : Profile :=
  { fields := p.fields.filter (fun e => !accessorNames.contains e.1),
    assertion := some xml,
    samlResponse := some samlResponseXml }

/-- Truthiness of the property read `profile[key]`. -/
def Profile.truthyAt (p : Profile) (key : String) : Bool :=
  match p.get key with
  | some v => v.truthy
  | none => false

/-- How a validation ends: `callback(err)`, with the status XML attached to a
provider status error; `callback(null, profile, loggedOut)`; an exception
thrown to the caller before any promise is created; or no call of the
callback. -/
inductive Outcome where
  | error (msg : String)
  | statusError (msg : String) (statusXml : Node)
  | success (profile : Option Profile) (loggedOut : Bool)
  | thrown (msg : String)
  | noCallback

/-- The outcome reports an error to the callback. -/
def Outcome.isError : Outcome → Bool
  | .error _ => true
  | .statusError _ _ => true
  | _ => false

/-- The logout flag passed to the callback (false when there is none). -/
def Outcome.loggedOut : Outcome → Bool
  | .success _ b => b
  | _ => false

/-- The outcome carries a profile. -/
def Outcome.hasProfile : Outcome → Bool
  | .success (some _) _ => true
  | _ => false

/-! ## Timestamp and audience rules -/

/-- `SAML.prototype.checkTimestampsValidityError`: `none` is the `null`
result, `some msg` the error.  A comparison with `NaN` is false. -/
def checkTimestampsValidityError (lib : Lib) (o : Options) (nowMs : Int)
    (notBefore notOnOrAfter : Option String) : Option String :=
  if o.acceptedClockSkewMs == -1 then none
  else
    let early : Bool :=
      match notBefore with
      | some nb =>
        if nb != "" then
          match lib.dateParse nb with
          | some notBeforeMs => decide (nowMs + o.acceptedClockSkewMs < notBeforeMs)
          | none => false
        else false
      | none => false
    if early then some "SAML assertion not yet valid"
    else
      let late : Bool :=
        match notOnOrAfter with
        | some noa =>
          if noa != "" then
            match lib.dateParse noa with
            | some notOnOrAfterMs => decide (nowMs - o.acceptedClockSkewMs ≥ notOnOrAfterMs)
            | none => false
          else false
        | none => false
      if late then some "SAML assertion expired" else none

/-- The function mapped over the restrictions in `checkAudienceValidityError`. -/
def audienceRestrictionError (expectedAudience : String) (restriction : Node) : Option String :=
  match (restriction.childrenNamed "Audience").head? with
  | none => some "SAML assertion AudienceRestriction has no Audience value"
  | some audience0 =>
    if !audience0.x2jTruthy || !truthy audience0.x2jText then
      some "SAML assertion AudienceRestriction has no Audience value"
    else if audience0.x2jText != some expectedAudience then
      some "SAML assertion audience mismatch"
    else none

/-- `SAML.prototype.checkAudienceValidityError`; the empty list stands for an
absent `AudienceRestriction` key as well. -/
def checkAudienceValidityError (expectedAudience : String)
    (audienceRestrictions : List Node) : Option String :=
  if audienceRestrictions.length < 1 then
    some "SAML assertion has no AudienceRestriction"
  else
    let errors := (audienceRestrictions.map (audienceRestrictionError expectedAudience)).filterMap id
    match errors.head? with
    | some e => some e
    | none => none

/-! ## Replay protection -/

/-- `SAML.prototype.validateInResponseTo`. -/
def validateInResponseTo (o : Options) (inResponseTo : Option String)
    (cache : CacheProvider) : Except String Unit × CacheProvider :=
  if o.validateInResponseTo then
    match inResponseTo with
    | some key =>
      if key != "" then
        let (result, cache1) := cache.get key
        if !truthy result then (.error "InResponseTo is not valid", cache1)
        else (.ok (), cache1)
      else (.error "InResponseTo is missing from response", cache)
    | none => (.error "InResponseTo is missing from response", cache)
  else (.ok (), cache)

/-! ## Profile extraction -/

/-- The key under which JavaScript files a cache entry for a value that is a
string or `null`. -/
def keyOf : Option String → String
  | some s => s
  | none => "null"

/-- The identity part of the first `then` block of
`processValidlySignedAssertion`: issuer, session index and name identifier. -/
def identityFields (assertion : Node) : Profile :=
  let profile := Profile.empty
  let profile :=
    match (assertion.childrenNamed "Issuer").head? with
    | some issuer0 =>
      if truthy issuer0.x2jText then profile.set "issuer" (.scalar issuer0.x2jText) else profile
    | none => profile
  let profile :=
    match (assertion.childrenNamed "AuthnStatement").head? with
    | some authnStatement0 =>
      if authnStatement0.x2jHasAttrs && truthy (authnStatement0.attr? "SessionIndex") then
        profile.set "sessionIndex" (.scalar (authnStatement0.attr? "SessionIndex"))
      else profile
    | none => profile
  match (assertion.childrenNamed "Subject").head? with
  | some subject0 =>
    match (subject0.childrenNamed "NameID").head? with
    | some nameID0 =>
      if truthy nameID0.x2jText then
        let profile := profile.set "nameID" (.scalar nameID0.x2jText)
        if nameID0.x2jHasAttrs && truthy (nameID0.attr? "Format") then
          ((profile.set "nameIDFormat" (.scalar (nameID0.attr? "Format"))).set
            "nameQualifier" (.scalar (nameID0.attr? "NameQualifier"))).set
            "spNameQualifier" (.scalar (nameID0.attr? "SPNameQualifier"))
        else profile
      else profile
    | none => profile
  | none => profile

/-- The variable `subjectConfirmation` of `processValidlySignedAssertion`:
the first `SubjectConfirmation` of the first `Subject`; `none` is `null` or
`undefined`. -/
def subjectConfirmationOf (assertion : Node) : Option Node :=
  match (assertion.childrenNamed "Subject").head? with
  | some subject0 => (subject0.childrenNamed "SubjectConfirmation").head?
  | none => none

/-- The variable `confirmData` of `processValidlySignedAssertion`. -/
def confirmDataOf (assertion : Node) : Option Node :=
  match subjectConfirmationOf assertion with
  | some sc =>
    if sc.x2jTruthy then (sc.childrenNamed "SubjectConfirmationData").head? else none
  | none => none

/-- The test `if (subjectConfirmation)`. -/
def subjectConfirmationTruthy (assertion : Node) : Bool :=
  match subjectConfirmationOf assertion with
  | some sc => sc.x2jTruthy
  | none => false

/-- The value of `confirmData` when `confirmData && confirmData.$` holds. -/
def confirmDataWithAttrs (assertion : Node) : Option Node :=
  match confirmDataOf assertion with
  | some cd => if cd.x2jTruthy && cd.x2jHasAttrs then some cd else none
  | none => none

/-- The checks on the `Subject` in the first `then` block of
`processValidlySignedAssertion`: at most one `SubjectConfirmation`, and its
validity window. -/
def checkSubject (lib : Lib) (o : Options) (nowMs : Int) (assertion : Node) :
    Except String Unit :=
  match (assertion.childrenNamed "Subject").head? with
  | some subject0 =>
    if (subject0.childrenNamed "SubjectConfirmation").length > 1 then
      .error "Unable to process multiple SubjectConfirmations in SAML assertion"
    else if subjectConfirmationTruthy assertion then
      match confirmDataWithAttrs assertion with
      | some cd =>
        match checkTimestampsValidityError lib o nowMs (cd.attr? "NotBefore")
            (cd.attr? "NotOnOrAfter") with
        | some subjErr => .error subjErr
        | none => .ok ()
      | none => .ok ()
    else .ok ()
  | none => .ok ()

/-- The replay part of the first `then` block of
`processValidlySignedAssertion` (`if (self.options.validateInResponseTo)`). -/
def checkSubjectInResponseTo (lib : Lib) (o : Options) (nowMs : Int) (assertion : Node)
    (inResponseTo : Option String) (cache : CacheProvider) :
    Except String Unit × CacheProvider :=
  if o.validateInResponseTo then
    if subjectConfirmationTruthy assertion then
      match confirmDataWithAttrs assertion with
      | some cd =>
        let subjectInResponseTo := cd.attr? "InResponseTo"
        if truthy inResponseTo && truthy subjectInResponseTo
            && subjectInResponseTo != inResponseTo then
          (.error "InResponseTo is not valid", cache.remove (keyOf inResponseTo))
        else if truthy subjectInResponseTo then
          let (result, cache1) := cache.get (keyOf subjectInResponseTo)
          let foundValidInResponseTo : Bool :=
            match result with
            | some r =>
              if r != "" then
                match lib.dateParse r with
                | some createdAt => decide (nowMs < createdAt + o.requestIdExpirationPeriodMs)
                | none => false
              else false
            | none => false
          let cache2 := cache1.remove (keyOf inResponseTo)
          if !foundValidInResponseTo then (.error "InResponseTo is not valid", cache2)
          else (.ok (), cache2)
        else (.ok (), cache)
      | none => (.ok (), cache)
    else (.ok (), cache.remove (keyOf inResponseTo))
  else (.ok (), cache)

/-- The checks on `Conditions` in the second `then` block of
`processValidlySignedAssertion`: at most one element, its validity window,
and the audience when one is configured. -/
def checkConditions (lib : Lib) (o : Options) (nowMs : Int) (assertion : Node) :
    Except String Unit :=
  let conditions := (assertion.childrenNamed "Conditions").head?
  if (assertion.childrenNamed "Conditions").length > 1 then
    .error "Unable to process multiple conditions in SAML assertion"
  else
    let conErr : Option String :=
      match conditions with
      | some c =>
        if c.x2jTruthy && c.x2jHasAttrs then
          checkTimestampsValidityError lib o nowMs (c.attr? "NotBefore") (c.attr? "NotOnOrAfter")
        else none
      | none => none
    match conErr with
    | some e => .error e
    | none =>
      if truthy o.audience then
        match conditions with
        | none => .error "TypeError: Cannot read property 'AudienceRestriction' of null"
        | some c =>
          match checkAudienceValidityError (jsStr o.audience)
              (c.childrenNamed "AudienceRestriction") with
          | some audienceErr => .error audienceErr
          | none => .ok ()
      else .ok ()

/-- The function `attrValueMapper`. -/
def attrValueMapper (value : Node) : Option String :=
  if value.x2jIsString then some value.charData else value.x2jText

/-- The body of `attributes.forEach` in `processValidlySignedAssertion`.  The
method `attribute.hasOwnProperty` is the inherited one unless the element has
a child element named `hasOwnProperty`, which xml2js files under that key. -/
def addAttribute (profile : Profile) (attr : Node) : Except String Profile :=
  if !(attr.childrenNamed "hasOwnProperty").isEmpty then
    .error "TypeError: attribute.hasOwnProperty is not a function"
  else
    let value := attr.childrenNamed "AttributeValue"
    if value.isEmpty then .ok profile
    else if !attr.x2jHasAttrs then
      .error "TypeError: Cannot read property 'Name' of undefined"
    else
      let name := jsStr (attr.attr? "Name")
      match value with
      | [value0] => .ok (profile.assign name (.scalar (attrValueMapper value0)))
      | _ => .ok (profile.assign name (.list (value.map attrValueMapper)))

/-- The array `attributes` of `processValidlySignedAssertion`: the
`Attribute` children of every `AttributeStatement`, in document order. -/
def attributesOf (assertion : Node) : List Node :=
  ((assertion.childrenNamed "AttributeStatement").map
    (fun st => st.childrenNamed "Attribute")).flatten

/-- The attribute OID of `mail`. -/
def mailOid : String := "urn:oid:0.9.2342.19200300.100.1.3"

/-- The `mail` / `email` defaults at the end of
`processValidlySignedAssertion`. -/
def mailDefaults (profile : Profile) : Profile :=
  let profile :=
    match profile.get mailOid with
    | some v => if !profile.truthyAt "mail" && v.truthy then profile.set "mail" v else profile
    | none => profile
  match profile.get "mail" with
  | some v => if !profile.truthyAt "email" && v.truthy then profile.set "email" v else profile
  | none => profile

/-- `SAML.prototype.processValidlySignedAssertion`; `xml` is the assertion,
`samlResponseXml` the whole response. -/
def processValidlySignedAssertion (lib : Lib) (o : Options) (nowMs : Int) (xml : Node)
    (samlResponseXml : Node) (inResponseTo : Option String) (cache : CacheProvider) :
    Outcome × CacheProvider :=
  let assertion := xml
  let profile := identityFields assertion
  match checkSubject lib o nowMs assertion with
  | .error e => (.error e, cache)
  | .ok () =>
    match checkSubjectInResponseTo lib o nowMs assertion inResponseTo cache with
    | (.error e, cache1) => (.error e, cache1)
    | (.ok (), cache1) =>
      match checkConditions lib o nowMs assertion with
      | .error e => (.error e, cache1)
      | .ok () =>
        match (attributesOf assertion).foldlM addAttribute profile with
        | .error e => (.error e, cache1)
        | .ok profile =>
          let profile := mailDefaults profile
          (.success (some (profile.withAccessors xml samlResponseXml)) false, cache1)

/-! ## POST binding: `Response` -/

/-- The inbound message envelope (`container`): the body fields or query
parameters; `none` is an absent field. -/
structure Container where
  SAMLRequest : Option String
  SAMLResponse : Option String
  RelayState : Option String
  SigAlg : Option String
  Signature : Option String

/-- The match of `/[^:]*$/`: the longest suffix without a colon. -/
def afterLastColon (s : String) : String :=
  String.mk (s.data.reverse.takeWhile (fun c => c != ':')).reverse

/-- The xml2js property `doc[name]` of a parsed document (`explicitRoot`): the
document element when its tag name, prefix stripped, is `name`. -/
def rootNamed (doc : Node) (name : String) : Option Node :=
  if doc.isElement && doc.localName == name then some doc else none

/-- The `InResponseTo` read by `validatePostResponse`: the first result of
`/*[local-name()='Response']/@InResponseTo`, or `null`. -/
def responseInResponseTo (doc : Node) : Option String :=
  match rootNamed doc "Response" with
  | some response => response.attr? "InResponseTo"
  | none => none

/-- The query `/*[local-name()='Response']/*[local-name()=name]`. -/
def responseChildren (doc : Node) (name : String) : List Node :=
  match rootNamed doc "Response" with
  | some response => response.childrenNamed name
  | none => []

/-- The status value `Responder`. -/
def statusResponder : String := "urn:oasis:names:tc:SAML:2.0:status:Responder"

/-- The status value `NoPassive`. -/
def statusNoPassive : String := "urn:oasis:names:tc:SAML:2.0:status:NoPassive"

/-- The status value `Success`. -/
def statusSuccess : String := "urn:oasis:names:tc:SAML:2.0:status:Success"

/-- The error of reading `.Value` of a missing attribute object. -/
def typeErrorValue : String := "TypeError: Cannot read property 'Value' of undefined"

/-- The part of `validatePostResponse` reached when the response has a
`Status` with a first `StatusCode`. -/
def statusCodeOutcome (o : Options) (validSignature : Bool) (status0 statusCode0 : Node) :
    Outcome :=
  if !statusCode0.x2jHasAttrs then .error typeErrorValue
  else
    let value := statusCode0.attr? "Value"
    let nested := (statusCode0.childrenNamed "StatusCode").head?
    let noPassive : Except String Bool :=
      if value == some statusResponder then
        match nested with
        | some nested0 =>
          if !nested0.x2jHasAttrs then .error typeErrorValue
          else .ok (nested0.attr? "Value" == some statusNoPassive)
        | none => .ok false
      else .ok false
    match noPassive with
    | .error e => .error e
    | .ok true =>
      if o.hasCert && !validSignature then .error "Invalid signature: NoPassive"
      else .success none false
    | .ok false =>
      if truthy value then
        let msgType := afterLastColon (jsStr value)
        if msgType != "Success" then
          match (status0.childrenNamed "StatusMessage").head? with
          | some statusMessage0 =>
            .statusError ("SAML provider returned " ++ msgType ++ " error: "
              ++ jsStr statusMessage0.x2jText) status0
          | none =>
            match nested with
            | some nested0 =>
              if !nested0.x2jHasAttrs then .error typeErrorValue
              else
                match nested0.attr? "Value" with
                | some v =>
                  .statusError ("SAML provider returned " ++ msgType ++ " error: "
                    ++ afterLastColon v) status0
                | none => .error "TypeError: Cannot read property 'match' of undefined"
            | none =>
              .statusError ("SAML provider returned " ++ msgType ++ " error: unspecified")
                status0
        else .error "Missing SAML assertion"
      else .error "Missing SAML assertion"

/-- The end of `validatePostResponse`: with no assertion, the status and
`LogoutResponse` handling on the xml2js view of the document. -/
def statusFallback (o : Options) (validSignature : Bool) (doc : Node) : Outcome :=
  match (rootNamed doc "Response").filter Node.x2jTruthy with
  | some response =>
    if !(response.childrenNamed "Assertion").isEmpty then .noCallback
    else
      match (response.childrenNamed "Status").head? with
      | some status0 =>
        match (status0.childrenNamed "StatusCode").head? with
        | some statusCode0 => statusCodeOutcome o validSignature status0 statusCode0
        | none => .error "Missing SAML assertion"
      | none => .error "Missing SAML assertion"
  | none =>
    if o.hasCert && !validSignature then .error "Invalid signature: No response found"
    else
      match (rootNamed doc "LogoutResponse").filter Node.x2jTruthy with
      | some _ => .success none true
      | none => .error "Unknown SAML response message"

/-- The query `/*[local-name()='Assertion']` on the decrypted document. -/
def decryptedAssertionsOf (decryptedDoc : Option Node) : List Node :=
  match decryptedDoc with
  | some root => if root.isElement && root.localName == "Assertion" then [root] else []
  | none => []

/-- The `then(function(certs) ...)` block of `validatePostResponse`: signature
checks and dispatch on the assertions of the response. -/
def validatePostResponseWithCerts (lib : Lib) (o : Options) (nowMs : Int) (doc : Node)
    (inResponseTo : Option String) (certs : List String) (cache : CacheProvider) :
    Outcome × CacheProvider :=
  let validSignature : Bool := o.hasCert && validateSignature lib doc doc certs
  let assertions := responseChildren doc "Assertion"
  let encryptedAssertions := responseChildren doc "EncryptedAssertion"
  if assertions.length + encryptedAssertions.length > 1 then
    (.error "Invalid signature: multiple assertions", cache)
  else
    match assertions with
    | [assertion0] =>
      if o.hasCert && !validSignature && !validateSignature lib doc assertion0 certs then
        (.error "Invalid signature", cache)
      else processValidlySignedAssertion lib o nowMs assertion0 doc inResponseTo cache
    | _ =>
      match encryptedAssertions with
      | [encryptedAssertion0] =>
        match o.decryptionPvk with
        | some key =>
          if key != "" then
            match lib.decrypt encryptedAssertion0 key with
            | .error e => (.error e, cache)
            | .ok decryptedDoc =>
              match decryptedAssertionsOf decryptedDoc with
              | [decryptedAssertion0] =>
                if o.hasCert && !validSignature
                    && !validateSignature lib decryptedAssertion0 decryptedAssertion0 certs then
                  (.error "Invalid signature from encrypted assertion", cache)
                else
                  processValidlySignedAssertion lib o nowMs decryptedAssertion0 doc
                    inResponseTo cache
              | _ => (.error "Invalid EncryptedAssertion content", cache)
          else (.error "No decryption key for encrypted SAML response", cache)
        | none => (.error "No decryption key for encrypted SAML response", cache)
      | _ => (statusFallback o validSignature doc, cache)

/-- `SAML.prototype.validatePostResponse`. -/
def validatePostResponse (lib : Lib) (o : Options) (nowMs : Int) (container : Container)
    (cache : CacheProvider) : Outcome × CacheProvider :=
  match container.SAMLResponse with
  | none => (.error "TypeError: the first argument must be a string", cache)
  | some samlResponse =>
    match lib.parsePost samlResponse with
    | .error _ => (.error "SAMLResponse is not valid base64-encoded XML", cache)
    | .ok doc =>
      let inResponseTo := responseInResponseTo doc
      match validateInResponseTo o inResponseTo cache with
      | (.error e, cache1) => (.error e, cache1)
      | (.ok (), cache1) =>
        match certsToCheck o with
        | .error e => (.error e, cache1)
        | .ok certs =>
          validatePostResponseWithCerts lib o nowMs doc inResponseTo (certs.getD []) cache1

/-! ## Logout messages: POST and Redirect bindings -/

/-- The function `processValidlySignedPostRequest`. -/
def processValidlySignedPostRequest (doc : Node) : Outcome :=
  match (rootNamed doc "LogoutRequest").filter Node.x2jTruthy with
  | some request =>
    if !request.x2jHasAttrs then .error "TypeError: Cannot read property 'ID' of undefined"
    else if !truthy (request.attr? "ID") then .error "Missing SAML LogoutRequest ID"
    else
      let profile := Profile.empty.set "ID" (.scalar (request.attr? "ID"))
      match (request.childrenNamed "Issuer").head? with
      | some issuer0 =>
        if !truthy issuer0.x2jText then .error "Missing SAML issuer"
        else
          let profile := profile.set "issuer" (.scalar issuer0.x2jText)
          match (request.childrenNamed "NameID").head? with
          | some nameID0 =>
            let profile := profile.set "nameID" (.scalar nameID0.x2jText)
            let profile :=
              if nameID0.x2jHasAttrs && truthy (nameID0.attr? "Format") then
                profile.set "nameIDFormat" (.scalar (nameID0.attr? "Format"))
              else profile
            let profile :=
              match (request.childrenNamed "SessionIndex").head? with
              | some sessionIndex0 => profile.set "sessionIndex" (.scalar sessionIndex0.x2jText)
              | none => profile
            .success (some profile) true
          | none => .error "Missing SAML NameID"
      | none => .error "Missing SAML issuer"
  | none => .error "Unknown SAML request message"

/-- `SAML.prototype.validatePostRequest`. -/
def validatePostRequest (lib : Lib) (o : Options) (container : Container) : Outcome :=
  match container.SAMLRequest with
  | none => .thrown "TypeError: the first argument must be a string"
  | some samlRequest =>
    match lib.parsePost samlRequest with
    | .error err => .error err
    | .ok doc =>
      match certsToCheck o with
      | .error e => .error e
      | .ok certs =>
        if o.hasCert && !validateSignature lib doc doc (certs.getD []) then
          .error "Invalid signature on documentElement"
        else processValidlySignedPostRequest doc

/-- `SAML.prototype.verifyIssuer`; `samlMessage` is `none` when the property
read that produced it gave `undefined`. -/
def verifyIssuer (o : Options) (samlMessage : Option Node) : Except String Unit :=
  if truthy o.idpIssuer then
    match samlMessage with
    | none => .error "TypeError: Cannot read property 'Issuer' of undefined"
    | some message =>
      match (message.childrenNamed "Issuer").head? with
      | some issuer0 =>
        if issuer0.x2jText != o.idpIssuer then
          .error ("Unknown SAML issuer. Expected: " ++ jsStr o.idpIssuer ++ " Received: "
            ++ jsStr issuer0.x2jText)
        else .ok ()
      | none => .error "Missing SAML issuer"
  else .ok ()

/-- `SAML.prototype.verifyLogoutRequest`. -/
def verifyLogoutRequest (lib : Lib) (o : Options) (nowMs : Int) (doc : Node) :
    Except String Unit :=
  match verifyIssuer o (rootNamed doc "LogoutRequest") with
  | .error e => .error e
  | .ok () =>
    match rootNamed doc "LogoutRequest" with
    | none => .error "TypeError: Cannot read property '$' of undefined"
    | some request =>
      if !request.x2jHasAttrs then
        .error "TypeError: Cannot read property 'NotBefore' of undefined"
      else
        match checkTimestampsValidityError lib o nowMs (request.attr? "NotBefore")
            (request.attr? "NotOnOrAfter") with
        | some conErr => .error conErr
        | none => .ok ()

/-- `SAML.prototype.verifyLogoutResponse`. -/
def verifyLogoutResponse (o : Options) (doc : Node) (cache : CacheProvider) :
    Except String Unit × CacheProvider :=
  match rootNamed doc "LogoutResponse" with
  | none => (.error "TypeError: Cannot read property 'Status' of undefined", cache)
  | some response =>
    match (response.childrenNamed "Status").head? with
    | none => (.error "TypeError: Cannot read property '0' of undefined", cache)
    | some status0 =>
      match (status0.childrenNamed "StatusCode").head? with
      | none => (.error "TypeError: Cannot read property '0' of undefined", cache)
      | some statusCode0 =>
        if !statusCode0.x2jHasAttrs then (.error typeErrorValue, cache)
        else
          let statusCode := statusCode0.attr? "Value"
          if statusCode != some statusSuccess then
            (.error ("Bad status code: " ++ jsStr statusCode), cache)
          else
            match verifyIssuer o (some response) with
            | .error e => (.error e, cache)
            | .ok () =>
              if !response.x2jHasAttrs then
                (.error "TypeError: Cannot read property 'InResponseTo' of undefined", cache)
              else
                let inResponseTo := response.attr? "InResponseTo"
                if truthy inResponseTo then validateInResponseTo o inResponseTo cache
                else (.ok (), cache)

/-- The method `Array.prototype.some` with a callback that may throw. -/
def someExcept {α : Type} (f : α → Except String Bool) : List α → Except String Bool
  | [] => .ok false
  | x :: xs =>
    match f x with
    | .error e => .error e
    | .ok true => .ok true
    | .ok false => someExcept f xs

/-- The function `validateSignatureForRedirect`. -/
def validateSignatureForRedirect (lib : Lib) (urlString signature : String)
    (alg : Option String) (cert : String) : Except String Bool :=
  let supportedAlgs := lib.getHashes.filter (fun h => lib.regExpTest h (jsStr alg))
  match supportedAlgs.getLast? with
  | none => .error (jsStr alg ++ " is not supported")
  | some hash => .ok (lib.cryptoVerify hash urlString cert signature)

/-- The property read `container[name]`. -/
def Container.get (container : Container) (name : String) : Option String :=
  if name == "SAMLRequest" then container.SAMLRequest
  else if name == "SAMLResponse" then container.SAMLResponse
  else if name == "RelayState" then container.RelayState
  else if name == "SigAlg" then container.SigAlg
  else if name == "Signature" then container.Signature
  else none

/-- The variable `samlMessageType` of `validateRedirect`. -/
def samlMessageTypeOf (container : Container) : String :=
  if truthy container.SAMLRequest then "SAMLRequest" else "SAMLResponse"

/-- The variable `urlString` of `hasValidSignatureForRedirect`. -/
def redirectUrlString (lib : Lib) (samlMessageType : String) (container : Container) : String :=
  let urlString := samlMessageType ++ "="
    ++ lib.encodeURIComponent (jsStr (container.get samlMessageType))
  let urlString :=
    if truthy container.RelayState then
      urlString ++ "&RelayState=" ++ lib.encodeURIComponent (jsStr container.RelayState)
    else urlString
  urlString ++ "&SigAlg=" ++ lib.encodeURIComponent (jsStr container.SigAlg)

/-- `SAML.prototype.hasValidSignatureForRedirect`. -/
def hasValidSignatureForRedirect (lib : Lib) (o : Options) (samlMessageType : String)
    (container : Container) : Except String Unit :=
  match container.Signature with
  | some signature =>
    if signature != "" && o.hasCert then
      match certsToCheck o with
      | .error e => .error e
      | .ok certs =>
        match someExcept (fun cert => validateSignatureForRedirect lib
            (redirectUrlString lib samlMessageType container) signature container.SigAlg cert)
            (certs.getD []) with
        | .error e => .error e
        | .ok hasValidQuerySignature =>
          if !hasValidQuerySignature then .error "Invalid signature" else .ok ()
    else .ok ()
  | none => .ok ()

/-- The function `processValidlySignedSamlLogout`. -/
def processValidlySignedSamlLogout (doc : Node) : Outcome :=
  match (rootNamed doc "LogoutResponse").filter Node.x2jTruthy with
  | some _ => .success none true
  | none =>
    match (rootNamed doc "LogoutRequest").filter Node.x2jTruthy with
    | some _ => processValidlySignedPostRequest doc
    | none => .error "Unknown SAML response message"

/-- `SAML.prototype.validateRedirect`. -/
def validateRedirect (lib : Lib) (o : Options) (nowMs : Int) (container : Container)
    (cache : CacheProvider) : Outcome × CacheProvider :=
  let samlMessageType := samlMessageTypeOf container
  match container.get samlMessageType with
  | none => (.thrown "TypeError: the first argument must be a string", cache)
  | some message =>
    match lib.parseRedirect message with
    | .error err => (.error err, cache)
    | .ok doc =>
      let verified : Except String Unit × CacheProvider :=
        if samlMessageType == "SAMLResponse" then verifyLogoutResponse o doc cache
        else (verifyLogoutRequest lib o nowMs doc, cache)
      match verified with
      | (.error e, cache1) => (.error e, cache1)
      | (.ok (), cache1) =>
        match hasValidSignatureForRedirect lib o samlMessageType container with
        | .error e => (.error e, cache1)
        | .ok () => (processValidlySignedSamlLogout doc, cache1)

/-! ## Outbound messages: escaping, signing, request documents -/

/-- The carriage return character. -/
def chCR : Char := Char.ofNat 13

/-- The line feed character. -/
def chLF : Char := Char.ofNat 10

/-- The apostrophe character. -/
def chApos : Char := Char.ofNat 39

/-- The double quote character. -/
def chQuot : Char := Char.ofNat 34

/-- The call `s.replace(/c/g, rep)` for a single character `c`. -/
def replaceChar (c : Char) (rep : List Char) (s : List Char) : List Char :=
  s.flatMap (fun x => if x = c then rep else [x])

/-- The call `s.replace(/\r\n/g, rep)`. -/
def replaceCrLf (rep : List Char) : List Char → List Char
  | [] => []
  | [c] => [c]
  | c :: d :: rest =>
    if c = chCR ∧ d = chLF then rep ++ replaceCrLf rep rest
    else c :: replaceCrLf rep (d :: rest)

/-- The call `s.replace(/[\r\n]/g, rep)`. -/
def replaceCrOrLf (rep : List Char) (s : List Char) : List Char :=
  s.flatMap (fun x => if x = chCR ∨ x = chLF then rep else [x])

/-- The function `quoteattr(s, preserveCR)` of `getAuthorizeForm`. -/
def quoteattr (s : String) (preserveCR : Bool) : String :=
  let preserveCR : List Char := if preserveCR then "&#13;".data else [chLF]
  String.mk
    (replaceCrOrLf preserveCR
      (replaceCrLf preserveCR
        (replaceChar '>' "&gt;".data
          (replaceChar '<' "&lt;".data
            (replaceChar chQuot "&quot;".data
              (replaceChar chApos "&apos;".data
                (replaceChar '&' "&amp;".data s.data)))))))

/-- The hidden inputs `getAuthorizeFormHelper` builds from the properties of
`samlMessage`: the name is spliced as it is, the value goes through
`quoteattr`. -/
def formInputs (samlMessage : List (String × String)) : String :=
  String.intercalate "\r\n" (samlMessage.map (fun kv =>
    "<input type=\"hidden\" name=\"" ++ kv.1 ++ "\" value=\"" ++ quoteattr kv.2 false
      ++ "\" />"))

/-- Property read `obj[key]` on a JavaScript object with string values, given
by its own properties in insertion order. -/
def objGet (obj : List (String × String)) (key : String) : Option String :=
  (obj.find? (fun e => e.1 == key)).map (·.2)

/-- Property write `obj[key] = value`. -/
def objSet (obj : List (String × String)) (key value : String) : List (String × String) :=
  if obj.any (fun e => e.1 == key) then
    obj.map (fun e => if e.1 == key then (key, value) else e)
  else obj ++ [(key, value)]

/-- The library functions the request builders call. -/
structure BuilderLib where
  /-- The call `crypto.createSign(algorithm).update(data).sign(key, 'base64')`:
  arguments are the algorithm, the data and the key. -/
  sign : String → String → Option String → String
  /-- The function `querystring.stringify` on the properties of an object, in
  insertion order. -/
  querystringStringify : List (String × String) → String

/-- The options, with those read by the request builders. -/
structure BuilderOptions extends Options where
  signatureAlgorithm : String
  privateCert : Option String
  entryPoint : String
  logoutUrl : String
  issuer : String
  callbackUrl : Option String
  protocol : Option String
  host : String
  path : String
  forceAuthn : Bool
  disableRequestACSUrl : Bool
  identifierFormat : Option String
  disableRequestedAuthnContext : Bool
  authnContext : List String
  RACComparison : String
  attributeConsumingServiceIndex : Option String
  providerName : Option String

/-- The user a logout request is built for (`req.user`). -/
structure User where
  nameID : String
  nameIDFormat : String
  nameQualifier : Option String
  spNameQualifier : Option String
  sessionIndex : Option String

/-- The part of the HTTP request the builders read: `req.protocol`,
`req.headers` with its `host`, and `req.user`. -/
structure Req where
  protocol : Option String
  headers : Option (Option String)
  user : Option User

/-- The `SigAlg` URI and the signer chosen by the `switch` of `signRequest`. -/
def signatureAlgorithmOf (signatureAlgorithm : String) : String × String :=
  if signatureAlgorithm == "sha256" then
    ("http://www.w3.org/2001/04/xmldsig-more#rsa-sha256", "RSA-SHA256")
  else if signatureAlgorithm == "sha512" then
    ("http://www.w3.org/2001/04/xmldsig-more#rsa-sha512", "RSA-SHA512")
  else ("http://www.w3.org/2000/09/xmldsig#rsa-sha1", "RSA-SHA1")

/-- The object `samlMessageToSign` of `signRequest`. -/
def samlMessageToSign (samlMessage : List (String × String)) : List (String × String) :=
  let toSign : List (String × String) := []
  let toSign :=
    if truthy (objGet samlMessage "SAMLRequest") then
      objSet toSign "SAMLRequest" (jsStr (objGet samlMessage "SAMLRequest"))
    else toSign
  let toSign :=
    if truthy (objGet samlMessage "SAMLResponse") then
      objSet toSign "SAMLResponse" (jsStr (objGet samlMessage "SAMLResponse"))
    else toSign
  let toSign :=
    if truthy (objGet samlMessage "RelayState") then
      objSet toSign "RelayState" (jsStr (objGet samlMessage "RelayState"))
    else toSign
  if truthy (objGet samlMessage "SigAlg") then
    objSet toSign "SigAlg" (jsStr (objGet samlMessage "SigAlg"))
  else toSign

/-- `SAML.prototype.signRequest`: the message after the call, with `SigAlg`
and `Signature` set. -/
def signRequest (blib : BuilderLib) (o : BuilderOptions) (samlMessage : List (String × String)) :
    List (String × String) :=
  let samlMessage := objSet samlMessage "SigAlg" (signatureAlgorithmOf o.signatureAlgorithm).1
  let signature := blib.sign (signatureAlgorithmOf o.signatureAlgorithm).2
    (blib.querystringStringify (samlMessageToSign samlMessage)) o.privateCert
  objSet samlMessage "Signature" signature

/-- Modelled from the spec: `save(key, value) → ack` as called through
`Q.ninvoke`; `failure` is the error the provider reports for this call, if it
does, in which case nothing is stored. -/
def CacheProvider.trySave (c : CacheProvider) (failure : Option String) (key value : String) :
    Except String Unit × CacheProvider :=
  match failure with
  | some err => (.error err, { c with log := c.log ++ [.save key value] })
  | none => (.ok (), c.save key value)

/-- The SAML protocol namespace. -/
def protocolNs : String := "urn:oasis:names:tc:SAML:2.0:protocol"

/-- The SAML assertion namespace. -/
def assertionNs : String := "urn:oasis:names:tc:SAML:2.0:assertion"

/-- An attribute that is set only when its value is truthy. -/
def optionalAttr (name : String) (value : Option String) : List (String × String) :=
  if truthy value then [(name, jsStr value)] else []

/-- An attribute that is set only when its value is neither `null` nor
`undefined`. -/
def presentAttr (name : String) (value : Option String) : List (String × String) :=
  match value with
  | some v => [(name, v)]
  | none => []

/-- `SAML.prototype.getProtocol`. -/
def getProtocol (o : BuilderOptions) (req : Req) : String :=
  if truthy o.protocol then jsStr o.protocol
  else (if truthy req.protocol then jsStr req.protocol else "http") ++ "://"

/-- `SAML.prototype.getCallbackUrl`. -/
def getCallbackUrl (o : BuilderOptions) (req : Req) : String :=
  if truthy o.callbackUrl then jsStr o.callbackUrl
  else
    let host : String :=
      match req.headers with
      | some h => jsStr h
      | none => o.host
    getProtocol o req ++ host ++ o.path

/-- The document `xmlbuilder.create(request).end()` of
`generateAuthorizeRequest`, as the tree its text parses to. -/
def authnRequestDocument (o : BuilderOptions) (req : Req) (isPassive : Bool)
    (id instant : String) : Node :=
  .elem "AuthnRequest" protocolNs
    ([("xmlns:samlp", protocolNs), ("ID", id), ("Version", "2.0"), ("IssueInstant", instant),
      ("ProtocolBinding", "urn:oasis:names:tc:SAML:2.0:bindings:HTTP-POST"),
      ("Destination", o.entryPoint)]
      ++ (if isPassive then [("IsPassive", "true")] else [])
      ++ (if o.forceAuthn then [("ForceAuthn", "true")] else [])
      ++ (if !o.disableRequestACSUrl then
            [("AssertionConsumerServiceURL", getCallbackUrl o req)] else [])
      ++ optionalAttr "AttributeConsumingServiceIndex" o.attributeConsumingServiceIndex
      ++ optionalAttr "ProviderName" o.providerName)
    ([.elem "Issuer" assertionNs [("xmlns:saml", assertionNs)] [.text o.issuer]]
      ++ (if truthy o.identifierFormat then
            [.elem "NameIDPolicy" protocolNs
              [("xmlns:samlp", protocolNs), ("Format", jsStr o.identifierFormat),
               ("AllowCreate", "true")] []]
          else [])
      ++ (if !o.disableRequestedAuthnContext then
            [.elem "RequestedAuthnContext" protocolNs
              [("xmlns:samlp", protocolNs), ("Comparison", o.RACComparison)]
              (o.authnContext.map (fun value =>
                .elem "AuthnContextClassRef" assertionNs [("xmlns:saml", assertionNs)]
                  [.text value]))]
          else []))

/-- `SAML.prototype.generateAuthorizeRequest`: what the callback receives (the
error, or the request document) and the cache afterwards.  `uniqueId` is the
value of `generateUniqueID()`, `instant` that of `generateInstant()`, and
`saveFailure` the error of the cache provider on `save`, if it fails. -/
def generateAuthorizeRequest (o : BuilderOptions) (req : Req) (isPassive : Bool)
    (uniqueId instant : String) (saveFailure : Option String) (cache : CacheProvider) :
    Except String Node × CacheProvider :=
  let id := "_" ++ uniqueId
  let saved : Except String Unit × CacheProvider :=
    if o.validateInResponseTo then cache.trySave saveFailure id instant
    else (.ok (), cache)
  match saved with
  | (.error err, cache1) => (.error err, cache1)
  | (.ok (), cache1) => (.ok (authnRequestDocument o req isPassive id instant), cache1)

/-- The document `xmlbuilder.create(request).end()` of `generateLogoutRequest`,
as the tree its text parses to. -/
def logoutRequestDocument (o : BuilderOptions) (user : User) (id instant : String) : Node :=
  .elem "LogoutRequest" protocolNs
    [("xmlns:samlp", protocolNs), ("xmlns:saml", assertionNs), ("ID", id), ("Version", "2.0"),
     ("IssueInstant", instant), ("Destination", o.logoutUrl)]
    ([.elem "Issuer" assertionNs [("xmlns:saml", assertionNs)] [.text o.issuer],
      .elem "NameID" assertionNs
        ([("Format", user.nameIDFormat)] ++ presentAttr "NameQualifier" user.nameQualifier
          ++ presentAttr "SPNameQualifier" user.spNameQualifier)
        [.text user.nameID]]
      ++ (if truthy user.sessionIndex then
            [.elem "SessionIndex" protocolNs [("xmlns:saml2p", protocolNs)]
              [.text (jsStr user.sessionIndex)]]
          else []))

/-- `SAML.prototype.generateLogoutRequest`: the promised request document, or
the error, and the cache afterwards; parameters as for
`generateAuthorizeRequest`. -/
def generateLogoutRequest (o : BuilderOptions) (req : Req) (uniqueId instant : String)
    (saveFailure : Option String) (cache : CacheProvider) :
    Except String Node × CacheProvider :=
  let id := "_" ++ uniqueId
  match req.user with
  | none => (.error "TypeError: Cannot read property 'nameIDFormat' of undefined", cache)
  | some user =>
    match cache.trySave saveFailure id instant with
    | (.error err, cache1) => (.error err, cache1)
    | (.ok (), cache1) => (.ok (logoutRequestDocument o user id instant), cache1)

/-! ## Notions used to state the properties -/

/-- The elements of a document that bear an `ID` or an `Id` attribute equal to
`refId`. -/
def elementsWithId (doc : Node) (refId : String) : List Node :=
  (allElements doc).filter (fun n => n.attr? "ID" == some refId || n.attr? "Id" == some refId)

/-- The refusal of xml-crypto `checkSignature` on an ambiguous reference: when
a reference of the signature names a non-empty id that more than one element
of the document bears under `ID` or `Id`, the check does not succeed.  (The
library throws in that case, which ends the validation without a result; the
answer is read as `false`.  The empty reference stands for the whole document
and is resolved without a search by id.) -/
def Lib.refusesDuplicateIds (lib : Lib) : Prop :=
  ∀ (cert : String) (signature fullXml : Node) (refUri : String),
    refUri ∈ lib.references signature → refIdOf refUri ≠ "" →
    1 < (elementsWithId fullXml (refIdOf refUri)).length →
    lib.checkSignature cert signature fullXml = false

/-- The `Audience` values an `AudienceRestriction` lists. -/
def audienceValues (restriction : Node) : List String :=
  (restriction.childrenNamed "Audience").filterMap Node.x2jText

/-- The first `Audience` value of an `AudienceRestriction`, when its first
`Audience` element has one. -/
def firstAudienceValue (restriction : Node) : Option String :=
  (restriction.childrenNamed "Audience").head?.bind Node.x2jText

/-- What an `Attribute` element contributes to the profile: nothing without
`AttributeValue` children; under its `Name` (read as `attribute.$.Name`) the
text of the value when there is exactly one, and the list of the value texts
in document order otherwise. -/
def attributeContribution (attr : Node) : Option (String × PVal) :=
  match attr.childrenNamed "AttributeValue" with
  | [] => none
  | [value0] => some (jsStr (attr.attr? "Name"), .scalar (attrValueMapper value0))
  | values => some (jsStr (attr.attr? "Name"), .list (values.map attrValueMapper))

/-- The profile after the contributions of a list of attributes, in order. -/
def contributeAll (profile : Profile) (attrs : List Node) : Profile :=
  attrs.foldl (fun p attr =>
    match attributeContribution attr with
    | some (name, v) => p.set name v
    | none => p) profile

/-- The semantic verification `validateRedirect` runs before the signature
check: `verifyLogoutResponse` for a `SAMLResponse`, `verifyLogoutRequest`
otherwise. -/
def semanticVerification (lib : Lib) (o : Options) (nowMs : Int) (samlMessageType : String)
    (doc : Node) (cache : CacheProvider) : Except String Unit × CacheProvider :=
  if samlMessageType == "SAMLResponse" then verifyLogoutResponse o doc cache
  else (verifyLogoutRequest lib o nowMs doc, cache)

/-- The first `Status` of the response has a first `StatusCode` with value
`Responder`, whose first nested `StatusCode` has value `NoPassive`. -/
def noPassiveStatus (doc : Node) : Bool :=
  match (doc.childrenNamed "Status").head? with
  | some status0 =>
    match (status0.childrenNamed "StatusCode").head? with
    | some statusCode0 =>
      statusCode0.attr? "Value" == some statusResponder &&
      (match (statusCode0.childrenNamed "StatusCode").head? with
       | some nested0 => nested0.attr? "Value" == some statusNoPassive
       | none => false)
    | none => false
  | none => false

/-- Each CRLF pair and each lone CR becomes a single LF. -/
def normalizeLineEnds : List Char → List Char
  | [] => []
  | [c] => if c = chCR then [chLF] else [c]
  | c :: d :: rest =>
    if c = chCR then
      if d = chLF then chLF :: normalizeLineEnds rest
      else chLF :: normalizeLineEnds (d :: rest)
    else c :: normalizeLineEnds (d :: rest)

/-- The predefined entity that stands for a character, or the character. -/
def entityOf (c : Char) : List Char :=
  if c = '&' then "&amp;".data
  else if c = chApos then "&apos;".data
  else if c = chQuot then "&quot;".data
  else if c = '<' then "&lt;".data
  else if c = '>' then "&gt;".data
  else [c]

/-- The five predefined entities. -/
def entities : List (List Char) :=
  ["&amp;".data, "&apos;".data, "&quot;".data, "&lt;".data, "&gt;".data]

/-- Every `&` of the text begins one of the five predefined entities. -/
def ampsBeginEntities : List Char → Bool
  | [] => true
  | c :: rest =>
    (c != '&' || entities.any (fun e => e.isPrefixOf (c :: rest))) && ampsBeginEntities rest

/-- The text has no apostrophe, double quote, `<`, `>` or carriage return. -/
def attributeSafe (l : List Char) : Bool :=
  l.all (fun c => c != chApos && c != chQuot && c != '<' && c != '>' && c != chCR)

/-- The fields the specification has signed: `SAMLRequest`, `SAMLResponse`,
`RelayState`, each only when present with a non-empty value, in that order,
followed by `SigAlg`. -/
def signedFields (samlMessage : List (String × String)) (sigAlg : String) :
    List (String × String) :=
  (["SAMLRequest", "SAMLResponse", "RelayState"].filterMap (fun key =>
    match objGet samlMessage key with
    | some v => if v = "" then none else some (key, v)
    | none => none)) ++ [("SigAlg", sigAlg)]

/-- The profile a round trip of a logout request is expected to yield: the
request ID, the issuer, and the name identifier, format and session index of
the user. -/
def expectedLogoutProfile (o : BuilderOptions) (user : User) (id : String) : Profile :=
  { fields :=
      [("ID", .scalar (some id)), ("issuer", .scalar (some o.issuer)),
       ("nameID", .scalar (some user.nameID)),
       ("nameIDFormat", .scalar (some user.nameIDFormat))]
      ++ (match user.sessionIndex with
          | some s => [("sessionIndex", .scalar (some s))]
          | none => []),
    assertion := none,
    samlResponse := none }

/-- The property `key` of the profile an outcome carries, if any. -/
def Outcome.profileField (out : Outcome) (key : String) : Option PVal :=
  match out with
  | .success (some p) _ => p.get key
  | _ => none

/-- The `Attribute` elements of the `AttributeStatement`s of an assertion, in
document order. -/
def attributeElements (assertion : Node) : List Node :=
  assertion.children.flatMap (fun st =>
    if st.isElement && st.localName == "AttributeStatement" then
      st.children.filter (fun a => a.isElement && a.localName == "Attribute")
    else [])

/-- An `Attribute` the attribute loop can read: it has no child element named
`hasOwnProperty`, and it has an XML attribute when it has `AttributeValue`
children (its name is read as `attribute.$.Name`). -/
def readableAttribute (attr : Node) : Bool :=
  (attr.childrenNamed "hasOwnProperty").isEmpty &&
    ((attr.childrenNamed "AttributeValue").isEmpty || attr.x2jHasAttrs)

/-- The profile after the writes of a list of attributes, in order: each
contribution is written under its name, except that a write under `__proto__`
creates no property. -/
def writeContributions (profile : Profile) (attrs : List Node) : Profile :=
  attrs.foldl (fun p attr =>
    match attributeContribution attr with
    | some (name, v) => if name = "__proto__" then p else p.set name v
    | none => p) profile

/-- The login profile expected from an assertion that passes its checks: the
identity fields, then the writes of its attributes, then the `mail` / `email`
defaults; the names of the three accessors hold the accessors, not data. -/
def expectedLoginProfile (xml samlResponseXml : Node) : Profile :=
  let profile := mailDefaults (writeContributions (identityFields xml) (attributeElements xml))
  { fields := profile.fields.filter (fun e =>
      e.1 != "getAssertionXml" && e.1 != "getAssertion" && e.1 != "getSamlResponseXml"),
    assertion := some xml,
    samlResponse := some samlResponseXml }

/-- The names under which the returned profile need not hold the value an
attribute has written: the prototype key, the two names the defaults may
replace, and the accessor names. -/
def reservedNames : List String :=
  ["__proto__", "mail", "email", "getAssertionXml", "getAssertion", "getSamlResponseXml"]

/-! ## Sample messages and libraries

Concrete inputs on which the definitions are evaluated. -/

namespace Sample

/-- A `Signature` element with one `Reference` to `uri`. -/
def signatureTo (uri : String) : Node :=
  .elem "Signature" dsigNs [] [.elem "SignedInfo" dsigNs []
    [.elem "Reference" dsigNs [("URI", uri)] []]]

/-- The reference URIs of a `Signature` element: the `URI` of each of its
`Reference` elements. -/
def referencesOf (sig : Node) : List String :=
  (sig.descendants.filter (fun n => n.localName == "Reference")).map
    (fun n => n.getAttribute "URI")

/-- The number of candidates xml-crypto finds for a referenced id: for each of
the names `Id`, `ID` and `id`, the elements with an attribute of that local
name whose value is the id. -/
def idCandidates (doc : Node) (refId : String) : Nat :=
  (["Id", "ID", "id"].map (fun name =>
    ((allElements doc).filter (fun n =>
      n.attrs.any (fun a => afterLastColon a.1 == name && a.2 == refId))).length)).sum

/-- Whether xml-crypto takes up the reference `uri` in `doc`: the empty
reference stands for the whole document; any other id must have no apostrophe
and exactly one candidate (with none the check fails, with several the library
refuses the document). -/
def resolves (doc : Node) (uri : String) : Bool :=
  refIdOf uri == "" ||
    (!(refIdOf uri).data.contains chApos && idCandidates doc (refIdOf uri) == 1)

/-- A library whose signature check accepts, when `accept` is set, every
signature all of whose references it can take up in the document: references
are read from the `Reference` elements of the signature, parsing yields `doc`,
and two dates are understood. -/
def libWith (accept : Bool) (doc : Node) : Lib where
  references := referencesOf
  checkSignature := fun _ sig d => accept && (referencesOf sig).all (resolves d)
  xpath := fun _ _ => []
  parsePost := fun _ => .ok doc
  parseRedirect := fun _ => .ok doc
  decrypt := fun _ _ => .error "decryption failed"
  dateParse := fun s =>
    if s == "2020-01-01T00:00:00.000Z" then some 1577836800000
    else if s == "2020-01-01T01:00:00.000Z" then some 1577840400000
    else none
  encodeURIComponent := fun s => s
  getHashes := ["sha1", "sha256"]
  regExpTest := fun h alg => h == alg
  cryptoVerify := fun _ _ _ _ => accept

/-- An unsigned element. -/
def unsignedNode : Node := .elem "Response" "" [("ID", "a")] []

/-- An element with two signatures. -/
def twiceSignedNode : Node :=
  .elem "Response" "" [("ID", "a")] [signatureTo "#a", signatureTo "#a"]

/-- An element `ID="a"` whose signature refers to `#b`. -/
def misreferencedNode : Node := .elem "Response" "" [("ID", "a")] [signatureTo "#b"]

/-- A document in which the signed document element has `ID="a"` and another
element has `Id="a"`. -/
def mixedSpellingDoc : Node :=
  .elem "Response" "" [("ID", "a")] [signatureTo "#a", .elem "Extension" "" [("Id", "a")] []]

/-- A document in which the signed document element and another element both
have `ID="a"`. -/
def sameSpellingDoc : Node :=
  .elem "Response" "" [("ID", "a")] [signatureTo "#a", .elem "Extension" "" [("ID", "a")] []]

/-- A document signed as a whole (empty reference) in which the document
element and another element both have `ID=""`. -/
def emptyIdDoc : Node :=
  .elem "Response" "" [("ID", "")] [signatureTo "", .elem "Extension" "" [("ID", "")] []]

/-- A document signed as a whole (empty reference) whose document element has
neither `ID` nor `Id`. -/
def anonymousDoc : Node := .elem "Response" "" [] [signatureTo ""]

/-- A document whose document element has an empty `ID` and `Id="x"`, signed
with a reference to `#x`. -/
def idFallbackDoc : Node :=
  .elem "Response" "" [("ID", ""), ("Id", "x")] [signatureTo "#x"]

/-- Options with no certificate, no replay validation and no audience. -/
def plainOptions : Options where
  cert := .absent
  validateInResponseTo := false
  acceptedClockSkewMs := 0
  requestIdExpirationPeriodMs := 28800000
  audience := none
  decryptionPvk := none
  idpIssuer := none

/-- An element `name` holding the text `value`. -/
def textElem (name value : String) : Node := .elem name "" [] [.text value]

/-- An `AudienceRestriction` listing `other` first and `sp` second. -/
def twoAudienceRestriction : Node :=
  .elem "AudienceRestriction" "" [] [textElem "Audience" "other", textElem "Audience" "sp"]

/-- A container with the POST field `SAMLResponse` only. -/
def postResponseContainer : Container where
  SAMLRequest := none
  SAMLResponse := some "PHNhbWxwOlJlc3BvbnNlPg=="
  RelayState := none
  SigAlg := none
  Signature := none

/-- A response with two assertions. -/
def twoAssertionResponse : Node :=
  .elem "Response" "" [("ID", "a")]
    [.elem "Assertion" "" [("ID", "b")] [], .elem "Assertion" "" [("ID", "c")] []]

/-- Options with the certificate `cert` and replay validation enabled. -/
def certOptions : Options where
  cert := .static ["cert"]
  validateInResponseTo := true
  acceptedClockSkewMs := 0
  requestIdExpirationPeriodMs := 28800000
  audience := none
  decryptionPvk := none
  idpIssuer := none

/-- An assertion for `user@example.com` whose `SubjectConfirmationData` has no
`InResponseTo` attribute. -/
def bearerAssertion : Node :=
  .elem "Assertion" "urn:oasis:names:tc:SAML:2.0:assertion" [("ID", "b")]
    [textElem "Issuer" "idp",
     .elem "Subject" "" []
       [textElem "NameID" "user@example.com",
        .elem "SubjectConfirmation" "" [("Method", "urn:oasis:names:tc:SAML:2.0:cm:bearer")]
          [.elem "SubjectConfirmationData" "" [("Recipient", "https://sp.example/acs")] []]]]

/-- A signed response to request `req1` carrying `bearerAssertion`. -/
def signedResponse : Node :=
  .elem "Response" "urn:oasis:names:tc:SAML:2.0:protocol"
    [("ID", "a"), ("InResponseTo", "req1")] [signatureTo "#a", bearerAssertion]

/-- The same response without its signature. -/
def unsignedResponse : Node :=
  .elem "Response" "urn:oasis:names:tc:SAML:2.0:protocol"
    [("ID", "a"), ("InResponseTo", "req1")] [bearerAssertion]

/-- A cache that holds the request id `req1`. -/
def pendingCache : CacheProvider :=
  { store := [("req1", "2020-01-01T00:00:00.000Z")], log := [] }

/-- A `LogoutRequest` for `user@example.com`. -/
def logoutRequest : Node :=
  .elem "LogoutRequest" "urn:oasis:names:tc:SAML:2.0:protocol" [("ID", "lr1")]
    [textElem "Issuer" "idp", textElem "NameID" "user@example.com"]

/-- A redirect container with the field `SAMLRequest` and no `Signature`. -/
def unsignedRedirect : Container where
  SAMLRequest := some "fZFBa8MwDIX"
  SAMLResponse := none
  RelayState := none
  SigAlg := none
  Signature := none

/-- The same redirect container with a `Signature` and `SigAlg`. -/
def signedRedirect : Container where
  SAMLRequest := some "fZFBa8MwDIX"
  SAMLResponse := none
  RelayState := none
  SigAlg := some "sha256"
  Signature := some "c2ln"

/-- An empty cache. -/
def emptyCache : CacheProvider := { store := [], log := [] }

/-- A library like `libWith false doc` whose signature check accepts exactly
the certificate `good`, for a signature all of whose references it can take up
in the document. -/
def libTrusting (good : String) (doc : Node) : Lib :=
  { libWith false doc with
    checkSignature := fun cert sig d => cert == good && (referencesOf sig).all (resolves d) }

/-- An assertion with two `Conditions` elements. -/
def twoConditionsAssertion : Node :=
  .elem "Assertion" "urn:oasis:names:tc:SAML:2.0:assertion" [("ID", "b")]
    [textElem "Issuer" "idp",
     .elem "Conditions" "" [("NotBefore", "2020-01-01T00:00:00.000Z")] [],
     .elem "Conditions" "" [("NotOnOrAfter", "2020-01-01T01:00:00.000Z")] []]

/-- An `Attribute` named `groups` with two values. -/
def groupsAttribute : Node :=
  .elem "Attribute" "" [("Name", "groups")]
    [textElem "AttributeValue" "staff", textElem "AttributeValue" "admin"]

/-- An `Attribute` named `mail` with one value. -/
def mailAttribute : Node :=
  .elem "Attribute" "" [("Name", "mail")] [textElem "AttributeValue" "user@example.com"]

/-- A `LogoutResponse` to request `req1` with the status `value`. -/
def logoutResponseWith (value : String) : Node :=
  .elem "LogoutResponse" "urn:oasis:names:tc:SAML:2.0:protocol"
    [("ID", "lrs1"), ("InResponseTo", "req1")]
    [textElem "Issuer" "idp",
     .elem "Status" "" [] [.elem "StatusCode" "" [("Value", value)] []]]

/-- A redirect container with the field `SAMLResponse`, a `SigAlg` and a
`Signature`. -/
def signedResponseRedirect : Container where
  SAMLRequest := none
  SAMLResponse := some "fZFBa8MwDIX"
  RelayState := none
  SigAlg := some "sha256"
  Signature := some "c2ln"

/-- Options with the expected issuer `idp`, no certificate and no replay
validation. -/
def issuerOptions : Options where
  cert := .absent
  validateInResponseTo := false
  acceptedClockSkewMs := 0
  requestIdExpirationPeriodMs := 28800000
  audience := none
  decryptionPvk := none
  idpIssuer := some "idp"

/-- A `LogoutRequest` issued by `intruder`. -/
def foreignLogoutRequest : Node :=
  .elem "LogoutRequest" "urn:oasis:names:tc:SAML:2.0:protocol" [("ID", "lr2")]
    [textElem "Issuer" "intruder", textElem "NameID" "user@example.com"]

/-- A `LogoutRequest` issued by `idp` that expired at
`2020-01-01T00:00:00.000Z`. -/
def expiredLogoutRequest : Node :=
  .elem "LogoutRequest" "urn:oasis:names:tc:SAML:2.0:protocol"
    [("ID", "lr3"), ("NotOnOrAfter", "2020-01-01T00:00:00.000Z")]
    [textElem "Issuer" "idp", textElem "NameID" "user@example.com"]

/-- An unsigned response declining passive login. -/
def noPassiveResponse : Node :=
  .elem "Response" "urn:oasis:names:tc:SAML:2.0:protocol" [("ID", "a")]
    [.elem "Status" "" []
      [.elem "StatusCode" "" [("Value", statusResponder)]
        [.elem "StatusCode" "" [("Value", statusNoPassive)] []]]]

/-- Options with the certificate `cert` and no replay validation. -/
def certOnlyOptions : Options where
  cert := .static ["cert"]
  validateInResponseTo := false
  acceptedClockSkewMs := 0
  requestIdExpirationPeriodMs := 28800000
  audience := none
  decryptionPvk := none
  idpIssuer := none

/-- A signing library that shows what it is given. -/
def builderLib : BuilderLib where
  sign := fun alg data _ => alg ++ "(" ++ data ++ ")"
  querystringStringify := fun fields =>
    String.intercalate "&" (fields.map (fun kv => kv.1 ++ "=" ++ kv.2))

/-- Builder options over `plainOptions`, signing with `sha256`. -/
def builderOptions : BuilderOptions where
  toOptions := plainOptions
  signatureAlgorithm := "sha256"
  privateCert := some "key"
  entryPoint := "https://idp.example/saml2"
  logoutUrl := "https://idp.example/slo"
  issuer := "sp-test"
  callbackUrl := none
  protocol := none
  host := "localhost"
  path := "/saml/consume"
  forceAuthn := false
  disableRequestACSUrl := false
  identifierFormat := some "urn:oasis:names:tc:SAML:1.1:nameid-format:emailAddress"
  disableRequestedAuthnContext := false
  authnContext := ["urn:oasis:names:tc:SAML:2.0:ac:classes:PasswordProtectedTransport"]
  RACComparison := "exact"
  attributeConsumingServiceIndex := none
  providerName := none

/-- The same builder options with replay validation enabled. -/
def trackingBuilderOptions : BuilderOptions :=
  { builderOptions with toOptions := { plainOptions with validateInResponseTo := true } }

/-- A redirect message with an additional parameter. -/
def outboundMessage : List (String × String) :=
  [("SAMLRequest", "fZFBa8MwDIX"), ("RelayState", "/home"), ("lang", "en")]

/-- A request without headers and user. -/
def plainReq : Req := { protocol := none, headers := none, user := none }

/-- A user with name identifier, format and session index. -/
def someUser : User where
  nameID := "user@example.com"
  nameIDFormat := "urn:oasis:names:tc:SAML:1.1:nameid-format:emailAddress"
  nameQualifier := none
  spNameQualifier := none
  sessionIndex := some "_session1"

/-- A user whose name identifier is a single space. -/
def blankUser : User where
  nameID := " "
  nameIDFormat := "urn:oasis:names:tc:SAML:1.1:nameid-format:emailAddress"
  nameQualifier := none
  spNameQualifier := none
  sessionIndex := none

/-- A request made by `user`. -/
def reqOf (user : User) : Req := { protocol := none, headers := none, user := some user }

/-- The logout request generated for `user` with the unique id `a1b2`. -/
def generatedLogoutRequest (user : User) : Node :=
  logoutRequestDocument builderOptions user "_a1b2" "2020-01-01T00:00:00.000Z"

/-- An assertion whose attributes reuse the names of the identity fields and
repeat the name `role`. -/
def overridingAssertion : Node :=
  .elem "Assertion" "urn:oasis:names:tc:SAML:2.0:assertion" [("ID", "b")]
    [textElem "Issuer" "idp",
     .elem "AuthnStatement" "" [("SessionIndex", "s1")] [],
     .elem "Subject" "" [] [textElem "NameID" "x"],
     .elem "AttributeStatement" "" []
       [.elem "Attribute" "" [("Name", "nameID")] [textElem "AttributeValue" "y"],
        .elem "Attribute" "" [("Name", "issuer")] [textElem "AttributeValue" "other"],
        .elem "Attribute" "" [("Name", "sessionIndex")] [textElem "AttributeValue" "s2"],
        .elem "Attribute" "" [("Name", "role")] [textElem "AttributeValue" "reader"],
        .elem "Attribute" "" [("Name", "role")] [textElem "AttributeValue" "writer"]]]

/-- An unsigned response carrying `bearerAssertion`, without `InResponseTo`. -/
def unsolicitedResponse : Node :=
  .elem "Response" "urn:oasis:names:tc:SAML:2.0:protocol" [("ID", "a")] [bearerAssertion]

/-- An assertion issued by `idp` with the given `Attribute` elements in one
`AttributeStatement`. -/
def assertionWith (attrs : List Node) : Node :=
  .elem "Assertion" "urn:oasis:names:tc:SAML:2.0:assertion" [("ID", "b")]
    [textElem "Issuer" "idp", .elem "AttributeStatement" "" [] attrs]

/-- An assertion with two `AttributeStatement`s: `groups` (two values) and an
attribute without value in the first, `mail` (one value) in the second. -/
def attributeAssertion : Node :=
  .elem "Assertion" "urn:oasis:names:tc:SAML:2.0:assertion" [("ID", "b")]
    [textElem "Issuer" "idp",
     .elem "AttributeStatement" "" []
       [groupsAttribute, .elem "Attribute" "" [("Name", "unused")] []],
     .elem "AttributeStatement" "" [] [mailAttribute]]

/-- An `Attribute` named `mail` whose single value is empty. -/
def emptyMailAttribute : Node :=
  .elem "Attribute" "" [("Name", "mail")] [.elem "AttributeValue" "" [] []]

/-- An `Attribute` named by the mail OID with the value `user@example.com`. -/
def mailOidAttribute : Node :=
  .elem "Attribute" "" [("Name", mailOid)] [textElem "AttributeValue" "user@example.com"]

/-- An `Attribute` named `__proto__` with one value. -/
def protoAttribute : Node :=
  .elem "Attribute" "" [("Name", "__proto__")] [textElem "AttributeValue" "v"]

/-- An `Attribute` named `getAssertion` with one value. -/
def accessorAttribute : Node :=
  .elem "Attribute" "" [("Name", "getAssertion")] [textElem "AttributeValue" "v"]

/-- An `Attribute` element without XML attributes, with one value. -/
def bareAttribute : Node :=
  .elem "Attribute" "" [] [textElem "AttributeValue" "v"]

end Sample

/-! ## Theorems -/

/-- C2: when the number of XML-DSig `Signature` elements found under the node
is not exactly one, `validateSignature` returns false for every library
behaviour (whatever the cryptographic check would answer) and every
certificate list. -/
theorem validateSignature_false_of_signature_count (fullXml currentNode : Node)
    (h : (xpathSignatures currentNode).length ≠ 1) :
    ∀ (lib : Lib) (certs : List String),
      validateSignature lib fullXml currentNode certs = false := by
  intro lib certs
  simp [validateSignature, h]

/-- Witness for C2: an unsigned element, with a library that accepts every
signature. -/
theorem validateSignature_false_of_signature_count_witness :
    (xpathSignatures Sample.unsignedNode).length ≠ 1 ∧
    validateSignature (Sample.libWith true Sample.unsignedNode) Sample.unsignedNode
      Sample.unsignedNode ["cert"] = false :=
  ⟨by decide,
   validateSignature_false_of_signature_count Sample.unsignedNode Sample.unsignedNode
     (by decide) (Sample.libWith true Sample.unsignedNode) ["cert"]⟩

/-- C3, as amended: `validateSignatureForCert` returns false, for every
certificate and every answer of the cryptographic check, when the references
of the signature are not exactly one, or when the URI of its reference with
one leading `#` removed differs from what `getAttribute` reads on the target
node: the value of `ID` when that is not empty, otherwise the value of `Id`,
an absent attribute being read as the empty string. -/
theorem validateSignatureForCert_false_of_reference (lib : Lib) (signature : Node)
    (cert : String) (fullXml currentNode : Node)
    (h : (lib.references signature).length ≠ 1 ∨
      ∃ refUri, lib.references signature = [refUri] ∧
        refIdOf refUri ≠
          (if currentNode.getAttribute "ID" = "" then currentNode.getAttribute "Id"
           else currentNode.getAttribute "ID")) :
    validateSignatureForCert lib signature cert fullXml currentNode = false := by
  rcases h with h | ⟨refUri, hrefs, hne⟩
  · simp [validateSignatureForCert, h]
  · have hid : currentNode.getAttribute (idAttributeOf currentNode) ≠ refIdOf refUri := by
      intro heq
      apply hne
      rw [← heq]
      unfold idAttributeOf
      by_cases hID : currentNode.getAttribute "ID" = "" <;> simp [hID]
    simp [validateSignatureForCert, hrefs, hid]

/-- Witness for C3 as amended: the target has `ID="a"`, the reference is `#b`,
and the cryptographic check accepts. -/
theorem validateSignatureForCert_false_of_reference_witness :
    validateSignatureForCert (Sample.libWith true Sample.misreferencedNode)
      (Sample.signatureTo "#b") "cert" Sample.misreferencedNode Sample.misreferencedNode
      = false :=
  validateSignatureForCert_false_of_reference (Sample.libWith true Sample.misreferencedNode)
    (Sample.signatureTo "#b") "cert" Sample.misreferencedNode Sample.misreferencedNode
    (Or.inr ⟨"#b", by decide, by decide⟩)

/-- C3, counterexample: a target with neither `ID` nor `Id` and the empty
reference, and a target with an empty `ID` and `Id="x"` referenced by `#x`.  In
both, the URI with its leading `#` removed is not the value of an `ID`
attribute of the target (absent in the first, empty in the second, where `ID`
is present), yet `validateSignatureForCert` does not return false: its result
is the answer of the cryptographic check, for every library, and true with a
library that accepts the signature. -/
theorem validateSignatureForCert_accepts_absent_or_empty_ID :
    (Sample.anonymousDoc.attr? "ID" = none ∧ Sample.anonymousDoc.attr? "Id" = none ∧
      refIdOf "" = "" ∧
      (∀ (lib : Lib) (cert : String), lib.references (Sample.signatureTo "") = [""] →
        validateSignatureForCert lib (Sample.signatureTo "") cert Sample.anonymousDoc
          Sample.anonymousDoc
          = lib.checkSignature cert (Sample.signatureTo "") Sample.anonymousDoc) ∧
      validateSignatureForCert (Sample.libWith true Sample.anonymousDoc)
        (Sample.signatureTo "") "cert" Sample.anonymousDoc Sample.anonymousDoc = true) ∧
    (Sample.idFallbackDoc.attr? "ID" = some "" ∧ Sample.idFallbackDoc.attr? "Id" = some "x" ∧
      refIdOf "#x" = "x" ∧
      (∀ (lib : Lib) (cert : String), lib.references (Sample.signatureTo "#x") = ["#x"] →
        validateSignatureForCert lib (Sample.signatureTo "#x") cert Sample.idFallbackDoc
          Sample.idFallbackDoc
          = lib.checkSignature cert (Sample.signatureTo "#x") Sample.idFallbackDoc) ∧
      validateSignatureForCert (Sample.libWith true Sample.idFallbackDoc)
        (Sample.signatureTo "#x") "cert" Sample.idFallbackDoc Sample.idFallbackDoc = true) := by
  refine ⟨⟨by decide, by decide, by decide, ?_, by decide⟩,
    ⟨by decide, by decide, by decide, ?_, by decide⟩⟩
  · intro lib cert h
    unfold validateSignatureForCert
    rw [h]
    rfl
  · intro lib cert h
    unfold validateSignatureForCert
    rw [h]
    rfl

/-- What the duplicate check of `validateSignatureForCert` does reject: more
than one element bearing the referenced id under the attribute spelling chosen
for the target, for a referenced id without an apostrophe. -/
theorem validateSignatureForCert_false_of_duplicate_same_attribute (lib : Lib)
    (signature : Node) (cert : String) (fullXml currentNode : Node) (refUri : String)
    (hrefs : lib.references signature = [refUri])
    (hplain : (refIdOf refUri).data.contains (Char.ofNat 39) = false)
    (hdup : ((allElements fullXml).filter
      (fun n => n.attr? (idAttributeOf currentNode) == some (refIdOf refUri))).length > 1) :
    validateSignatureForCert lib signature cert fullXml currentNode = false := by
  have hx : xpathReferenced lib fullXml (idAttributeOf currentNode) (refIdOf refUri) =
      (allElements fullXml).filter
        (fun n => n.attr? (idAttributeOf currentNode) == some (refIdOf refUri)) := by
    unfold xpathReferenced
    rw [hplain]
    rfl
  unfold validateSignatureForCert
  simp only [hrefs, List.head?_cons, hx, if_pos hdup]
  split
  · rfl
  · split <;> rfl

/-- Filtering by a disjunction keeps no more elements than filtering by two
weaker tests does together. -/
theorem length_filter_or_le {α : Type} (p q p2 q2 : α → Bool)
    (hp : ∀ x, p x = true → p2 x = true) (hq : ∀ x, q x = true → q2 x = true) (l : List α) :
    (l.filter (fun x => p x || q x)).length ≤ (l.filter p2).length + (l.filter q2).length := by
  induction l with
  | nil => simp
  | cons x xs ih =>
    simp only [List.filter_cons]
    cases hpx : p x <;> cases hqx : q x <;> cases hp2 : p2 x <;> cases hq2 : q2 x <;>
      simp_all <;> omega

/-- An element that has the attribute `name` with value `refId` has an
attribute whose local name is `name` and whose value is `refId`. -/
theorem attrs_any_of_attr (n : Node) (name refId : String)
    (hname : afterLastColon name = name) (h : (n.attr? name == some refId) = true) :
    n.attrs.any (fun a => afterLastColon a.1 == name && a.2 == refId) = true := by
  unfold Node.attr? at h
  cases hf : n.attrs.find? (fun a => a.1 == name) with
  | none => simp [hf] at h
  | some a =>
    have hmem := List.mem_of_find?_eq_some hf
    have hkey := List.find?_some hf
    rw [hf] at h
    simp at h
    rw [List.any_eq_true]
    refine ⟨a, hmem, ?_⟩
    have hk : a.1 = name := by simpa using hkey
    simp [hk, hname, h]

/-- The sample count of candidates for an id is at least the number of
elements bearing the id under `ID` or `Id`. -/
theorem Sample.length_elementsWithId_le (doc : Node) (refId : String) :
    (elementsWithId doc refId).length ≤ Sample.idCandidates doc refId := by
  have h := length_filter_or_le
    (fun n : Node => n.attr? "ID" == some refId) (fun n : Node => n.attr? "Id" == some refId)
    (fun n : Node => n.attrs.any (fun a => afterLastColon a.1 == "ID" && a.2 == refId))
    (fun n : Node => n.attrs.any (fun a => afterLastColon a.1 == "Id" && a.2 == refId))
    (fun n hn => attrs_any_of_attr n "ID" refId (by decide) hn)
    (fun n hn => attrs_any_of_attr n "Id" refId (by decide) hn) (allElements doc)
  unfold elementsWithId Sample.idCandidates
  simp only [List.map_cons, List.map_nil, List.sum_cons, List.sum_nil]
  omega

/-- The sample libraries refuse a document in which more than one element
bears a referenced, non-empty id. -/
theorem Sample.libWith_refusesDuplicateIds (accept : Bool) (doc : Node) :
    (Sample.libWith accept doc).refusesDuplicateIds := by
  intro cert signature fullXml refUri href hne hdup
  have hle := Sample.length_elementsWithId_le fullXml (refIdOf refUri)
  have hres : Sample.resolves fullXml refUri = false := by
    unfold Sample.resolves
    have h1 : (refIdOf refUri == "") = false := by simpa using hne
    have h2 : (Sample.idCandidates fullXml (refIdOf refUri) == 1) = false := by
      simp only [beq_eq_false_iff_ne, ne_eq]
      omega
    simp [h1, h2]
  have hall : (Sample.referencesOf signature).all (Sample.resolves fullXml) = false := by
    rw [List.all_eq_false]
    exact ⟨refUri, href, by simp [hres]⟩
  show (accept && (Sample.referencesOf signature).all (Sample.resolves fullXml)) = false
  simp [hall]

/-- On a document where the signed target has `ID="a"` and a second element has
`Id="a"`, the duplicate check of `validateSignatureForCert` counts the elements
with `ID="a"` only and finds one: the result is the answer of the library check
(which, for xml-crypto, refuses such a document). -/
theorem validateSignatureForCert_mixed_spelling_left_to_library (lib : Lib) (cert : String)
    (h : lib.references (Sample.signatureTo "#a") = ["#a"]) :
    validateSignatureForCert lib (Sample.signatureTo "#a") cert Sample.mixedSpellingDoc
      Sample.mixedSpellingDoc
      = lib.checkSignature cert (Sample.signatureTo "#a") Sample.mixedSpellingDoc := by
  unfold validateSignatureForCert
  rw [h]
  rfl

/-- C4, as amended: `validateSignatureForCert` returns false when more than one
element of the document bears the referenced id under the attribute name the
code reads from the target (`ID`, or `Id` when the target has no or an empty
`ID`), for an id without an apostrophe; and, with a library check that refuses
documents in which more than one element bears a referenced non-empty id, it
returns false when more than one element bears the referenced, non-empty id
under `ID` or `Id`, whichever spelling each of them uses. -/
theorem validateSignatureForCert_false_of_duplicate_id (lib : Lib) (signature : Node)
    (cert : String) (fullXml currentNode : Node) (refUri : String)
    (href : refUri ∈ lib.references signature) :
    ((refIdOf refUri).data.contains (Char.ofNat 39) = false →
      1 < ((allElements fullXml).filter
        (fun n => n.attr? (idAttributeOf currentNode) == some (refIdOf refUri))).length →
      validateSignatureForCert lib signature cert fullXml currentNode = false) ∧
    (lib.refusesDuplicateIds → refIdOf refUri ≠ "" →
      1 < (elementsWithId fullXml (refIdOf refUri)).length →
      validateSignatureForCert lib signature cert fullXml currentNode = false) := by
  have hcases : (lib.references signature).length ≠ 1 ∨ lib.references signature = [refUri] := by
    cases hr : lib.references signature with
    | nil => left; simp
    | cons r rs =>
      cases rs with
      | nil =>
        right
        rw [hr] at href
        simp only [List.mem_singleton] at href
        rw [href]
      | cons r2 rs2 => left; simp
  rcases hcases with hlen | hrefs
  · have hfalse : validateSignatureForCert lib signature cert fullXml currentNode = false := by
      simp [validateSignatureForCert, hlen]
    exact ⟨fun _ _ => hfalse, fun _ _ _ => hfalse⟩
  · constructor
    · intro hplain hdup
      exact validateSignatureForCert_false_of_duplicate_same_attribute lib signature cert
        fullXml currentNode refUri hrefs hplain hdup
    · intro hlib hne hdup
      have hcheck := hlib cert signature fullXml refUri href hne hdup
      unfold validateSignatureForCert
      simp only [hrefs, List.head?_cons, hcheck]
      split
      · rfl
      · split
        · rfl
        · split <;> rfl

/-- Witness for C4 as amended: two elements with `ID="a"` are refused by the
duplicate check of the code; the target with `ID="a"` and a second element
with `Id="a"` are refused with a library that refuses ambiguous references. -/
theorem validateSignatureForCert_false_of_duplicate_id_witness :
    validateSignatureForCert (Sample.libWith true Sample.sameSpellingDoc)
      (Sample.signatureTo "#a") "cert" Sample.sameSpellingDoc Sample.sameSpellingDoc = false ∧
    validateSignatureForCert (Sample.libWith true Sample.mixedSpellingDoc)
      (Sample.signatureTo "#a") "cert" Sample.mixedSpellingDoc Sample.mixedSpellingDoc
      = false :=
  ⟨(validateSignatureForCert_false_of_duplicate_id (Sample.libWith true Sample.sameSpellingDoc)
      (Sample.signatureTo "#a") "cert" Sample.sameSpellingDoc Sample.sameSpellingDoc "#a"
      (by decide)).1 (by decide) (by decide),
   (validateSignatureForCert_false_of_duplicate_id (Sample.libWith true Sample.mixedSpellingDoc)
      (Sample.signatureTo "#a") "cert" Sample.mixedSpellingDoc Sample.mixedSpellingDoc "#a"
      (by decide)).2 (Sample.libWith_refusesDuplicateIds true Sample.mixedSpellingDoc)
      (by decide) (by decide)⟩

/-- C4, counterexample: in a document signed as a whole (empty reference) the
document element and a second element both carry `ID=""`, so two elements bear
the referenced id.  The target's `ID` being empty, the code reads `Id`; the
target check passes, the duplicate check counts the elements with `Id=""` and
finds none, and the result is the answer of the cryptographic check, for every
library: true with a library that accepts the signature. -/
theorem validateSignatureForCert_accepts_duplicate_empty_id :
    (elementsWithId Sample.emptyIdDoc (refIdOf "")).length = 2 ∧
    (∀ (lib : Lib) (cert : String), lib.references (Sample.signatureTo "") = [""] →
      validateSignatureForCert lib (Sample.signatureTo "") cert Sample.emptyIdDoc
        Sample.emptyIdDoc
        = lib.checkSignature cert (Sample.signatureTo "") Sample.emptyIdDoc) ∧
    validateSignatureForCert (Sample.libWith true Sample.emptyIdDoc) (Sample.signatureTo "")
      "cert" Sample.emptyIdDoc Sample.emptyIdDoc = true ∧
    validateSignature (Sample.libWith true Sample.emptyIdDoc) Sample.emptyIdDoc
      Sample.emptyIdDoc ["cert"] = true := by
  refine ⟨by decide, ?_, by decide, by decide⟩
  intro lib cert h
  unfold validateSignatureForCert
  rw [h]
  rfl

/-- C6: with clock skew `-1` the check returns no error; with any other skew
it returns an error exactly when `NotBefore` is present, parses to a timestamp
`t` and `now + skew < t`, or `NotOnOrAfter` is present, parses to `t` and
`now - skew ≥ t`.  In particular a `NotOnOrAfter` in the past is accepted
under skew `-1` and rejected under skew `0`. -/
theorem checkTimestampsValidityError_spec (lib : Lib) (o : Options) (nowMs : Int)
    (notBefore notOnOrAfter : Option String) :
    (o.acceptedClockSkewMs = -1 →
      checkTimestampsValidityError lib o nowMs notBefore notOnOrAfter = none) ∧
    (o.acceptedClockSkewMs ≠ -1 →
      ((checkTimestampsValidityError lib o nowMs notBefore notOnOrAfter).isSome = true ↔
        (∃ s t, notBefore = some s ∧ s ≠ "" ∧ lib.dateParse s = some t ∧
          nowMs + o.acceptedClockSkewMs < t) ∨
        (∃ s t, notOnOrAfter = some s ∧ s ≠ "" ∧ lib.dateParse s = some t ∧
          nowMs - o.acceptedClockSkewMs ≥ t))) ∧
    (∀ s t, notOnOrAfter = some s → s ≠ "" → lib.dateParse s = some t → t < nowMs →
      (o.acceptedClockSkewMs = -1 →
        checkTimestampsValidityError lib o nowMs notBefore notOnOrAfter = none) ∧
      (o.acceptedClockSkewMs = 0 →
        (checkTimestampsValidityError lib o nowMs notBefore notOnOrAfter).isSome = true)) := by
  have hmain : o.acceptedClockSkewMs ≠ -1 →
      ((checkTimestampsValidityError lib o nowMs notBefore notOnOrAfter).isSome = true ↔
        (∃ s t, notBefore = some s ∧ s ≠ "" ∧ lib.dateParse s = some t ∧
          nowMs + o.acceptedClockSkewMs < t) ∨
        (∃ s t, notOnOrAfter = some s ∧ s ≠ "" ∧ lib.dateParse s = some t ∧
          nowMs - o.acceptedClockSkewMs ≥ t)) := by
    intro hskew
    unfold checkTimestampsValidityError
    simp only [beq_iff_eq, hskew, if_false]
    cases notBefore with
    | none =>
      cases notOnOrAfter with
      | none => simp
      | some b =>
        by_cases hb : b = ""
        · simp [hb]
        · cases hpb : lib.dateParse b <;> simp [hb, hpb]
    | some a =>
      by_cases ha : a = ""
      · cases notOnOrAfter with
        | none => simp [ha]
        | some b =>
          by_cases hb : b = ""
          · simp [ha, hb]
          · cases hpb : lib.dateParse b <;> simp [ha, hb, hpb]
      · cases hpa : lib.dateParse a with
        | none =>
          cases notOnOrAfter with
          | none => simp [ha, hpa]
          | some b =>
            by_cases hb : b = ""
            · simp [ha, hpa, hb]
            · cases hpb : lib.dateParse b <;> simp [ha, hpa, hb, hpb]
        | some ta =>
          by_cases hlt : nowMs + o.acceptedClockSkewMs < ta
          · simp [ha, hpa, hlt]
          · cases notOnOrAfter with
            | none => simp [ha, hpa, hlt]
            | some b =>
              by_cases hb : b = ""
              · simp [ha, hpa, hlt, hb]
              · cases hpb : lib.dateParse b <;> simp [ha, hpa, hlt, hb, hpb]
  refine ⟨?_, hmain, ?_⟩
  · intro h
    simp [checkTimestampsValidityError, h]
  · intro s t hs hne hp hlt
    refine ⟨?_, ?_⟩
    · intro h
      simp [checkTimestampsValidityError, h]
    · intro h0
      have hne1 : o.acceptedClockSkewMs ≠ -1 := by rw [h0]; decide
      rw [hmain hne1]
      right
      exact ⟨s, t, hs, hne, hp, by rw [h0]; omega⟩

/-- Witness for C6: a `NotOnOrAfter` one hour before now is rejected under
skew `0`. -/
theorem checkTimestampsValidityError_spec_witness :
    (checkTimestampsValidityError (Sample.libWith true Sample.unsignedNode)
      { cert := .absent, validateInResponseTo := false, acceptedClockSkewMs := 0,
        requestIdExpirationPeriodMs := 28800000, audience := none, decryptionPvk := none,
        idpIssuer := none }
      1577840400000 none (some "2020-01-01T00:00:00.000Z")).isSome = true :=
  ((checkTimestampsValidityError_spec (Sample.libWith true Sample.unsignedNode)
      { cert := .absent, validateInResponseTo := false, acceptedClockSkewMs := 0,
        requestIdExpirationPeriodMs := 28800000, audience := none, decryptionPvk := none,
        idpIssuer := none }
      1577840400000 none (some "2020-01-01T00:00:00.000Z")).2.2
    "2020-01-01T00:00:00.000Z" 1577836800000 rfl (by decide) (by decide) (by decide)).2 rfl

/-- The empty string is blank. -/
theorem isBlank_empty : isBlank "" = true := by decide

/-- An element with a character key has a truthy, non-empty character key. -/
theorem x2jText_some_truthy (n : Node) (t : String) (h : n.x2jText = some t) :
    n.x2jTruthy = true ∧ truthy n.x2jText = true := by
  unfold Node.x2jText at h
  by_cases hb : isBlank n.charData = true
  · simp [hb] at h
  · simp only [hb, if_false, Option.some.injEq] at h
    have hne : n.charData ≠ "" := by
      intro he
      rw [he] at hb
      exact hb isBlank_empty
    constructor
    · simp [Node.x2jTruthy, hne]
    · simp [Node.x2jText, hb, truthy, hne]

/-- A restriction passes exactly when its first `Audience` value is the expected
audience. -/
theorem audienceRestrictionError_none_iff (expectedAudience : String) (r : Node) :
    audienceRestrictionError expectedAudience r = none ↔
      firstAudienceValue r = some expectedAudience := by
  unfold audienceRestrictionError firstAudienceValue
  cases hh : (r.childrenNamed "Audience").head? with
  | none => simp
  | some a =>
    simp only [Option.bind_some]
    cases ht : a.x2jText with
    | none => simp [truthy, ht]
    | some t =>
      have ⟨h1, h2⟩ := x2jText_some_truthy a t ht
      rw [ht] at h2
      simp [h1, h2, ht]

/-- C5: a response with more than one `Assertion` / `EncryptedAssertion` child
in total ends `validatePostResponse` with an error, for every configuration
(certificate or not), every library behaviour (signatures valid or not) and
every cache. -/
theorem validatePostResponse_rejects_multiple_assertions (lib : Lib) (o : Options)
    (nowMs : Int) (container : Container) (cache : CacheProvider) (samlResponse : String)
    (doc : Node) (hc : container.SAMLResponse = some samlResponse)
    (hp : lib.parsePost samlResponse = .ok doc)
    (hmany : (responseChildren doc "Assertion").length
      + (responseChildren doc "EncryptedAssertion").length > 1) :
    ∃ msg, (validatePostResponse lib o nowMs container cache).1 = .error msg := by
  unfold validatePostResponse
  simp only [hc, hp]
  rcases hv : validateInResponseTo o (responseInResponseTo doc) cache with ⟨r, cache1⟩
  cases r with
  | error e => exact ⟨e, rfl⟩
  | ok u =>
    cases hcerts : certsToCheck o with
    | error e => exact ⟨e, rfl⟩
    | ok certs =>
      refine ⟨"Invalid signature: multiple assertions", ?_⟩
      simp [validatePostResponseWithCerts, hmany]

/-- Witness for C5: two assertions, no certificate configured. -/
theorem validatePostResponse_rejects_multiple_assertions_witness :
    ∃ msg, (validatePostResponse (Sample.libWith true Sample.twoAssertionResponse)
      Sample.plainOptions 0 Sample.postResponseContainer Sample.emptyCache).1 = .error msg :=
  validatePostResponse_rejects_multiple_assertions
    (Sample.libWith true Sample.twoAssertionResponse) Sample.plainOptions 0
    Sample.postResponseContainer Sample.emptyCache "PHNhbWxwOlJlc3BvbnNlPg=="
    Sample.twoAssertionResponse rfl rfl (by decide)

/-- C8: with replay validation disabled `validateInResponseTo` succeeds for
every input and performs no cache operation; enabled, it fails with
`InResponseTo is missing from response` when the value is absent or empty,
fails with `InResponseTo is not valid` when the cache holds no value for it,
and succeeds only when the cache returned a value; in every case the content
of the cache is unchanged and the only operation performed is `get`. -/
theorem validateInResponseTo_spec (o : Options) (inResponseTo : Option String)
    (cache : CacheProvider) :
    (o.validateInResponseTo = false →
      validateInResponseTo o inResponseTo cache = (.ok (), cache)) ∧
    (o.validateInResponseTo = true →
      ((inResponseTo = none ∨ inResponseTo = some "") →
        validateInResponseTo o inResponseTo cache
          = (.error "InResponseTo is missing from response", cache)) ∧
      (∀ key, inResponseTo = some key → key ≠ "" → cache.holds key = false →
        (validateInResponseTo o inResponseTo cache).1 = .error "InResponseTo is not valid") ∧
      ((validateInResponseTo o inResponseTo cache).1 = .ok () →
        ∃ key value, inResponseTo = some key ∧ (cache.get key).1 = some value ∧ value ≠ "")) ∧
    (validateInResponseTo o inResponseTo cache).2.store = cache.store ∧
    ((validateInResponseTo o inResponseTo cache).2.log = cache.log ∨
      ∃ key, (validateInResponseTo o inResponseTo cache).2.log = cache.log ++ [.get key]) := by
  refine ⟨?_, ?_, ?_, ?_⟩
  · intro h
    simp [validateInResponseTo, h]
  · intro h
    refine ⟨?_, ?_, ?_⟩
    · rintro (hn | he)
      · simp [validateInResponseTo, h, hn]
      · simp [validateInResponseTo, h, he]
    · intro key hk hne hholds
      have hfind : cache.store.find? (fun e => e.1 == key) = none := by
        simp only [CacheProvider.holds, List.any_eq_false] at hholds
        simp only [List.find?_eq_none]
        exact hholds
      simp [validateInResponseTo, h, hk, hne, CacheProvider.get, hfind, truthy]
    · intro hok
      cases inResponseTo with
      | none => simp [validateInResponseTo, h] at hok
      | some key =>
        by_cases hne : key = ""
        · simp [validateInResponseTo, h, hne] at hok
        · cases hg : (cache.get key).1 with
          | none =>
            simp [validateInResponseTo, h, hne, hg, truthy] at hok
          | some value =>
            by_cases hv : value = ""
            · simp [validateInResponseTo, h, hne, hg, truthy, hv] at hok
            · exact ⟨key, value, rfl, hg, hv⟩
  · unfold validateInResponseTo
    cases o.validateInResponseTo <;> simp
    cases inResponseTo with
    | none => simp
    | some key =>
      by_cases hne : key = ""
      · simp [hne]
      · simp only [hne, CacheProvider.get]
        cases truthy (Option.map (fun x => x.2) (List.find? (fun e => e.1 == key) cache.store))
          <;> simp
  · unfold validateInResponseTo
    cases o.validateInResponseTo <;> simp
    cases inResponseTo with
    | none => simp
    | some key =>
      by_cases hne : key = ""
      · simp [hne]
      · simp only [hne, CacheProvider.get]
        cases truthy (Option.map (fun x => x.2) (List.find? (fun e => e.1 == key) cache.store))
          <;> simp

/-- C9, the rule of the code: `checkAudienceValidityError` returns no error
exactly when there is at least one `AudienceRestriction` and the first
`Audience` value of every `AudienceRestriction` is the expected audience. -/
theorem checkAudienceValidityError_none_iff (expectedAudience : String)
    (audienceRestrictions : List Node) :
    checkAudienceValidityError expectedAudience audienceRestrictions = none ↔
      audienceRestrictions ≠ [] ∧
      ∀ r ∈ audienceRestrictions, firstAudienceValue r = some expectedAudience := by
  unfold checkAudienceValidityError
  cases audienceRestrictions with
  | nil => simp
  | cons r rs =>
    have hlen : ¬ ((r :: rs).length < 1) := by simp
    simp only [hlen, if_false]
    cases hh : ((List.map (audienceRestrictionError expectedAudience) (r :: rs)).filterMap
        id).head? with
    | some e =>
      simp only [false_iff, reduceCtorEq, not_and]
      intro _ hall
      have hmem := List.mem_of_mem_head? hh
      simp only [List.mem_filterMap, List.mem_map, id] at hmem
      obtain ⟨a, ⟨x, hx, hxa⟩, ha⟩ := hmem
      rw [ha] at hxa
      have := (audienceRestrictionError_none_iff expectedAudience x).mpr (hall x hx)
      rw [this] at hxa
      cases hxa
    | none =>
      simp only [true_iff]
      refine ⟨by simp, ?_⟩
      intro x hx
      rw [← audienceRestrictionError_none_iff]
      rw [List.head?_eq_none_iff] at hh
      cases hx2 : audienceRestrictionError expectedAudience x with
      | none => rfl
      | some e =>
        exfalso
        have : e ∈ (List.map (audienceRestrictionError expectedAudience) (r :: rs)).filterMap
            id := by
          simp only [List.mem_filterMap, List.mem_map, id]
          exact ⟨some e, ⟨x, hx, hx2⟩, rfl⟩
        rw [hh] at this
        cases this

/-- C9, counterexample: a single `AudienceRestriction` that lists the expected
audience `sp` as its second `Audience` value is refused. -/
theorem checkAudienceValidityError_rejects_listed_audience :
    ([Sample.twoAudienceRestriction] ≠ [] ∧
      ∀ r ∈ [Sample.twoAudienceRestriction], "sp" ∈ audienceValues r) ∧
    checkAudienceValidityError "sp" [Sample.twoAudienceRestriction]
      = some "SAML assertion audience mismatch" := by
  refine ⟨⟨by simp, ?_⟩, by decide⟩
  decide

/-- With a certificate configured, `certsToCheck` never resolves to
`undefined`. -/
theorem certsToCheck_some_of_hasCert (o : Options) (certs : Option (List String))
    (hcert : o.hasCert = true) (h : certsToCheck o = .ok certs) : ∃ cs, certs = some cs := by
  unfold certsToCheck at h
  unfold Options.hasCert at hcert
  cases hc : o.cert with
  | absent => simp [hc] at hcert
  | static cs =>
    simp only [hc, Except.ok.injEq] at h
    exact ⟨cs, h.symm⟩
  | resolver r =>
    cases r with
    | error e => simp [hc] at h
    | ok cs =>
      simp only [hc, Except.ok.injEq] at h
      exact ⟨cs, h.symm⟩

/-- The signature stage of `validatePostResponse` on a response with exactly
one plain assertion, with a certificate configured. -/
theorem validatePostResponseWithCerts_single (lib : Lib) (o : Options) (nowMs : Int)
    (doc assertion0 : Node) (inResponseTo : Option String) (certs : List String)
    (cache : CacheProvider) (hcert : o.hasCert = true)
    (hone : responseChildren doc "Assertion" = [assertion0])
    (hnone : responseChildren doc "EncryptedAssertion" = []) :
    validatePostResponseWithCerts lib o nowMs doc inResponseTo certs cache =
      if validateSignature lib doc doc certs = false
          ∧ validateSignature lib doc assertion0 certs = false then
        (.error "Invalid signature", cache)
      else processValidlySignedAssertion lib o nowMs assertion0 doc inResponseTo cache := by
  unfold validatePostResponseWithCerts
  simp only [hone, hnone, hcert, List.length_cons, List.length_nil]
  cases validateSignature lib doc doc certs <;>
    cases validateSignature lib doc assertion0 certs <;> simp

/-- C1: in `validatePostResponse` with a certificate configured, on a response
holding exactly one plain `Assertion` and no `EncryptedAssertion`: a profile
is produced only if `validateSignature` succeeds on the `Response` element or
on the `Assertion` element; and once the steps that precede the signature
checks (the `InResponseTo` check, the resolution of the certificates) have
passed, the outcome is the error `Invalid signature` when both checks fail,
and is what `processValidlySignedAssertion` yields on that assertion
otherwise. -/
theorem validatePostResponse_single_assertion_signature (lib : Lib) (o : Options)
    (nowMs : Int) (container : Container) (cache : CacheProvider) (samlResponse : String)
    (doc assertion0 : Node) (hc : container.SAMLResponse = some samlResponse)
    (hp : lib.parsePost samlResponse = .ok doc) (hcert : o.hasCert = true)
    (hone : responseChildren doc "Assertion" = [assertion0])
    (hnone : responseChildren doc "EncryptedAssertion" = []) :
    ((validatePostResponse lib o nowMs container cache).1.hasProfile = true →
      ∃ certs, certsToCheck o = .ok (some certs) ∧
        (validateSignature lib doc doc certs = true
          ∨ validateSignature lib doc assertion0 certs = true)) ∧
    (∀ certs, certsToCheck o = .ok (some certs) →
      (validateInResponseTo o (responseInResponseTo doc) cache).1 = .ok () →
      (validateSignature lib doc doc certs = false
          ∧ validateSignature lib doc assertion0 certs = false →
        validatePostResponse lib o nowMs container cache =
          (.error "Invalid signature",
            (validateInResponseTo o (responseInResponseTo doc) cache).2)) ∧
      (¬ (validateSignature lib doc doc certs = false
          ∧ validateSignature lib doc assertion0 certs = false) →
        validatePostResponse lib o nowMs container cache =
          processValidlySignedAssertion lib o nowMs assertion0 doc (responseInResponseTo doc)
            (validateInResponseTo o (responseInResponseTo doc) cache).2)) := by
  unfold validatePostResponse
  simp only [hc, hp]
  rcases hv : validateInResponseTo o (responseInResponseTo doc) cache with ⟨r, cache1⟩
  cases r with
  | error e =>
    refine ⟨by simp [Outcome.hasProfile], ?_⟩
    intro certs _ hok
    simp at hok
  | ok u =>
    cases hcerts : certsToCheck o with
    | error e =>
      refine ⟨by simp [Outcome.hasProfile], ?_⟩
      intro certs hcs
      simp at hcs
    | ok certsOpt =>
      obtain ⟨cs, rfl⟩ := certsToCheck_some_of_hasCert o certsOpt hcert hcerts
      simp only [Option.getD_some]
      rw [validatePostResponseWithCerts_single lib o nowMs doc assertion0 _ cs cache1 hcert
        hone hnone]
      refine ⟨?_, ?_⟩
      · intro hprof
        refine ⟨cs, rfl, ?_⟩
        by_cases hboth : validateSignature lib doc doc cs = false
            ∧ validateSignature lib doc assertion0 cs = false
        · simp [hboth, Outcome.hasProfile] at hprof
        · cases h1 : validateSignature lib doc doc cs
          · cases h2 : validateSignature lib doc assertion0 cs
            · exact absurd ⟨h1, h2⟩ hboth
            · exact Or.inr rfl
          · exact Or.inl rfl
      · intro certs hcs _
        have hcs2 : cs = certs := by
          simp only [Except.ok.injEq, Option.some.injEq] at hcs
          exact hcs
        subst hcs2
        refine ⟨?_, ?_⟩
        · intro hboth
          simp [hboth]
        · intro hboth
          simp [hboth]

/-- Witness for C1: a signed response whose signature no certificate
verifies, with the request id pending in the cache, ends with `Invalid
signature`. -/
theorem validatePostResponse_single_assertion_signature_witness :
    validatePostResponse (Sample.libWith false Sample.signedResponse) Sample.certOptions 0
      Sample.postResponseContainer Sample.pendingCache =
    (.error "Invalid signature",
      (validateInResponseTo Sample.certOptions (responseInResponseTo Sample.signedResponse)
        Sample.pendingCache).2) :=
  ((validatePostResponse_single_assertion_signature
      (Sample.libWith false Sample.signedResponse) Sample.certOptions 0
      Sample.postResponseContainer Sample.pendingCache "PHNhbWxwOlJlc3BvbnNlPg=="
      Sample.signedResponse Sample.bearerAssertion rfl rfl rfl rfl rfl).2
    ["cert"] rfl rfl).1 ⟨by decide, by decide⟩

/-- Witness for C8: with replay validation enabled and an empty cache, the
request id `req1` is refused. -/
theorem validateInResponseTo_spec_witness :
    (validateInResponseTo Sample.certOptions (some "req1") Sample.emptyCache).1
      = .error "InResponseTo is not valid" :=
  ((validateInResponseTo_spec Sample.certOptions (some "req1") Sample.emptyCache).2.1 rfl).2.1
    "req1" rfl (by decide) (by decide)

/-- C7, evaluated on the code: with replay validation enabled, a validly
signed response to the pending request `req1`, whose `SubjectConfirmationData`
has no `InResponseTo` attribute, is accepted with a profile; the cache still
holds `req1` afterwards, no `remove` was performed, and submitting the same
response again is accepted again. -/
theorem validatePostResponse_accepts_replayed_response :
    (validatePostResponse (Sample.libWith true Sample.signedResponse) Sample.certOptions 0
      Sample.postResponseContainer Sample.pendingCache).1.hasProfile = true ∧
    (validatePostResponse (Sample.libWith true Sample.signedResponse) Sample.certOptions 0
      Sample.postResponseContainer Sample.pendingCache).2.holds "req1" = true ∧
    (validatePostResponse (Sample.libWith true Sample.signedResponse) Sample.certOptions 0
      Sample.postResponseContainer Sample.pendingCache).2.log = [.get "req1"] ∧
    (validatePostResponse (Sample.libWith true Sample.signedResponse) Sample.certOptions 0
      Sample.postResponseContainer
      (validatePostResponse (Sample.libWith true Sample.signedResponse) Sample.certOptions 0
        Sample.postResponseContainer Sample.pendingCache).2).1.hasProfile = true := by
  decide

/-- C10, evaluated on the code: with a certificate configured, a redirect-bound
`LogoutRequest` that carries no `Signature` parameter is not rejected:
`validateRedirect` goes on to the logout result with a profile, although no
certificate verifies anything; the same message with a `Signature` that does
not verify is rejected, and so is the same unsigned `LogoutRequest` on the POST
binding (`validatePostRequest`). -/
theorem validateRedirect_accepts_missing_signature :
    Sample.certOptions.hasCert = true ∧
    Sample.unsignedRedirect.Signature = none ∧
    (validateRedirect (Sample.libWith false Sample.logoutRequest) Sample.certOptions 0
      Sample.unsignedRedirect Sample.emptyCache).1.hasProfile = true ∧
    (validateRedirect (Sample.libWith false Sample.logoutRequest) Sample.certOptions 0
      Sample.unsignedRedirect Sample.emptyCache).1.loggedOut = true ∧
    (validateRedirect (Sample.libWith false Sample.logoutRequest) Sample.certOptions 0
      Sample.signedRedirect Sample.emptyCache).1.isError = true ∧
    (validatePostRequest (Sample.libWith false Sample.logoutRequest) Sample.certOptions
      Sample.unsignedRedirect).isError = true := by
  decide

/-- C13: when the target node has exactly one `Signature`, `validateSignature`
is true exactly when `validateSignatureForCert` is true for at least one
certificate of the list, wherever it stands; for the empty list it is
false. -/
theorem validateSignature_iff_some_cert (lib : Lib) (fullXml currentNode signature : Node)
    (certs : List String) (h : xpathSignatures currentNode = [signature]) :
    (validateSignature lib fullXml currentNode certs = true ↔
      ∃ cert ∈ certs,
        validateSignatureForCert lib signature cert fullXml currentNode = true) ∧
    validateSignature lib fullXml currentNode [] = false := by
  constructor
  · simp [validateSignature, h, List.any_eq_true]
  · simp [validateSignature, h]

/-- Witness for C13: the second certificate of the list is the one that
verifies. -/
theorem validateSignature_iff_some_cert_witness :
    validateSignature (Sample.libTrusting "good" Sample.signedResponse) Sample.signedResponse
      Sample.signedResponse ["old", "good"] = true :=
  (validateSignature_iff_some_cert (Sample.libTrusting "good" Sample.signedResponse)
    Sample.signedResponse Sample.signedResponse (Sample.signatureTo "#a") ["old", "good"]
    rfl).1.mpr ⟨"good", by simp, by decide⟩

/-- After the write `fields[name] = v` on a list that has the key, the read of
`name` yields `v`. -/
theorem find_map_replace (fs : List (String × PVal)) (name : String) (v : PVal)
    (h : fs.any (fun e => e.1 == name) = true) :
    ((fs.map (fun e => if e.1 == name then (name, v) else e)).find?
      (fun e => e.1 == name)).map (·.2) = some v := by
  induction fs with
  | nil => simp at h
  | cons e es ih =>
    by_cases he : (e.1 == name) = true
    · simp [List.find?, he]
    · have he2 : (e.1 == name) = false := by simpa using he
      have hes : es.any (fun e => e.1 == name) = true := by
        rw [List.any_cons, he2, Bool.false_or] at h
        exact h
      simp only [List.map_cons, he2, Bool.false_eq_true, if_false, List.find?_cons]
      exact ih hes

/-- A property read after a write of the same property yields the value
written. -/
theorem Profile.get_set_same (profile : Profile) (name : String) (v : PVal) :
    (profile.set name v).get name = some v := by
  unfold Profile.set Profile.get
  by_cases hany : profile.fields.any (fun e => e.1 == name) = true
  · simp only [hany, if_true]
    exact find_map_replace profile.fields name v hany
  · simp only [hany]
    have hnone : profile.fields.find? (fun e => e.1 == name) = none := by
      rw [List.find?_eq_none]
      intro x hx hxe
      apply hany
      rw [List.any_eq_true]
      exact ⟨x, hx, hxe⟩
    simp [List.find?_append, hnone]

/-- A property read after a write of another property yields what it yielded
before. -/
theorem Profile.get_set_other (profile : Profile) (key name : String) (v : PVal)
    (hne : key ≠ name) : (profile.set key v).get name = profile.get name := by
  have hko : (key == name) = false := by simpa using hne
  unfold Profile.set Profile.get
  by_cases hany : profile.fields.any (fun e => e.1 == key) = true
  · simp only [hany, if_true]
    clear hany
    induction profile.fields with
    | nil => rfl
    | cons e es ih =>
      by_cases he : (e.1 == key) = true
      · have hek : e.1 = key := by simpa using he
        have heo : (e.1 == name) = false := by rw [hek]; exact hko
        simp only [List.map_cons, he, if_true, List.find?_cons, hko, heo]
        exact ih
      · have he2 : (e.1 == key) = false := by simpa using he
        simp only [List.map_cons, he2, Bool.false_eq_true, if_false, List.find?_cons]
        cases (e.1 == name)
        · exact ih
        · rfl
  · simp only [hany]
    simp [List.find?_append, hko]

/-- The `mail` / `email` defaults change no property but `mail` and `email`. -/
theorem mailDefaults_get_other (profile : Profile) (name : String)
    (hmail : name ≠ "mail") (hemail : name ≠ "email") :
    (mailDefaults profile).get name = profile.get name := by
  have h1 : ∀ (p : Profile) (v : PVal), (p.set "mail" v).get name = p.get name :=
    fun p v => Profile.get_set_other p "mail" name v (fun h => hmail h.symm)
  have h2 : ∀ (p : Profile) (v : PVal), (p.set "email" v).get name = p.get name :=
    fun p v => Profile.get_set_other p "email" name v (fun h => hemail h.symm)
  have step1 : ∀ p : Profile, (match p.get mailOid with
      | some v => if !p.truthyAt "mail" && v.truthy then p.set "mail" v else p
      | none => p).get name = p.get name := by
    intro p
    cases p.get mailOid with
    | none => rfl
    | some v =>
      simp only
      split
      · exact h1 _ _
      · rfl
  have step2 : ∀ p : Profile, (match p.get "mail" with
      | some v => if !p.truthyAt "email" && v.truthy then p.set "email" v else p
      | none => p).get name = p.get name := by
    intro p
    cases p.get "mail" with
    | none => rfl
    | some v =>
      simp only
      split
      · exact h2 _ _
      · rfl
  exact (step2 _).trans (step1 profile)

/-- The accessor writes change no property but those named like an
accessor. -/
theorem withAccessors_get_other (profile : Profile) (xml samlResponseXml : Node)
    (name : String) (h : accessorNames.contains name = false) :
    (profile.withAccessors xml samlResponseXml).get name = profile.get name := by
  unfold Profile.withAccessors Profile.get
  simp only
  induction profile.fields with
  | nil => rfl
  | cons e es ih =>
    by_cases he : (e.1 == name) = true
    · have hek : e.1 = name := by simpa using he
      have hkeep : (!accessorNames.contains e.1) = true := by rw [hek, h]; rfl
      simp only [List.filter_cons, hkeep, if_true, List.find?_cons, he]
    · have he2 : (e.1 == name) = false := by simpa using he
      simp only [List.filter_cons, List.find?_cons, he2]
      split
      · simp only [List.find?_cons, he2]
        exact ih
      · exact ih

/-- The array `attributes` of the code holds the `Attribute` elements of the
`AttributeStatement`s, in document order. -/
theorem attributesOf_eq_attributeElements (assertion : Node) :
    attributesOf assertion = attributeElements assertion := by
  unfold attributesOf attributeElements Node.childrenNamed
  induction assertion.children with
  | nil => rfl
  | cons st sts ih =>
    cases hst : (st.isElement && st.localName == "AttributeStatement") with
    | true =>
      simp only [List.filter_cons, hst, if_true, List.map_cons, List.flatten_cons,
        List.flatMap_cons, ih]
    | false =>
      simp only [List.filter_cons, hst, Bool.false_eq_true, if_false, List.flatMap_cons,
        List.nil_append, ih]

/-- The body of the attribute loop performs the write of the contribution of a
readable attribute. -/
theorem addAttribute_readable (profile : Profile) (attr : Node)
    (h : readableAttribute attr = true) :
    addAttribute profile attr = .ok
      (match attributeContribution attr with
       | some (name, v) => if name = "__proto__" then profile else profile.set name v
       | none => profile) := by
  unfold readableAttribute at h
  simp only [Bool.and_eq_true, Bool.or_eq_true] at h
  obtain ⟨hown, hattrs⟩ := h
  unfold addAttribute attributeContribution Profile.assign
  simp only [hown, Bool.not_true, Bool.false_eq_true, if_false]
  cases hv : attr.childrenNamed "AttributeValue" with
  | nil => simp
  | cons v vs =>
    have ha : attr.x2jHasAttrs = true := by
      rcases hattrs with hempty | ha
      · rw [hv] at hempty
        simp at hempty
      · exact ha
    cases vs with
    | nil => simp [ha]
    | cons w ws => simp [ha]

/-- The body of the attribute loop fails on an attribute that is not
readable. -/
theorem addAttribute_unreadable (profile : Profile) (attr : Node)
    (h : readableAttribute attr = false) :
    addAttribute profile attr = .error "TypeError: attribute.hasOwnProperty is not a function"
    ∨ addAttribute profile attr = .error "TypeError: Cannot read property 'Name' of undefined" := by
  unfold readableAttribute at h
  unfold addAttribute
  by_cases hown : (attr.childrenNamed "hasOwnProperty").isEmpty = true
  · right
    simp only [hown, Bool.true_and, Bool.or_eq_false_iff] at h
    simp [hown, h.1, h.2]
  · left
    simp [hown]

/-- The attribute loop over readable attributes performs their writes in
order. -/
theorem foldlM_addAttribute_readable (attrs : List Node) :
    ∀ profile : Profile, (∀ attr ∈ attrs, readableAttribute attr = true) →
      attrs.foldlM addAttribute profile = .ok (writeContributions profile attrs) := by
  induction attrs with
  | nil => intro profile _; rfl
  | cons a as ih =>
    intro profile hall
    have ha := addAttribute_readable profile a (hall a (by simp))
    simp only [List.foldlM_cons, ha, writeContributions, List.foldl_cons]
    exact ih _ (fun x hx => hall x (by simp [hx]))

/-- The attribute loop fails when some attribute is not readable. -/
theorem foldlM_addAttribute_unreadable (attrs : List Node) :
    ∀ profile : Profile, (∃ attr ∈ attrs, readableAttribute attr = false) →
      attrs.foldlM addAttribute profile
        = .error "TypeError: attribute.hasOwnProperty is not a function"
      ∨ attrs.foldlM addAttribute profile
        = .error "TypeError: Cannot read property 'Name' of undefined" := by
  induction attrs with
  | nil =>
    intro profile h
    obtain ⟨a, ha, _⟩ := h
    simp at ha
  | cons a as ih =>
    intro profile h
    by_cases hr : readableAttribute a = true
    · have ha := addAttribute_readable profile a hr
      have hrest : ∃ attr ∈ as, readableAttribute attr = false := by
        obtain ⟨b, hb, hbr⟩ := h
        simp only [List.mem_cons] at hb
        rcases hb with rfl | hb
        · rw [hr] at hbr
          cases hbr
        · exact ⟨b, hb, hbr⟩
      simp only [List.foldlM_cons, ha]
      exact ih _ hrest
    · have hr2 : readableAttribute a = false := by simpa using hr
      rcases addAttribute_unreadable profile a hr2 with he | he
      · left
        simp only [List.foldlM_cons, he]
        rfl
      · right
        simp only [List.foldlM_cons, he]
        rfl

/-- The writes of attributes that contribute nothing under `name` leave the
property `name` as it was. -/
theorem writeContributions_get_other (attrs : List Node) (name : String) :
    ∀ profile : Profile,
      (∀ a ∈ attrs, (attributeContribution a).map (·.1) ≠ some name) →
      (writeContributions profile attrs).get name = profile.get name := by
  induction attrs with
  | nil => intro profile _; rfl
  | cons a as ih =>
    intro profile hall
    have ha := hall a (by simp)
    have hrest : ∀ b ∈ as, (attributeContribution b).map (·.1) ≠ some name :=
      fun b hb => hall b (by simp [hb])
    simp only [writeContributions, List.foldl_cons]
    cases hc : attributeContribution a with
    | none => exact ih _ hrest
    | some c =>
      obtain ⟨n, w⟩ := c
      have hn : n ≠ name := by
        intro hEq
        apply ha
        rw [hc, hEq]
        rfl
      simp only
      split
      · exact ih _ hrest
      · have := ih (profile.set n w) hrest
        unfold writeContributions at this
        rw [this]
        exact Profile.get_set_other profile n name w hn

/-- The value read under a name after the writes of a list of attributes is
the contribution of the last attribute that contributes under that name. -/
theorem writeContributions_get_last (profile : Profile) (before after : List Node)
    (attr : Node) (name : String) (v : PVal)
    (hc : attributeContribution attr = some (name, v)) (hproto : name ≠ "__proto__")
    (hafter : ∀ a ∈ after, (attributeContribution a).map (·.1) ≠ some name) :
    (writeContributions profile (before ++ attr :: after)).get name = some v := by
  have hsplit : writeContributions profile (before ++ attr :: after)
      = writeContributions ((writeContributions profile before).set name v) after := by
    simp only [writeContributions, List.foldl_append, List.foldl_cons, hc, hproto, if_false]
  rw [hsplit, writeContributions_get_other after name _ hafter]
  exact Profile.get_set_same _ name v

/-- Without a contribution under `__proto__`, the writes of a list of
attributes are the writes of all their contributions. -/
theorem writeContributions_eq_contributeAll (attrs : List Node) :
    ∀ profile : Profile,
      (∀ a ∈ attrs, (attributeContribution a).map (·.1) ≠ some "__proto__") →
      writeContributions profile attrs = contributeAll profile attrs := by
  induction attrs with
  | nil => intro profile _; rfl
  | cons a as ih =>
    intro profile hall
    have ha := hall a (by simp)
    have hrest : ∀ b ∈ as, (attributeContribution b).map (·.1) ≠ some "__proto__" :=
      fun b hb => hall b (by simp [hb])
    simp only [writeContributions, contributeAll, List.foldl_cons]
    cases hc : attributeContribution a with
    | none => exact ih _ hrest
    | some c =>
      obtain ⟨n, w⟩ := c
      have hn : n ≠ "__proto__" := by
        intro hEq
        apply ha
        rw [hc, hEq]
        rfl
      simp only [hn, if_false]
      exact ih _ hrest

/-- The attribute loop over readable attributes, none of which is named
`__proto__`, yields the profile with the contributions of all of them. -/
theorem foldlM_addAttribute_eq_contributeAll (attrs : List Node) (profile : Profile)
    (hall : ∀ attr ∈ attrs, readableAttribute attr = true)
    (hproto : ∀ a ∈ attrs, (attributeContribution a).map (·.1) ≠ some "__proto__") :
    attrs.foldlM addAttribute profile = .ok (contributeAll profile attrs) := by
  rw [foldlM_addAttribute_readable attrs profile hall,
    writeContributions_eq_contributeAll attrs profile hproto]

/-- C19, as amended: for an assertion that passes the Subject, `InResponseTo`
and Conditions checks of `processValidlySignedAssertion`,

* when every `Attribute` of its `AttributeStatement`s is readable, the call
  succeeds with the profile made of the identity fields, then the writes of
  the attributes in document order, then the `mail` / `email` defaults, the
  accessor names holding the accessors; the cache is as the checks left it;
* when some `Attribute` is not readable, the call ends with a `TypeError` and
  no profile;
* when every `Attribute` is readable, the value read under a name in the
  returned profile is the contribution of the last `Attribute` that
  contributes under that name, for every name other than `__proto__`, `mail`,
  `email` and the three accessor names;

where an `Attribute` without `AttributeValue` contributes nothing, one with
exactly one contributes, under its `Name`, the text of that value (a scalar),
and one with several contributes the list of the value texts in document
order; the text of a value is its character data, `undefined` only for blank
character data in an element with attributes or child elements. -/
theorem processValidlySignedAssertion_attributes (lib : Lib) (o : Options) (nowMs : Int)
    (xml samlResponseXml : Node) (inResponseTo : Option String) (cache : CacheProvider)
    (hsubject : checkSubject lib o nowMs xml = .ok ())
    (hreplay : (checkSubjectInResponseTo lib o nowMs xml inResponseTo cache).1 = .ok ())
    (hconditions : checkConditions lib o nowMs xml = .ok ()) :
    ((∀ attr ∈ attributeElements xml, readableAttribute attr = true) →
      processValidlySignedAssertion lib o nowMs xml samlResponseXml inResponseTo cache =
        (.success (some (expectedLoginProfile xml samlResponseXml)) false,
          (checkSubjectInResponseTo lib o nowMs xml inResponseTo cache).2)) ∧
    ((∃ attr ∈ attributeElements xml, readableAttribute attr = false) →
      processValidlySignedAssertion lib o nowMs xml samlResponseXml inResponseTo cache =
        (.error "TypeError: attribute.hasOwnProperty is not a function",
          (checkSubjectInResponseTo lib o nowMs xml inResponseTo cache).2)
      ∨ processValidlySignedAssertion lib o nowMs xml samlResponseXml inResponseTo cache =
        (.error "TypeError: Cannot read property 'Name' of undefined",
          (checkSubjectInResponseTo lib o nowMs xml inResponseTo cache).2)) ∧
    (∀ (before after : List Node) (attr : Node) (name : String) (v : PVal),
      (∀ a ∈ attributeElements xml, readableAttribute a = true) →
      attributeElements xml = before ++ attr :: after →
      attributeContribution attr = some (name, v) →
      (∀ a ∈ after, (attributeContribution a).map (·.1) ≠ some name) →
      name ∉ reservedNames →
      (processValidlySignedAssertion lib o nowMs xml samlResponseXml inResponseTo
        cache).1.profileField name = some v) ∧
    (∀ attr : Node, attr.childrenNamed "AttributeValue" = [] →
      attributeContribution attr = none) ∧
    (∀ attr value0 : Node, attr.childrenNamed "AttributeValue" = [value0] →
      attributeContribution attr
        = some (jsStr (attr.attr? "Name"), .scalar (attrValueMapper value0))) ∧
    (∀ (attr : Node) (values : List Node), attr.childrenNamed "AttributeValue" = values →
      values.length ≥ 2 →
      attributeContribution attr
        = some (jsStr (attr.attr? "Name"), .list (values.map attrValueMapper))) ∧
    (∀ value : Node, attrValueMapper value =
      if isBlank value.charData && !value.x2jIsString then none else some value.charData) := by
  have hfilter : ∀ fs : List (String × PVal),
      fs.filter (fun e => !accessorNames.contains e.1)
        = fs.filter (fun e =>
            e.1 != "getAssertionXml" && e.1 != "getAssertion" && e.1 != "getSamlResponseXml") := by
    intro fs
    apply List.filter_congr
    intro e _
    simp [accessorNames, bne, Bool.and_assoc]
    rfl
  have hok : (∀ attr ∈ attributeElements xml, readableAttribute attr = true) →
      processValidlySignedAssertion lib o nowMs xml samlResponseXml inResponseTo cache =
        (.success (some (expectedLoginProfile xml samlResponseXml)) false,
          (checkSubjectInResponseTo lib o nowMs xml inResponseTo cache).2) := by
    intro hall
    rcases hr : checkSubjectInResponseTo lib o nowMs xml inResponseTo cache with ⟨r, cache1⟩
    rw [hr] at hreplay
    cases r with
    | error e => cases hreplay
    | ok u =>
      cases u
      simp only [processValidlySignedAssertion, hsubject, hr, hconditions,
        attributesOf_eq_attributeElements, foldlM_addAttribute_readable _ _ hall]
      simp only [Profile.withAccessors, expectedLoginProfile, hfilter]
  refine ⟨hok, ?_, ?_, ?_, ?_, ?_, ?_⟩
  · intro hbad
    rcases hr : checkSubjectInResponseTo lib o nowMs xml inResponseTo cache with ⟨r, cache1⟩
    rw [hr] at hreplay
    cases r with
    | error e => cases hreplay
    | ok u =>
      cases u
      rcases foldlM_addAttribute_unreadable _ (identityFields xml) hbad with he | he
      · left
        simp only [processValidlySignedAssertion, hsubject, hr, hconditions,
          attributesOf_eq_attributeElements, he]
      · right
        simp only [processValidlySignedAssertion, hsubject, hr, hconditions,
          attributesOf_eq_attributeElements, he]
  · intro before after attr name v hall hsplit hc hafter hname
    simp only [reservedNames, List.mem_cons, List.mem_singleton, List.not_mem_nil, or_false,
      not_or] at hname
    obtain ⟨hproto, hmail, hemail, h1, h2, h3⟩ := hname
    rw [hok hall]
    show (expectedLoginProfile xml samlResponseXml).get name = some v
    have hacc : accessorNames.contains name = false := by
      simp [accessorNames, h1, h2, h3]
    have hexp : expectedLoginProfile xml samlResponseXml
        = (mailDefaults (writeContributions (identityFields xml)
            (attributeElements xml))).withAccessors xml samlResponseXml := by
      simp only [Profile.withAccessors, expectedLoginProfile, hfilter]
    rw [hexp, withAccessors_get_other _ _ _ _ hacc, mailDefaults_get_other _ _ hmail hemail,
      hsplit]
    exact writeContributions_get_last _ before after attr name v hc hproto hafter
  · intro attr h
    simp [attributeContribution, h]
  · intro attr value0 h
    simp [attributeContribution, h]
  · intro attr values h hlen
    cases values with
    | nil => simp at hlen
    | cons v vs =>
      cases vs with
      | nil => simp at hlen
      | cons w ws => simp [attributeContribution, h]
  · intro value
    unfold attrValueMapper Node.x2jText
    by_cases hs : value.x2jIsString = true
    · simp [hs]
    · by_cases hb : isBlank value.charData = true <;> simp [hs, hb]

/-- Witness for C19 as amended: an assertion with a two-valued attribute and an
attribute without value in a first statement and a one-valued attribute in a
second; the profile is the expected one, and `groups` reads as the list of its
two values. -/
theorem processValidlySignedAssertion_attributes_witness :
    processValidlySignedAssertion (Sample.libWith true Sample.attributeAssertion)
      Sample.plainOptions 0 Sample.attributeAssertion Sample.attributeAssertion none
      Sample.emptyCache =
      (.success (some (expectedLoginProfile Sample.attributeAssertion
          Sample.attributeAssertion)) false,
        (checkSubjectInResponseTo (Sample.libWith true Sample.attributeAssertion)
          Sample.plainOptions 0 Sample.attributeAssertion none Sample.emptyCache).2) ∧
    (processValidlySignedAssertion (Sample.libWith true Sample.attributeAssertion)
      Sample.plainOptions 0 Sample.attributeAssertion Sample.attributeAssertion none
      Sample.emptyCache).1.profileField "groups"
      = some (.list [some "staff", some "admin"]) :=
  ⟨(processValidlySignedAssertion_attributes (Sample.libWith true Sample.attributeAssertion)
      Sample.plainOptions 0 Sample.attributeAssertion Sample.attributeAssertion none
      Sample.emptyCache rfl rfl rfl).1 (by decide),
   (processValidlySignedAssertion_attributes (Sample.libWith true Sample.attributeAssertion)
      Sample.plainOptions 0 Sample.attributeAssertion Sample.attributeAssertion none
      Sample.emptyCache rfl rfl rfl).2.2.1 [] _ Sample.groupsAttribute "groups"
      (.list [some "staff", some "admin"]) (by decide) rfl (by decide) (by decide)
      (by decide)⟩

/-- C19, counterexample: four assertions that pass every check.  An attribute
`mail` with one empty value, followed by the mail OID attribute: the profile
holds the OID value under `mail`, not the text of the value of `mail`.  An
attribute named `__proto__`, and one named `getAssertion`: the profile holds
no data under that name.  An `Attribute` element without XML attributes: the
call ends with a `TypeError` and no profile. -/
theorem processValidlySignedAssertion_attribute_not_contributed :
    (attributeContribution Sample.emptyMailAttribute = some ("mail", .scalar (some "")) ∧
      (processValidlySignedAssertion
        (Sample.libWith true (Sample.assertionWith
          [Sample.emptyMailAttribute, Sample.mailOidAttribute]))
        Sample.plainOptions 0
        (Sample.assertionWith [Sample.emptyMailAttribute, Sample.mailOidAttribute])
        (Sample.assertionWith [Sample.emptyMailAttribute, Sample.mailOidAttribute]) none
        Sample.emptyCache).1.profileField "mail" = some (.scalar (some "user@example.com"))) ∧
    (attributeContribution Sample.protoAttribute = some ("__proto__", .scalar (some "v")) ∧
      (processValidlySignedAssertion
        (Sample.libWith true (Sample.assertionWith [Sample.protoAttribute]))
        Sample.plainOptions 0 (Sample.assertionWith [Sample.protoAttribute])
        (Sample.assertionWith [Sample.protoAttribute]) none
        Sample.emptyCache).1.hasProfile = true ∧
      (processValidlySignedAssertion
        (Sample.libWith true (Sample.assertionWith [Sample.protoAttribute]))
        Sample.plainOptions 0 (Sample.assertionWith [Sample.protoAttribute])
        (Sample.assertionWith [Sample.protoAttribute]) none
        Sample.emptyCache).1.profileField "__proto__" = none) ∧
    (attributeContribution Sample.accessorAttribute
        = some ("getAssertion", .scalar (some "v")) ∧
      (processValidlySignedAssertion
        (Sample.libWith true (Sample.assertionWith [Sample.accessorAttribute]))
        Sample.plainOptions 0 (Sample.assertionWith [Sample.accessorAttribute])
        (Sample.assertionWith [Sample.accessorAttribute]) none
        Sample.emptyCache).1.hasProfile = true ∧
      (processValidlySignedAssertion
        (Sample.libWith true (Sample.assertionWith [Sample.accessorAttribute]))
        Sample.plainOptions 0 (Sample.assertionWith [Sample.accessorAttribute])
        (Sample.assertionWith [Sample.accessorAttribute]) none
        Sample.emptyCache).1.profileField "getAssertion" = none) ∧
    ((Sample.bareAttribute.childrenNamed "AttributeValue").length = 1 ∧
      (processValidlySignedAssertion
        (Sample.libWith true (Sample.assertionWith [Sample.bareAttribute]))
        Sample.plainOptions 0 (Sample.assertionWith [Sample.bareAttribute])
        (Sample.assertionWith [Sample.bareAttribute]) none Sample.emptyCache).1
        = .error "TypeError: Cannot read property 'Name' of undefined") := by
  refine ⟨⟨by decide, by decide⟩, ⟨by decide, by decide, by decide⟩,
    ⟨by decide, by decide, by decide⟩, ⟨by decide, rfl⟩⟩

/-- C20: an assertion whose `Subject` has more than one `SubjectConfirmation`,
or that has more than one `Conditions` element, ends
`processValidlySignedAssertion` with an error, whatever the library
behaviour, options, clock, cache and remaining content. -/
theorem processValidlySignedAssertion_rejects_ambiguity (lib : Lib) (o : Options)
    (nowMs : Int) (xml samlResponseXml : Node) (inResponseTo : Option String)
    (cache : CacheProvider)
    (h : (∃ subject0, (xml.childrenNamed "Subject").head? = some subject0 ∧
        (subject0.childrenNamed "SubjectConfirmation").length > 1)
      ∨ (xml.childrenNamed "Conditions").length > 1) :
    ∃ msg, (processValidlySignedAssertion lib o nowMs xml samlResponseXml inResponseTo
      cache).1 = .error msg := by
  rcases h with ⟨subject0, hs, hmany⟩ | hmany
  · have hcs : checkSubject lib o nowMs xml
        = .error "Unable to process multiple SubjectConfirmations in SAML assertion" := by
      simp [checkSubject, hs, hmany]
    exact ⟨"Unable to process multiple SubjectConfirmations in SAML assertion",
      by simp only [processValidlySignedAssertion, hcs]⟩
  · have hcc : checkConditions lib o nowMs xml
        = .error "Unable to process multiple conditions in SAML assertion" := by
      simp [checkConditions, hmany]
    cases hcs : checkSubject lib o nowMs xml with
    | error e => exact ⟨e, by simp only [processValidlySignedAssertion, hcs]⟩
    | ok u =>
      rcases hr : checkSubjectInResponseTo lib o nowMs xml inResponseTo cache with ⟨r, cache1⟩
      cases r with
      | error e => exact ⟨e, by simp only [processValidlySignedAssertion, hcs, hr]⟩
      | ok u2 =>
        exact ⟨"Unable to process multiple conditions in SAML assertion",
          by simp only [processValidlySignedAssertion, hcs, hr, hcc]⟩

/-- Witness for C20: an assertion with two `Conditions` elements. -/
theorem processValidlySignedAssertion_rejects_ambiguity_witness :
    ∃ msg, (processValidlySignedAssertion (Sample.libWith true Sample.twoConditionsAssertion)
      Sample.plainOptions 0 Sample.twoConditionsAssertion Sample.twoConditionsAssertion none
      Sample.emptyCache).1 = .error msg :=
  processValidlySignedAssertion_rejects_ambiguity
    (Sample.libWith true Sample.twoConditionsAssertion) Sample.plainOptions 0
    Sample.twoConditionsAssertion Sample.twoConditionsAssertion none Sample.emptyCache
    (Or.inr (by decide))

/-- A callback that answers false for every element makes `some` answer
false. -/
theorem someExcept_all_false {α : Type} (f : α → Except String Bool) (xs : List α)
    (h : ∀ x ∈ xs, f x = .ok false) : someExcept f xs = .ok false := by
  induction xs with
  | nil => rfl
  | cons x xs ih =>
    have hx := h x (by simp)
    simp only [someExcept, hx]
    exact ih (fun y hy => h y (by simp [hy]))

/-- When certificates are resolved, a certificate is configured. -/
theorem hasCert_of_certsToCheck (o : Options) (certs : List String)
    (h : certsToCheck o = .ok (some certs)) : o.hasCert = true := by
  unfold certsToCheck at h
  unfold Options.hasCert
  cases hc : o.cert with
  | absent => simp [hc] at h
  | static cs => rfl
  | resolver r => rfl

/-- C11, as amended, the order of the code: `validateRedirect` runs the
semantic verification first and the signature check second.  A message whose
semantic verification fails is rejected with the error of that verification,
whatever its signature (absent or present, valid or not, with or without a
certificate configured).  A message that passes the semantic verification is
rejected with the error of `hasValidSignatureForRedirect` when that check
fails, and otherwise handed to `processValidlySignedSamlLogout`; the check
fails with `Invalid signature` when the message carries a non-empty
`Signature`, certificates are resolved, and the signature verifies against
none of them (which includes that the hash named by `SigAlg` is supported), so
that such a message is rejected with `Invalid signature`.  In each rejection
the cache is left as the semantic verification left it. -/
theorem validateRedirect_semantic_before_signature (lib : Lib) (o : Options) (nowMs : Int)
    (container : Container) (cache : CacheProvider) (message : String) (doc : Node)
    (hm : container.get (samlMessageTypeOf container) = some message)
    (hp : lib.parseRedirect message = .ok doc) :
    (∀ e, (semanticVerification lib o nowMs (samlMessageTypeOf container) doc cache).1
        = .error e →
      validateRedirect lib o nowMs container cache =
        (.error e, (semanticVerification lib o nowMs (samlMessageTypeOf container) doc
          cache).2)) ∧
    ((semanticVerification lib o nowMs (samlMessageTypeOf container) doc cache).1 = .ok () →
      (∀ e, hasValidSignatureForRedirect lib o (samlMessageTypeOf container) container
          = .error e →
        validateRedirect lib o nowMs container cache =
          (.error e, (semanticVerification lib o nowMs (samlMessageTypeOf container) doc
            cache).2)) ∧
      (hasValidSignatureForRedirect lib o (samlMessageTypeOf container) container = .ok () →
        validateRedirect lib o nowMs container cache =
          (processValidlySignedSamlLogout doc,
            (semanticVerification lib o nowMs (samlMessageTypeOf container) doc cache).2))) ∧
    (∀ (signature : String) (certs : List String),
      container.Signature = some signature → signature ≠ "" →
      certsToCheck o = .ok (some certs) →
      (∀ cert ∈ certs, validateSignatureForRedirect lib
        (redirectUrlString lib (samlMessageTypeOf container) container) signature
        container.SigAlg cert = .ok false) →
      hasValidSignatureForRedirect lib o (samlMessageTypeOf container) container
        = .error "Invalid signature" ∧
      ((semanticVerification lib o nowMs (samlMessageTypeOf container) doc cache).1 = .ok () →
        validateRedirect lib o nowMs container cache =
          (.error "Invalid signature",
            (semanticVerification lib o nowMs (samlMessageTypeOf container) doc cache).2))) := by
  have hsig : ∀ (signature : String) (certs : List String),
      container.Signature = some signature → signature ≠ "" →
      certsToCheck o = .ok (some certs) →
      (∀ cert ∈ certs, validateSignatureForRedirect lib
        (redirectUrlString lib (samlMessageTypeOf container) container) signature
        container.SigAlg cert = .ok false) →
      hasValidSignatureForRedirect lib o (samlMessageTypeOf container) container
        = .error "Invalid signature" := by
    intro signature certs hs hne hcerts hfail
    unfold hasValidSignatureForRedirect
    simp only [hs, hcerts, hasCert_of_certsToCheck o certs hcerts, Option.getD_some,
      someExcept_all_false _ certs hfail]
    simp [hne]
  unfold validateRedirect semanticVerification
  simp only [hm, hp]
  rcases hv : (if (samlMessageTypeOf container == "SAMLResponse") = true then
      verifyLogoutResponse o doc cache
    else (verifyLogoutRequest lib o nowMs doc, cache)) with ⟨r, cache1⟩
  cases r with
  | error e =>
    refine ⟨?_, ?_, ?_⟩
    · intro e2 he2
      simp only [Except.error.injEq] at he2
      rw [he2]
    · intro hok
      cases hok
    · intro signature certs hs hne hcerts hfail
      refine ⟨hsig signature certs hs hne hcerts hfail, ?_⟩
      intro hok
      cases hok
  | ok u =>
    refine ⟨?_, ?_, ?_⟩
    · intro e2 he2
      cases he2
    · intro _
      constructor
      · intro e he
        simp only [he]
      · intro hok
        simp only [hok]
    · intro signature certs hs hne hcerts hfail
      refine ⟨hsig signature certs hs hne hcerts hfail, ?_⟩
      intro _
      simp only [hsig signature certs hs hne hcerts hfail]

/-- Witness for C11 as amended: a `LogoutResponse` with status `Requester` is
rejected with the error of the status check, here with a signature that no
certificate verifies; a well-formed `LogoutResponse` with status `Success`
whose signature no certificate verifies ends with `Invalid signature`. -/
theorem validateRedirect_semantic_before_signature_witness :
    validateRedirect
      (Sample.libWith false (Sample.logoutResponseWith "urn:oasis:names:tc:SAML:2.0:status:Requester"))
      Sample.certOnlyOptions 0 Sample.signedResponseRedirect Sample.emptyCache =
    (.error "Bad status code: urn:oasis:names:tc:SAML:2.0:status:Requester",
      (semanticVerification
        (Sample.libWith false (Sample.logoutResponseWith "urn:oasis:names:tc:SAML:2.0:status:Requester"))
        Sample.certOnlyOptions 0 (samlMessageTypeOf Sample.signedResponseRedirect)
        (Sample.logoutResponseWith "urn:oasis:names:tc:SAML:2.0:status:Requester")
        Sample.emptyCache).2) ∧
    validateRedirect (Sample.libWith false (Sample.logoutResponseWith statusSuccess))
      Sample.certOnlyOptions 0 Sample.signedResponseRedirect Sample.emptyCache =
    (.error "Invalid signature",
      (semanticVerification (Sample.libWith false (Sample.logoutResponseWith statusSuccess))
        Sample.certOnlyOptions 0 (samlMessageTypeOf Sample.signedResponseRedirect)
        (Sample.logoutResponseWith statusSuccess) Sample.emptyCache).2) :=
  ⟨(validateRedirect_semantic_before_signature
      (Sample.libWith false (Sample.logoutResponseWith "urn:oasis:names:tc:SAML:2.0:status:Requester"))
      Sample.certOnlyOptions 0 Sample.signedResponseRedirect Sample.emptyCache "fZFBa8MwDIX"
      (Sample.logoutResponseWith "urn:oasis:names:tc:SAML:2.0:status:Requester") rfl rfl).1
      "Bad status code: urn:oasis:names:tc:SAML:2.0:status:Requester" rfl,
   ((validateRedirect_semantic_before_signature
      (Sample.libWith false (Sample.logoutResponseWith statusSuccess)) Sample.certOnlyOptions 0
      Sample.signedResponseRedirect Sample.emptyCache "fZFBa8MwDIX"
      (Sample.logoutResponseWith statusSuccess) rfl rfl).2.2 "c2ln" ["cert"] rfl (by decide) rfl
      (by
        intro cert _
        rfl)).2 rfl⟩

/-- C11, counterexample: a `LogoutResponse` with status `Requester` whose
query-string signature fails against the configured certificate is rejected
with the error of the status check, not with `Invalid signature`; and for a
`LogoutResponse` with status `Success` and replay validation enabled the cache
lookup of `InResponseTo` has been performed although the signature fails. -/
theorem validateRedirect_reports_semantic_error_first :
    hasValidSignatureForRedirect
      (Sample.libWith false (Sample.logoutResponseWith "urn:oasis:names:tc:SAML:2.0:status:Requester"))
      Sample.certOptions "SAMLResponse" Sample.signedResponseRedirect
      = .error "Invalid signature" ∧
    (validateRedirect
      (Sample.libWith false (Sample.logoutResponseWith "urn:oasis:names:tc:SAML:2.0:status:Requester"))
      Sample.certOptions 0 Sample.signedResponseRedirect Sample.pendingCache).1
      = .error "Bad status code: urn:oasis:names:tc:SAML:2.0:status:Requester" ∧
    (validateRedirect (Sample.libWith false (Sample.logoutResponseWith statusSuccess))
      Sample.certOptions 0 Sample.signedResponseRedirect Sample.pendingCache).1
      = .error "Invalid signature" ∧
    (validateRedirect (Sample.libWith false (Sample.logoutResponseWith statusSuccess))
      Sample.certOptions 0 Sample.signedResponseRedirect Sample.pendingCache).2.log
      = [.get "req1"] := by
  refine ⟨rfl, rfl, rfl, by decide⟩

/-- C12, evaluated on the code: with `idpIssuer = idp` configured, a POST-bound
`LogoutRequest` issued by `intruder`, and one issued by `idp` that expired an
hour ago, are both accepted by `validatePostRequest` with a logout profile;
the same messages on the redirect binding are rejected by
`verifyLogoutRequest`. -/
theorem validatePostRequest_skips_semantic_verification :
    (validatePostRequest (Sample.libWith true Sample.foreignLogoutRequest)
      Sample.issuerOptions Sample.unsignedRedirect).hasProfile = true ∧
    (validatePostRequest (Sample.libWith true Sample.foreignLogoutRequest)
      Sample.issuerOptions Sample.unsignedRedirect).loggedOut = true ∧
    (validateRedirect (Sample.libWith true Sample.foreignLogoutRequest)
      Sample.issuerOptions 1577840400000 Sample.unsignedRedirect Sample.emptyCache).1.isError
      = true ∧
    (validatePostRequest (Sample.libWith true Sample.expiredLogoutRequest)
      Sample.issuerOptions Sample.unsignedRedirect).hasProfile = true ∧
    (validateRedirect (Sample.libWith true Sample.expiredLogoutRequest)
      Sample.issuerOptions 1577840400000 Sample.unsignedRedirect Sample.emptyCache).1.isError
      = true := by
  decide

/-- A node under which no `Signature` is found has no valid signature. -/
theorem validateSignature_false_of_unsigned (lib : Lib) (fullXml currentNode : Node)
    (certs : List String) (h : (xpathSignatures currentNode).length = 0) :
    validateSignature lib fullXml currentNode certs = false := by
  simp [validateSignature, h]

/-- An element that has some attribute value has an attribute object. -/
theorem x2jHasAttrs_of_attr (n : Node) (name v : String) (h : n.attr? name = some v) :
    n.x2jHasAttrs = true := by
  unfold Node.attr? at h
  unfold Node.x2jHasAttrs
  cases ha : n.attrs with
  | nil => simp [ha] at h
  | cons a as => rfl

/-- An element with a child element is not represented by a string. -/
theorem x2jTruthy_of_child (n c : Node) (name : String)
    (h : (n.childrenNamed name).head? = some c) : n.x2jTruthy = true := by
  have hmem := List.mem_of_mem_head? h
  unfold Node.childrenNamed at hmem
  rw [List.mem_filter] at hmem
  have hel : c.isElement = true := by
    have := hmem.2
    simp only [Bool.and_eq_true] at this
    exact this.1
  have hne : (n.children.filter Node.isElement).isEmpty = false := by
    cases hf : n.children.filter Node.isElement with
    | nil =>
      have : c ∈ n.children.filter Node.isElement := List.mem_filter.mpr ⟨hmem.1, hel⟩
      rw [hf] at this
      cases this
    | cons x xs => rfl
  simp [Node.x2jTruthy, Node.x2jIsString, hne]

/-- The end of `validatePostResponse` on a response without assertion whose
status is `Responder` with nested `NoPassive`. -/
theorem statusFallback_noPassive (o : Options) (validSignature : Bool) (doc : Node)
    (hroot : rootNamed doc "Response" = some doc)
    (hA : responseChildren doc "Assertion" = [])
    (hst : noPassiveStatus doc = true) :
    statusFallback o validSignature doc =
      if o.hasCert && !validSignature then .error "Invalid signature: NoPassive"
      else .success none false := by
  have hA2 : doc.childrenNamed "Assertion" = [] := by
    simpa [responseChildren, hroot] using hA
  unfold noPassiveStatus at hst
  cases hs : (doc.childrenNamed "Status").head? with
  | none => simp [hs] at hst
  | some status0 =>
    simp only [hs] at hst
    cases hsc : (status0.childrenNamed "StatusCode").head? with
    | none => simp [hsc] at hst
    | some statusCode0 =>
      simp only [hsc, Bool.and_eq_true, beq_iff_eq] at hst
      obtain ⟨hval, hnest⟩ := hst
      cases hn : (statusCode0.childrenNamed "StatusCode").head? with
      | none => simp [hn] at hnest
      | some nested0 =>
        simp only [hn, beq_iff_eq] at hnest
        have htruthy : doc.x2jTruthy = true := x2jTruthy_of_child doc status0 "Status" hs
        have h1 := x2jHasAttrs_of_attr statusCode0 "Value" _ hval
        have h2 := x2jHasAttrs_of_attr nested0 "Value" _ hnest
        have hf : (rootNamed doc "Response").filter Node.x2jTruthy = some doc := by
          rw [hroot]
          simp [Option.filter, htruthy]
        simp [statusFallback, hf, hA2, hs, hsc, statusCodeOutcome, h1, h2, hval, hn, hnest]

/-- C14, the rule of the code: for a response with no `Assertion` and no
`EncryptedAssertion` whose status is `Responder` with nested `NoPassive`,
`validatePostResponse` yields the non-error, non-profile outcome
`(null, null, false)` only if no certificate is configured or the top-level
signature of the response is valid; with a certificate configured and an
invalid or missing top-level signature the outcome is an error; and once the
`InResponseTo` check and the certificate resolution have passed, the outcome
is `(null, null, false)` when no certificate is configured or the signature is
valid. -/
theorem validatePostResponse_noPassive (lib : Lib) (o : Options) (nowMs : Int)
    (container : Container) (cache : CacheProvider) (samlResponse : String) (doc : Node)
    (hc : container.SAMLResponse = some samlResponse)
    (hp : lib.parsePost samlResponse = .ok doc)
    (hroot : rootNamed doc "Response" = some doc)
    (hA : responseChildren doc "Assertion" = [])
    (hE : responseChildren doc "EncryptedAssertion" = [])
    (hst : noPassiveStatus doc = true) :
    ((validatePostResponse lib o nowMs container cache).1 = .success none false →
      o.hasCert = false ∨
      ∃ certs, certsToCheck o = .ok (some certs) ∧ validateSignature lib doc doc certs = true) ∧
    (o.hasCert = true →
      (∀ certs, certsToCheck o = .ok (some certs) →
        validateSignature lib doc doc certs = false) →
      (validatePostResponse lib o nowMs container cache).1.isError = true) ∧
    (∀ certs, certsToCheck o = .ok certs →
      (validateInResponseTo o (responseInResponseTo doc) cache).1 = .ok () →
      (o.hasCert = false ∨ validateSignature lib doc doc (certs.getD []) = true) →
      validatePostResponse lib o nowMs container cache =
        (.success none false, (validateInResponseTo o (responseInResponseTo doc) cache).2)) := by
  have hstage : ∀ certs cache1,
      validatePostResponseWithCerts lib o nowMs doc (responseInResponseTo doc) certs cache1 =
        (if o.hasCert && !(o.hasCert && validateSignature lib doc doc certs) then
          .error "Invalid signature: NoPassive" else .success none false, cache1) := by
    intro certs cache1
    unfold validatePostResponseWithCerts
    simp only [hA, hE, List.length_nil]
    rw [statusFallback_noPassive o _ doc hroot hA hst]
    simp
  unfold validatePostResponse
  simp only [hc, hp]
  rcases hv : validateInResponseTo o (responseInResponseTo doc) cache with ⟨r, cache1⟩
  cases r with
  | error e =>
    refine ⟨?_, ?_, ?_⟩
    · intro h
      cases h
    · intro _ _
      rfl
    · intro certs _ hok
      cases hok
  | ok u =>
    cases hcerts : certsToCheck o with
    | error e =>
      refine ⟨?_, ?_, ?_⟩
      · intro h
        cases h
      · intro _ _
        rfl
      · intro certs hcs
        cases hcs
    | ok certsOpt =>
      simp only [hstage]
      by_cases hcert : o.hasCert = true
      · obtain ⟨cs, rfl⟩ := certsToCheck_some_of_hasCert o certsOpt hcert hcerts
        simp only [Option.getD_some, hcert, Bool.true_and]
        cases hvs : validateSignature lib doc doc cs
        · refine ⟨?_, ?_, ?_⟩
          · intro h
            simp at h
          · intro _ _
            rfl
          · intro certs hcs _ hor
            have hcs2 : certs = some cs := by
              simp only [Except.ok.injEq] at hcs
              exact hcs.symm
            subst hcs2
            rcases hor with hor | hor
            · simp at hor
            · simp only [Option.getD_some, hvs] at hor
              cases hor
        · refine ⟨?_, ?_, ?_⟩
          · intro _
            exact Or.inr ⟨cs, rfl, hvs⟩
          · intro _ hall
            have := hall cs rfl
            rw [hvs] at this
            cases this
          · intro _ _ _ _
            simp
      · have hcert2 : o.hasCert = false := by simpa using hcert
        simp only [hcert2, Bool.false_and]
        refine ⟨?_, ?_, ?_⟩
        · intro _
          simp
        · intro h
          cases h
        · intro _ _ _ _
          simp

/-- Witness for C14 as amended: with a certificate configured, the unsigned
`NoPassive` response is an error. -/
theorem validatePostResponse_noPassive_witness :
    (validatePostResponse (Sample.libWith true Sample.noPassiveResponse)
      Sample.certOnlyOptions 0 Sample.postResponseContainer Sample.emptyCache).1.isError
      = true :=
  (validatePostResponse_noPassive (Sample.libWith true Sample.noPassiveResponse)
    Sample.certOnlyOptions 0 Sample.postResponseContainer Sample.emptyCache
    "PHNhbWxwOlJlc3BvbnNlPg==" Sample.noPassiveResponse rfl rfl rfl rfl rfl rfl).2.1 rfl
    (by
      intro certs _
      exact validateSignature_false_of_unsigned _ _ _ _ (by decide))

/-- C14, counterexample: with no certificate configured, the unsigned
`NoPassive` response, whose top-level signature is valid for no certificate
list, yields the outcome `(null, null, false)`. -/
theorem validatePostResponse_noPassive_without_cert :
    (∀ certs, validateSignature (Sample.libWith true Sample.noPassiveResponse)
      Sample.noPassiveResponse Sample.noPassiveResponse certs = false) ∧
    (validatePostResponse (Sample.libWith true Sample.noPassiveResponse) Sample.plainOptions 0
      Sample.postResponseContainer Sample.emptyCache).1 = .success none false := by
  refine ⟨?_, rfl⟩
  intro certs
  exact validateSignature_false_of_unsigned _ _ _ _ (by decide)

/-- The five entity replacements turn a single character into its entity. -/
theorem replaceFive_single (x : Char) :
    replaceChar '>' "&gt;".data
      (replaceChar '<' "&lt;".data
        (replaceChar chQuot "&quot;".data
          (replaceChar chApos "&apos;".data
            (replaceChar '&' "&amp;".data [x])))) = entityOf x := by
  unfold entityOf
  by_cases h1 : x = '&'
  · subst h1; decide
  by_cases h2 : x = chApos
  · subst h2; decide
  by_cases h3 : x = chQuot
  · subst h3; decide
  by_cases h4 : x = '<'
  · subst h4; decide
  by_cases h5 : x = '>'
  · subst h5; decide
  simp [replaceChar, h1, h2, h3, h4, h5]

/-- A character replacement distributes over concatenation. -/
theorem replaceChar_append (c : Char) (rep a b : List Char) :
    replaceChar c rep (a ++ b) = replaceChar c rep a ++ replaceChar c rep b := by
  simp [replaceChar]

/-- The five entity replacements replace every character by its entity. -/
theorem replaceFive_eq (l : List Char) :
    replaceChar '>' "&gt;".data
      (replaceChar '<' "&lt;".data
        (replaceChar chQuot "&quot;".data
          (replaceChar chApos "&apos;".data
            (replaceChar '&' "&amp;".data l)))) = l.flatMap entityOf := by
  induction l with
  | nil => rfl
  | cons x xs ih =>
    have hx := replaceFive_single x
    have hsplit : x :: xs = [x] ++ xs := rfl
    rw [hsplit]
    simp only [replaceChar_append, List.flatMap_append, ih, hx]
    simp


/-- The CRLF replacement leaves a leading character other than CR in place. -/
theorem replaceCrLf_cons_ne (rep : List Char) (x : Char) (t : List Char) (h : x ≠ chCR) :
    replaceCrLf rep (x :: t) = x :: replaceCrLf rep t := by
  cases t with
  | nil => simp [replaceCrLf]
  | cons d rest => simp [replaceCrLf, h]

/-- The CRLF replacement leaves a leading text without CR in place. -/
theorem replaceCrLf_append (rep e t : List Char) (h : ∀ c ∈ e, c ≠ chCR) :
    replaceCrLf rep (e ++ t) = e ++ replaceCrLf rep t := by
  induction e with
  | nil => rfl
  | cons x xs ih =>
    rw [List.cons_append, replaceCrLf_cons_ne rep x _ (h x (by simp)),
      ih (fun c hc => h c (by simp [hc]))]
    rfl

/-- The entity of a character other than CR has no CR. -/
theorem entityOf_ne_cr (c x : Char) (hc : c ≠ chCR) (hx : x ∈ entityOf c) : x ≠ chCR := by
  unfold entityOf at hx
  split at hx
  · revert x; decide
  split at hx
  · revert x; decide
  split at hx
  · revert x; decide
  split at hx
  · revert x; decide
  split at hx
  · revert x; decide
  · simp only [List.mem_singleton] at hx
    rw [hx]
    exact hc

/-- The entity of a character other than CR has no character that ends or breaks an attribute value. -/
theorem entityOf_safe (c x : Char) (hc : c ≠ chCR) (hx : x ∈ entityOf c) :
    (x != chApos && x != chQuot && x != '<' && x != '>' && x != chCR) = true := by
  unfold entityOf at hx
  split at hx
  · revert x; decide
  split at hx
  · revert x; decide
  split at hx
  · revert x; decide
  split at hx
  · revert x; decide
  split at hx
  · revert x; decide
  · simp only [List.mem_singleton] at hx
    subst hx
    simp [*]

/-- The last replacement leaves the entity of a character other than CR as it is. -/
theorem replaceCrOrLf_entityOf (c : Char) (hc : c ≠ chCR) :
    replaceCrOrLf [chLF] (entityOf c) = entityOf c := by
  unfold entityOf
  split
  · decide
  split
  · decide
  split
  · decide
  split
  · decide
  split
  · decide
  · by_cases hl : c = chLF
    · subst hl; decide
    · simp [replaceCrOrLf, hc, hl]

/-- The entity of a character other than LF does not start with LF. -/
theorem entityOf_head (d : Char) (hd : d ≠ chLF) :
    ∃ y ys, entityOf d = y :: ys ∧ y ≠ chLF := by
  unfold entityOf
  split
  · exact ⟨_, _, rfl, by decide⟩
  split
  · exact ⟨_, _, rfl, by decide⟩
  split
  · exact ⟨_, _, rfl, by decide⟩
  split
  · exact ⟨_, _, rfl, by decide⟩
  split
  · exact ⟨_, _, rfl, by decide⟩
  · exact ⟨d, [], rfl, hd⟩

/-- The last replacement distributes over concatenation. -/
theorem replaceCrOrLf_append (rep a b : List Char) :
    replaceCrOrLf rep (a ++ b) = replaceCrOrLf rep a ++ replaceCrOrLf rep b := by
  simp [replaceCrOrLf]

/-- The statement of `lineEnds_eq` for texts of bounded length. -/
theorem lineEnds_eq_aux (n : Nat) : ∀ s : List Char, s.length ≤ n →
    replaceCrOrLf [chLF] (replaceCrLf [chLF] (s.flatMap entityOf)) =
      (normalizeLineEnds s).flatMap entityOf := by
  have h1 : entityOf chCR = [chCR] := by decide
  have h2 : entityOf chLF = [chLF] := by decide
  have hnil : replaceCrLf [chLF] [] = [] := rfl
  induction n with
  | zero =>
    intro s hs
    have : s = [] := List.length_eq_zero.mp (Nat.le_zero.mp hs)
    subst this
    rfl
  | succ n ih =>
    intro s hs
    match s, hs with
    | [], _ => rfl
    | [c], _ =>
      by_cases hc : c = chCR
      · subst hc; decide
      · simp only [normalizeLineEnds, hc, if_false, List.flatMap_cons, List.flatMap_nil]
        rw [replaceCrLf_append [chLF] (entityOf c) [] (fun x hx => entityOf_ne_cr c x hc hx),
          hnil, List.append_nil]
        exact replaceCrOrLf_entityOf c hc
    | c :: d :: rest, hs =>
      have hlen1 : (d :: rest).length ≤ n := by
        simp only [List.length_cons] at hs ⊢
        omega
      have hlen2 : rest.length ≤ n := by
        simp only [List.length_cons] at hs
        omega
      by_cases hc : c = chCR
      · subst hc
        by_cases hd : d = chLF
        · subst hd
          simp only [normalizeLineEnds, if_true, List.flatMap_cons]
          rw [h1, h2, ← ih rest hlen2]
          have hstep : replaceCrLf [chLF] ([chCR] ++ ([chLF] ++ rest.flatMap entityOf))
              = [chLF] ++ replaceCrLf [chLF] (rest.flatMap entityOf) := by
            simp [replaceCrLf]
          rw [hstep, replaceCrOrLf_append]
          rfl
        · have ih2 := ih (d :: rest) hlen1
          simp only [List.flatMap_cons] at ih2
          simp only [normalizeLineEnds, if_true, hd, if_false, List.flatMap_cons]
          rw [h1, h2, ← ih2]
          obtain ⟨y, ys, hy, hne⟩ := entityOf_head d hd
          rw [hy]
          have hstep : replaceCrLf [chLF] ([chCR] ++ ((y :: ys) ++ rest.flatMap entityOf))
              = [chCR] ++ replaceCrLf [chLF] ((y :: ys) ++ rest.flatMap entityOf) := by
            simp [replaceCrLf, hne]
          rw [hstep, replaceCrOrLf_append]
          rfl
      · have ih2 := ih (d :: rest) hlen1
        simp only [List.flatMap_cons] at ih2
        simp only [normalizeLineEnds, hc, if_false, List.flatMap_cons]
        rw [← ih2,
          replaceCrLf_append [chLF] (entityOf c) _ (fun x hx => entityOf_ne_cr c x hc hx),
          replaceCrOrLf_append, replaceCrOrLf_entityOf c hc]

/-- The two line-end replacements, after the entity replacements, amount to
normalising the line ends first. -/
theorem lineEnds_eq (s : List Char) :
    replaceCrOrLf [chLF] (replaceCrLf [chLF] (s.flatMap entityOf)) =
      (normalizeLineEnds s).flatMap entityOf :=
  lineEnds_eq_aux s.length s (Nat.le_refl _)

/-- The statement of `normalizeLineEnds_no_cr` for texts of bounded length. -/
theorem normalizeLineEnds_no_cr_aux (n : Nat) : ∀ s : List Char, s.length ≤ n →
    ∀ c ∈ normalizeLineEnds s, c ≠ chCR := by
  induction n with
  | zero =>
    intro s hs
    have : s = [] := List.length_eq_zero.mp (Nat.le_zero.mp hs)
    subst this
    simp [normalizeLineEnds]
  | succ n ih =>
    intro s hs
    match s, hs with
    | [], _ => simp [normalizeLineEnds]
    | [c], _ =>
      by_cases hc : c = chCR
      · subst hc; decide
      · simp [normalizeLineEnds, hc]
    | c :: d :: rest, hs =>
      have hlen1 : (d :: rest).length ≤ n := by
        simp only [List.length_cons] at hs ⊢
        omega
      have hlen2 : rest.length ≤ n := by
        simp only [List.length_cons] at hs
        omega
      have hlf : chLF ≠ chCR := by decide
      by_cases hc : c = chCR
      · subst hc
        by_cases hd : d = chLF
        · subst hd
          simp only [normalizeLineEnds, if_true, List.mem_cons]
          rintro x (hx | hx)
          · rw [hx]; exact hlf
          · exact ih rest hlen2 x hx
        · simp only [normalizeLineEnds, if_true, hd, if_false, List.mem_cons]
          rintro x (hx | hx)
          · rw [hx]; exact hlf
          · exact ih (d :: rest) hlen1 x hx
      · simp only [normalizeLineEnds, hc, if_false, List.mem_cons]
        rintro x (hx | hx)
        · rw [hx]; exact hc
        · exact ih (d :: rest) hlen1 x hx

/-- A text with normalised line ends has no CR. -/
theorem normalizeLineEnds_no_cr (s : List Char) : ∀ c ∈ normalizeLineEnds s, c ≠ chCR :=
  normalizeLineEnds_no_cr_aux s.length s (Nat.le_refl _)

/-- The entities of a text without CR form an attribute-safe text. -/
theorem attributeSafe_flatMap (t : List Char) (h : ∀ c ∈ t, c ≠ chCR) :
    attributeSafe (t.flatMap entityOf) = true := by
  unfold attributeSafe
  rw [List.all_eq_true]
  intro x hx
  rw [List.mem_flatMap] at hx
  obtain ⟨c, hc, hxc⟩ := hx
  exact entityOf_safe c x (h c hc) hxc

/-- An entity in front of a text keeps the property that every ampersand begins an entity. -/
theorem ampsBeginEntities_entityOf (c : Char) (rest : List Char)
    (h : ampsBeginEntities rest = true) : ampsBeginEntities (entityOf c ++ rest) = true := by
  unfold entityOf
  split
  · simp [ampsBeginEntities, entities, List.isPrefixOf, h]
  split
  · simp [ampsBeginEntities, entities, List.isPrefixOf, h]
  split
  · simp [ampsBeginEntities, entities, List.isPrefixOf, h]
  split
  · simp [ampsBeginEntities, entities, List.isPrefixOf, h]
  split
  · simp [ampsBeginEntities, entities, List.isPrefixOf, h]
  · rename_i h1 _ _ _ _
    simp [ampsBeginEntities, h, h1]

/-- In the entities of a text every ampersand begins an entity. -/
theorem ampsBeginEntities_flatMap (t : List Char) :
    ampsBeginEntities (t.flatMap entityOf) = true := by
  induction t with
  | nil => rfl
  | cons c cs ih =>
    rw [List.flatMap_cons]
    exact ampsBeginEntities_entityOf c _ ih

/-- C16: for every string `s` the escaping `quoteattr(s)` applied to the hidden
input values yields a text without apostrophe, double quote, `<`, `>` and
carriage return, in which every `&` begins one of `&amp;` `&apos;` `&quot;`
`&lt;` `&gt;`, and which is the text of `s` with each CRLF pair and each lone
CR turned into a single LF and each of the five special characters replaced by
its entity. -/
theorem quoteattr_spec (s : String) :
    attributeSafe (quoteattr s false).data = true ∧
    ampsBeginEntities (quoteattr s false).data = true ∧
    (quoteattr s false).data = (normalizeLineEnds s.data).flatMap entityOf := by
  have hq : (quoteattr s false).data = (normalizeLineEnds s.data).flatMap entityOf := by
    unfold quoteattr
    simp only [Bool.false_eq_true, if_false]
    rw [replaceFive_eq, lineEnds_eq]
  rw [hq]
  exact ⟨attributeSafe_flatMap _ (normalizeLineEnds_no_cr _), ampsBeginEntities_flatMap _, rfl⟩

/-- Witness for C16: a value with markup, quotes and mixed line ends. -/
theorem quoteattr_spec_witness :
    quoteattr "a&b<c>\"\r\nd\re\n" false = "a&amp;b&lt;c&gt;&quot;\nd\ne\n" ∧
    attributeSafe (quoteattr "a&b<c>\"\r\nd\re\n" false).data = true :=
  ⟨by decide, (quoteattr_spec "a&b<c>\"\r\nd\re\n").1⟩

/-- After the write `obj[key] = value` on a list that has the key, the read of
`key` yields `value`. -/
theorem objFind_map_replace (obj : List (String × String)) (key value : String)
    (h : obj.any (fun e => e.1 == key) = true) :
    ((obj.map (fun e => if e.1 == key then (key, value) else e)).find?
      (fun e => e.1 == key)).map (·.2) = some value := by
  induction obj with
  | nil => simp at h
  | cons e es ih =>
    by_cases he : (e.1 == key) = true
    · simp [List.find?, he]
    · have he2 : (e.1 == key) = false := by simpa using he
      have hes : es.any (fun e => e.1 == key) = true := by
        rw [List.any_cons, he2, Bool.false_or] at h
        exact h
      simp only [List.map_cons, he2, Bool.false_eq_true, if_false, List.find?_cons]
      exact ih hes

/-- A property read after a write of the same property yields the value
written. -/
theorem objGet_objSet_same (obj : List (String × String)) (key value : String) :
    objGet (objSet obj key value) key = some value := by
  unfold objSet objGet
  by_cases hany : obj.any (fun e => e.1 == key) = true
  · simp only [hany, if_true]
    exact objFind_map_replace obj key value hany
  · simp only [hany]
    have hnone : obj.find? (fun e => e.1 == key) = none := by
      rw [List.find?_eq_none]
      intro x hx hxe
      apply hany
      rw [List.any_eq_true]
      exact ⟨x, hx, hxe⟩
    simp [List.find?_append, hnone]

/-- A property read after a write of another property is unchanged. -/
theorem objGet_objSet_other (obj : List (String × String)) (key value other : String)
    (hne : key ≠ other) : objGet (objSet obj key value) other = objGet obj other := by
  have hko : (key == other) = false := by simpa using hne
  unfold objSet objGet
  by_cases hany : obj.any (fun e => e.1 == key) = true
  · simp only [hany, if_true]
    clear hany
    induction obj with
    | nil => rfl
    | cons e es ih =>
      by_cases he : (e.1 == key) = true
      · have hek : e.1 = key := by simpa using he
        have heo : (e.1 == other) = false := by rw [hek]; exact hko
        simp only [List.map_cons, he, if_true, List.find?_cons, hko, heo]
        exact ih
      · have he2 : (e.1 == key) = false := by simpa using he
        simp only [List.map_cons, he2, Bool.false_eq_true, if_false, List.find?_cons]
        cases (e.1 == other)
        · exact ih
        · rfl
  · simp only [hany]
    simp [List.find?_append, hko]

/-- The object signed by `signRequest` holds the fields of the
specification. -/
theorem samlMessageToSign_eq (samlMessage : List (String × String)) (sigAlg : String)
    (hne : sigAlg ≠ "") :
    samlMessageToSign (objSet samlMessage "SigAlg" sigAlg) = signedFields samlMessage sigAlg := by
  have h1 : objGet (objSet samlMessage "SigAlg" sigAlg) "SAMLRequest"
      = objGet samlMessage "SAMLRequest" :=
    objGet_objSet_other _ _ _ _ (by decide)
  have h2 : objGet (objSet samlMessage "SigAlg" sigAlg) "SAMLResponse"
      = objGet samlMessage "SAMLResponse" :=
    objGet_objSet_other _ _ _ _ (by decide)
  have h3 : objGet (objSet samlMessage "SigAlg" sigAlg) "RelayState"
      = objGet samlMessage "RelayState" :=
    objGet_objSet_other _ _ _ _ (by decide)
  have h4 := objGet_objSet_same samlMessage "SigAlg" sigAlg
  unfold samlMessageToSign signedFields
  rw [h1, h2, h3, h4]
  cases ha : objGet samlMessage "SAMLRequest" with
  | none =>
    cases hb : objGet samlMessage "SAMLResponse" with
    | none =>
      cases hc : objGet samlMessage "RelayState" with
      | none => simp [truthy, jsStr, objSet, ha, hb, hc, hne]
      | some c => by_cases hc0 : c = "" <;> simp [truthy, jsStr, objSet, ha, hb, hc, hne, hc0]
    | some b =>
      cases hc : objGet samlMessage "RelayState" with
      | none => by_cases hb0 : b = "" <;> simp [truthy, jsStr, objSet, ha, hb, hc, hne, hb0]
      | some c =>
        by_cases hb0 : b = "" <;> by_cases hc0 : c = "" <;>
          simp [truthy, jsStr, objSet, ha, hb, hc, hne, hb0, hc0]
  | some a =>
    cases hb : objGet samlMessage "SAMLResponse" with
    | none =>
      cases hc : objGet samlMessage "RelayState" with
      | none => by_cases ha0 : a = "" <;> simp [truthy, jsStr, objSet, ha, hb, hc, hne, ha0]
      | some c =>
        by_cases ha0 : a = "" <;> by_cases hc0 : c = "" <;>
          simp [truthy, jsStr, objSet, ha, hb, hc, hne, ha0, hc0]
    | some b =>
      cases hc : objGet samlMessage "RelayState" with
      | none =>
        by_cases ha0 : a = "" <;> by_cases hb0 : b = "" <;>
          simp [truthy, jsStr, objSet, ha, hb, hc, hne, ha0, hb0]
      | some c =>
        by_cases ha0 : a = "" <;> by_cases hb0 : b = "" <;> by_cases hc0 : c = "" <;>
          simp [truthy, jsStr, objSet, ha, hb, hc, hne, ha0, hb0, hc0]

/-- The `SigAlg` URI chosen by `signRequest` is not empty. -/
theorem signatureAlgorithmOf_ne_empty (signatureAlgorithm : String) :
    (signatureAlgorithmOf signatureAlgorithm).1 ≠ "" := by
  unfold signatureAlgorithmOf
  split
  · decide
  · split <;> decide

/-- C15: `signRequest` sets `Signature` to the signature of the query string
of exactly the fields `SAMLRequest`, `SAMLResponse`, `RelayState`, `SigAlg`,
in that order, each only when present and non-empty; two messages that agree
on the first three fields get the same signature, whatever else they hold;
`SigAlg` is the rsa-sha256 URI for `sha256`, the rsa-sha512 URI for `sha512`,
and the rsa-sha1 URI for every other configured value. -/
theorem signRequest_signs_canonical_fields (blib : BuilderLib) (o : BuilderOptions)
    (samlMessage : List (String × String)) :
    objGet (signRequest blib o samlMessage) "Signature" =
      some (blib.sign (signatureAlgorithmOf o.signatureAlgorithm).2
        (blib.querystringStringify
          (signedFields samlMessage (signatureAlgorithmOf o.signatureAlgorithm).1))
        o.privateCert) ∧
    objGet (signRequest blib o samlMessage) "SigAlg"
      = some (signatureAlgorithmOf o.signatureAlgorithm).1 ∧
    (∀ other : List (String × String),
      objGet other "SAMLRequest" = objGet samlMessage "SAMLRequest" →
      objGet other "SAMLResponse" = objGet samlMessage "SAMLResponse" →
      objGet other "RelayState" = objGet samlMessage "RelayState" →
      objGet (signRequest blib o other) "Signature"
        = objGet (signRequest blib o samlMessage) "Signature") ∧
    (o.signatureAlgorithm = "sha256" → (signatureAlgorithmOf o.signatureAlgorithm).1
      = "http://www.w3.org/2001/04/xmldsig-more#rsa-sha256") ∧
    (o.signatureAlgorithm = "sha512" → (signatureAlgorithmOf o.signatureAlgorithm).1
      = "http://www.w3.org/2001/04/xmldsig-more#rsa-sha512") ∧
    (o.signatureAlgorithm ≠ "sha256" → o.signatureAlgorithm ≠ "sha512" →
      (signatureAlgorithmOf o.signatureAlgorithm).1
        = "http://www.w3.org/2000/09/xmldsig#rsa-sha1") := by
  have hsig : ∀ m : List (String × String),
      objGet (signRequest blib o m) "Signature" =
        some (blib.sign (signatureAlgorithmOf o.signatureAlgorithm).2
          (blib.querystringStringify
            (signedFields m (signatureAlgorithmOf o.signatureAlgorithm).1))
          o.privateCert) := by
    intro m
    unfold signRequest
    simp only [objGet_objSet_same,
      samlMessageToSign_eq m _ (signatureAlgorithmOf_ne_empty o.signatureAlgorithm)]
  refine ⟨hsig samlMessage, ?_, ?_, ?_, ?_, ?_⟩
  · unfold signRequest
    simp only []
    rw [objGet_objSet_other _ _ _ _ (by decide), objGet_objSet_same]
  · intro other h1 h2 h3
    rw [hsig other, hsig samlMessage]
    unfold signedFields
    simp only [List.filterMap_cons, List.filterMap_nil, h1, h2, h3]
  · intro h
    simp [signatureAlgorithmOf, h]
  · intro h
    simp [signatureAlgorithmOf, h]
  · intro h1 h2
    simp [signatureAlgorithmOf, h1, h2]

/-- Witness for C15: the additional parameter `lang` is not in the signed
string. -/
theorem signRequest_signs_canonical_fields_witness :
    objGet (signRequest Sample.builderLib Sample.builderOptions Sample.outboundMessage)
      "Signature" =
    some ("RSA-SHA256(SAMLRequest=fZFBa8MwDIX&RelayState=/home"
      ++ "&SigAlg=http://www.w3.org/2001/04/xmldsig-more#rsa-sha256)") :=
  (signRequest_signs_canonical_fields Sample.builderLib Sample.builderOptions
    Sample.outboundMessage).1.trans (by decide)

/-- C18: with replay validation enabled, a failing cache `save` makes
`generateAuthorizeRequest` report that error, with no request document and the
cache content as before; when the `save` succeeds, the one cache operation
performed is `save` of the `ID` attribute of the returned `AuthnRequest` with
its `IssueInstant`, after which the cache maps that `ID` to that
`IssueInstant` and every other key as before; with replay validation disabled
the request is returned and the cache is untouched. -/
theorem generateAuthorizeRequest_cache (o : BuilderOptions) (req : Req) (isPassive : Bool)
    (uniqueId instant : String) (saveFailure : Option String) (cache : CacheProvider) :
    (o.validateInResponseTo = true → ∀ err, saveFailure = some err →
      (generateAuthorizeRequest o req isPassive uniqueId instant saveFailure cache).1
        = .error err ∧
      (generateAuthorizeRequest o req isPassive uniqueId instant saveFailure cache).2.store
        = cache.store) ∧
    (o.validateInResponseTo = true → saveFailure = none →
      ∃ doc,
        (generateAuthorizeRequest o req isPassive uniqueId instant saveFailure cache).1
          = .ok doc ∧
        ((generateAuthorizeRequest o req isPassive uniqueId instant saveFailure cache).2.get
          (doc.getAttribute "ID")).1 = some (doc.getAttribute "IssueInstant") ∧
        (generateAuthorizeRequest o req isPassive uniqueId instant saveFailure cache).2.log
          = cache.log ++ [.save (doc.getAttribute "ID") (doc.getAttribute "IssueInstant")] ∧
        ∀ key, key ≠ doc.getAttribute "ID" →
          ((generateAuthorizeRequest o req isPassive uniqueId instant saveFailure cache).2.get
            key).1 = (cache.get key).1) ∧
    (o.validateInResponseTo = false →
      ∃ doc, generateAuthorizeRequest o req isPassive uniqueId instant saveFailure cache
        = (.ok doc, cache)) := by
  have hid : (authnRequestDocument o req isPassive ("_" ++ uniqueId) instant).getAttribute "ID"
      = "_" ++ uniqueId := by
    simp [authnRequestDocument, Node.getAttribute, Node.attr?, Node.attrs]
  have hinst : (authnRequestDocument o req isPassive ("_" ++ uniqueId) instant).getAttribute
      "IssueInstant" = instant := by
    simp [authnRequestDocument, Node.getAttribute, Node.attr?, Node.attrs]
  refine ⟨?_, ?_, ?_⟩
  · intro hv err hf
    simp [generateAuthorizeRequest, hv, hf, CacheProvider.trySave]
  · intro hv hf
    refine ⟨authnRequestDocument o req isPassive ("_" ++ uniqueId) instant, ?_, ?_, ?_, ?_⟩
    · simp [generateAuthorizeRequest, hv, hf, CacheProvider.trySave]
    · rw [hid, hinst]
      simp [generateAuthorizeRequest, hv, hf, CacheProvider.trySave, CacheProvider.save,
        CacheProvider.get]
    · rw [hid, hinst]
      simp [generateAuthorizeRequest, hv, hf, CacheProvider.trySave, CacheProvider.save]
    · intro key hkey
      rw [hid] at hkey
      have hk : ("_" ++ uniqueId == key) = false := by
        simpa using fun h => hkey h.symm
      simp only [generateAuthorizeRequest, hv, hf, CacheProvider.trySave, CacheProvider.save,
        CacheProvider.get, if_true, List.find?_cons, hk]
      congr 1
      induction cache.store with
      | nil => rfl
      | cons e es ih =>
        by_cases he : (e.1 == "_" ++ uniqueId) = true
        · have hek : e.1 = "_" ++ uniqueId := by simpa using he
          have : (e.1 == key) = false := by rw [hek]; exact hk
          simp only [List.filter_cons, he, Bool.not_true, Bool.false_eq_true, if_false,
            List.find?_cons, this]
          exact ih
        · have he2 : (e.1 == "_" ++ uniqueId) = false := by simpa using he
          simp only [List.filter_cons, he2, Bool.not_false, if_true, List.find?_cons]
          cases (e.1 == key)
          · exact ih
          · rfl
  · intro hv
    exact ⟨authnRequestDocument o req isPassive ("_" ++ uniqueId) instant,
      by simp [generateAuthorizeRequest, hv]⟩

/-- Witness for C18: with replay validation enabled and a failing cache, the
callback receives the error of the cache. -/
theorem generateAuthorizeRequest_cache_witness :
    (generateAuthorizeRequest Sample.trackingBuilderOptions Sample.plainReq false "a1b2"
      "2020-01-01T00:00:00.000Z" (some "cache unavailable") Sample.emptyCache).1
      = .error "cache unavailable" :=
  ((generateAuthorizeRequest_cache Sample.trackingBuilderOptions Sample.plainReq false "a1b2"
    "2020-01-01T00:00:00.000Z" (some "cache unavailable") Sample.emptyCache).1 rfl
    "cache unavailable" rfl).1

/-- The character data of an element that holds one text node. -/
theorem charData_text (l ns : String) (as : List (String × String)) (s : String) :
    (Node.elem l ns as [.text s]).charData = s := by
  simp [Node.charData, Node.children, String.join]

/-- A generated request ID is not empty. -/
theorem requestId_ne_empty (uniqueId : String) : "_" ++ uniqueId ≠ "" := by
  intro h
  have := congrArg String.length h
  simp at this
  exact absurd this.1 (by decide)

/-- The profile `processValidlySignedPostRequest` extracts from a generated
logout request. -/
theorem processValidlySignedPostRequest_generated (o : BuilderOptions) (user : User)
    (id instant : String) (hid : id ≠ "") (hissuer : isBlank o.issuer = false)
    (hname : isBlank user.nameID = false) (hfmt : user.nameIDFormat ≠ "")
    (hsess : ∀ s, user.sessionIndex = some s → isBlank s = false) :
    processValidlySignedPostRequest (logoutRequestDocument o user id instant)
      = .success (some (expectedLogoutProfile o user id)) true := by
  have hiss0 : o.issuer ≠ "" := by
    intro h
    rw [h, isBlank_empty] at hissuer
    cases hissuer
  cases hsi : user.sessionIndex with
  | none =>
    simp [processValidlySignedPostRequest, logoutRequestDocument, expectedLogoutProfile, hsi,
      rootNamed, Node.isElement, Node.localName, Option.filter, Node.x2jTruthy,
      Node.x2jIsString, Node.attrs, Node.x2jHasAttrs, Node.attr?, truthy, hid, Node.childrenNamed,
      Node.children, Node.x2jText, charData_text, hissuer, hiss0, hname, hfmt, Profile.set,
      Profile.empty, presentAttr]
  | some s =>
    have hs := hsess s hsi
    have hs0 : s ≠ "" := by
      intro h
      rw [h, isBlank_empty] at hs
      cases hs
    simp [processValidlySignedPostRequest, logoutRequestDocument, expectedLogoutProfile, hsi,
      rootNamed, Node.isElement, Node.localName, Option.filter, Node.x2jTruthy,
      Node.x2jIsString, Node.attrs, Node.x2jHasAttrs, Node.attr?, truthy, hid, Node.childrenNamed,
      Node.children, Node.x2jText, charData_text, hissuer, hiss0, hname, hfmt, Profile.set,
      Profile.empty, presentAttr, jsStr, hs, hs0]

/-- Without a certificate, `certsToCheck` resolves to `undefined`. -/
theorem certsToCheck_none_of_no_cert (o : Options) (h : o.hasCert = false) :
    certsToCheck o = .ok none := by
  unfold Options.hasCert at h
  unfold certsToCheck
  cases hc : o.cert with
  | absent => rfl
  | static cs => simp [hc] at h
  | resolver r => simp [hc] at h

/-- C17, as it holds on the code: for a user whose name identifier is not
blank (not made of white space only), whose format is not empty and whose
session index is absent or not blank, and an issuer that is not blank, the
`LogoutRequest` built by `generateLogoutRequest` (the cache accepting the
save), parsed and processed by `validatePostRequest` with no certificate
configured or with the signature check passing, yields with the logout flag
the profile whose `nameID`, `nameIDFormat` and `sessionIndex` are the user's,
whose `ID` is the generated request ID and whose `issuer` is the configured
issuer. -/
theorem logoutRequest_round_trip (lib : Lib) (o : BuilderOptions) (req : Req) (user : User)
    (uniqueId instant : String) (cache : CacheProvider) (container : Container)
    (samlRequest : String) (doc : Node)
    (huser : req.user = some user)
    (hname : isBlank user.nameID = false) (hfmt : user.nameIDFormat ≠ "")
    (hsess : ∀ s, user.sessionIndex = some s → isBlank s = false)
    (hissuer : isBlank o.issuer = false)
    (hgen : (generateLogoutRequest o req uniqueId instant none cache).1 = .ok doc)
    (hc : container.SAMLRequest = some samlRequest)
    (hp : lib.parsePost samlRequest = .ok doc)
    (hsig : o.hasCert = false ∨
      ∃ certs, certsToCheck o.toOptions = .ok (some certs) ∧
        validateSignature lib doc doc certs = true) :
    validatePostRequest lib o.toOptions container
      = .success (some (expectedLogoutProfile o user ("_" ++ uniqueId))) true ∧
    doc.getAttribute "ID" = "_" ++ uniqueId ∧
    (expectedLogoutProfile o user ("_" ++ uniqueId)).get "ID"
      = some (.scalar (some ("_" ++ uniqueId))) ∧
    (expectedLogoutProfile o user ("_" ++ uniqueId)).get "issuer"
      = some (.scalar (some o.issuer)) ∧
    (expectedLogoutProfile o user ("_" ++ uniqueId)).get "nameID"
      = some (.scalar (some user.nameID)) ∧
    (expectedLogoutProfile o user ("_" ++ uniqueId)).get "nameIDFormat"
      = some (.scalar (some user.nameIDFormat)) ∧
    (expectedLogoutProfile o user ("_" ++ uniqueId)).get "sessionIndex"
      = user.sessionIndex.map (fun s => .scalar (some s)) := by
  have hdoc : doc = logoutRequestDocument o user ("_" ++ uniqueId) instant := by
    simp only [generateLogoutRequest, huser, CacheProvider.trySave, Except.ok.injEq] at hgen
    exact hgen.symm
  have hprocess := processValidlySignedPostRequest_generated o user ("_" ++ uniqueId) instant
    (requestId_ne_empty uniqueId) hissuer hname hfmt hsess
  rw [← hdoc] at hprocess
  refine ⟨?_, ?_, ?_, ?_, ?_, ?_, ?_⟩
  · unfold validatePostRequest
    simp only [hc, hp]
    rcases hsig with hno | ⟨certs, hcerts, hvalid⟩
    · simp only [certsToCheck_none_of_no_cert o.toOptions hno, hno, Bool.false_and]
      exact hprocess
    · simp only [hcerts, Option.getD_some, hvalid, Bool.not_true, Bool.and_false]
      exact hprocess
  · rw [hdoc]
    simp [logoutRequestDocument, Node.getAttribute, Node.attr?, Node.attrs]
  · simp [expectedLogoutProfile, Profile.get]
  · simp [expectedLogoutProfile, Profile.get]
  · simp [expectedLogoutProfile, Profile.get]
  · simp [expectedLogoutProfile, Profile.get]
  · cases hsi : user.sessionIndex <;> simp [expectedLogoutProfile, Profile.get, hsi]

/-- Witness for C17 as amended: the round trip of the request built for a
user with session index, no certificate being configured. -/
theorem logoutRequest_round_trip_witness :
    validatePostRequest (Sample.libWith true (Sample.generatedLogoutRequest Sample.someUser))
      Sample.builderOptions.toOptions Sample.unsignedRedirect
      = .success (some (expectedLogoutProfile Sample.builderOptions Sample.someUser
          ("_" ++ "a1b2"))) true :=
  (logoutRequest_round_trip (Sample.libWith true (Sample.generatedLogoutRequest Sample.someUser))
    Sample.builderOptions (Sample.reqOf Sample.someUser) Sample.someUser "a1b2"
    "2020-01-01T00:00:00.000Z" Sample.emptyCache Sample.unsignedRedirect "fZFBa8MwDIX"
    (Sample.generatedLogoutRequest Sample.someUser) rfl (by decide) (by decide)
    (by
      intro s hs
      cases hs
      decide)
    (by decide) rfl rfl rfl (Or.inl rfl)).1

/-- C17, counterexample: for the user whose name identifier is a single space
(a non-empty name identifier), the generated `LogoutRequest` is accepted by
`validatePostRequest`, with a profile whose `nameID` is `undefined`. -/
theorem logoutRequest_round_trip_loses_blank_nameID :
    Sample.blankUser.nameID ≠ "" ∧
    (generateLogoutRequest Sample.builderOptions (Sample.reqOf Sample.blankUser) "a1b2"
      "2020-01-01T00:00:00.000Z" none Sample.emptyCache).1
      = .ok (Sample.generatedLogoutRequest Sample.blankUser) ∧
    (validatePostRequest (Sample.libWith true (Sample.generatedLogoutRequest Sample.blankUser))
      Sample.builderOptions.toOptions Sample.unsignedRedirect).hasProfile = true ∧
    (validatePostRequest (Sample.libWith true (Sample.generatedLogoutRequest Sample.blankUser))
      Sample.builderOptions.toOptions Sample.unsignedRedirect).profileField "nameID"
      = some (.scalar none) := by
  refine ⟨by decide, rfl, by decide, by decide⟩

/-- The timestamp rule depends on the library through `Date.parse` only. -/
theorem checkTimestampsValidityError_congr (lib1 lib2 : Lib)
    (hdate : lib1.dateParse = lib2.dateParse) (o : Options) (nowMs : Int)
    (notBefore notOnOrAfter : Option String) :
    checkTimestampsValidityError lib1 o nowMs notBefore notOnOrAfter
      = checkTimestampsValidityError lib2 o nowMs notBefore notOnOrAfter := by
  simp only [checkTimestampsValidityError, hdate]

/-- Profile extraction depends on the library through `Date.parse` only. -/
theorem processValidlySignedAssertion_congr (lib1 lib2 : Lib)
    (hdate : lib1.dateParse = lib2.dateParse) (o : Options) (nowMs : Int)
    (xml samlResponseXml : Node) (inResponseTo : Option String) (cache : CacheProvider) :
    processValidlySignedAssertion lib1 o nowMs xml samlResponseXml inResponseTo cache
      = processValidlySignedAssertion lib2 o nowMs xml samlResponseXml inResponseTo cache := by
  have h1 : checkSubject lib1 o nowMs xml = checkSubject lib2 o nowMs xml := by
    simp only [checkSubject, checkTimestampsValidityError_congr lib1 lib2 hdate]
  have h2 : checkSubjectInResponseTo lib1 o nowMs xml inResponseTo cache
      = checkSubjectInResponseTo lib2 o nowMs xml inResponseTo cache := by
    simp only [checkSubjectInResponseTo, hdate]
  have h3 : checkConditions lib1 o nowMs xml = checkConditions lib2 o nowMs xml := by
    simp only [checkConditions, checkTimestampsValidityError_congr lib1 lib2 hdate]
  simp only [processValidlySignedAssertion, h1, h2, h3]

/-- Without a certificate, the signature stage of `validatePostResponse` does
not depend on the signature verifier. -/
theorem validatePostResponseWithCerts_congr (lib1 lib2 : Lib) (o : Options)
    (hcert : o.hasCert = false) (hdecrypt : lib1.decrypt = lib2.decrypt)
    (hdate : lib1.dateParse = lib2.dateParse) (nowMs : Int) (doc : Node)
    (inResponseTo : Option String) (certs : List String) (cache : CacheProvider) :
    validatePostResponseWithCerts lib1 o nowMs doc inResponseTo certs cache
      = validatePostResponseWithCerts lib2 o nowMs doc inResponseTo certs cache := by
  simp only [validatePostResponseWithCerts, hcert, Bool.false_and, hdecrypt,
    processValidlySignedAssertion_congr lib1 lib2 hdate]

/-- C21: with no certificate configured the outcome of `validatePostResponse`
does not depend on the signature verifier: two libraries that differ only in
the signature functions (the references of a signature, the cryptographic
check, the xpath engine) give the same result on every input; and a response
with exactly one plain `Assertion` and no `EncryptedAssertion`, signed or not,
is handed to `processValidlySignedAssertion` as soon as the `InResponseTo`
check that precedes it has passed. -/
theorem validatePostResponse_without_cert (lib1 lib2 : Lib) (o : Options) (nowMs : Int)
    (container : Container) (cache : CacheProvider) (hcert : o.hasCert = false)
    (hparse : lib1.parsePost = lib2.parsePost) (hdecrypt : lib1.decrypt = lib2.decrypt)
    (hdate : lib1.dateParse = lib2.dateParse) :
    validatePostResponse lib1 o nowMs container cache
      = validatePostResponse lib2 o nowMs container cache ∧
    (∀ (samlResponse : String) (doc assertion0 : Node),
      container.SAMLResponse = some samlResponse → lib1.parsePost samlResponse = .ok doc →
      responseChildren doc "Assertion" = [assertion0] →
      responseChildren doc "EncryptedAssertion" = [] →
      (validateInResponseTo o (responseInResponseTo doc) cache).1 = .ok () →
      validatePostResponse lib1 o nowMs container cache =
        processValidlySignedAssertion lib1 o nowMs assertion0 doc (responseInResponseTo doc)
          (validateInResponseTo o (responseInResponseTo doc) cache).2) := by
  constructor
  · simp only [validatePostResponse, hparse,
      validatePostResponseWithCerts_congr lib1 lib2 o hcert hdecrypt hdate]
  · intro samlResponse doc assertion0 hc hp hone hnone hreplay
    unfold validatePostResponse
    simp only [hc, hp, certsToCheck_none_of_no_cert o hcert]
    rcases hv : validateInResponseTo o (responseInResponseTo doc) cache with ⟨r, cache1⟩
    rw [hv] at hreplay
    cases r with
    | error e => cases hreplay
    | ok u =>
      simp [validatePostResponseWithCerts, hone, hnone, hcert]

/-- Witness for C21: the unsigned response with one assertion gives the same
result with a verifier that accepts and one that refuses, and that result is
the one of profile extraction. -/
theorem validatePostResponse_without_cert_witness :
    validatePostResponse (Sample.libWith true Sample.unsolicitedResponse) Sample.plainOptions 0
      Sample.postResponseContainer Sample.emptyCache
    = validatePostResponse (Sample.libWith false Sample.unsolicitedResponse)
        Sample.plainOptions 0 Sample.postResponseContainer Sample.emptyCache :=
  (validatePostResponse_without_cert (Sample.libWith true Sample.unsolicitedResponse)
    (Sample.libWith false Sample.unsolicitedResponse) Sample.plainOptions 0
    Sample.postResponseContainer Sample.emptyCache rfl rfl rfl rfl).1

/-- The contributions of a list of attributes followed by one more. -/
theorem contributeAll_append_one (profile : Profile) (attrs : List Node) (attr : Node) :
    contributeAll profile (attrs ++ [attr]) =
      (match attributeContribution attr with
       | some (name, v) => (contributeAll profile attrs).set name v
       | none => contributeAll profile attrs) := by
  simp only [contributeAll, List.foldl_append, List.foldl_cons, List.foldl_nil]

/-- C22: there is an assertion whose Subject `NameID` text is `x` and for
which the profile returned by `processValidlySignedAssertion` has `nameID`
`y`: the attributes are written into the profile after the identity fields, so
an `Attribute` named `nameID`, `issuer` or `sessionIndex` replaces the value
taken from the Subject, the Issuer or the AuthnStatement, and of two
attributes with the same `Name` the later one wins (in general: the attribute
contributed last under a name determines the value read under that name). -/
theorem processValidlySignedAssertion_attributes_override :
    ((identityFields Sample.overridingAssertion).get "nameID" = some (.scalar (some "x")) ∧
     (identityFields Sample.overridingAssertion).get "issuer" = some (.scalar (some "idp")) ∧
     (identityFields Sample.overridingAssertion).get "sessionIndex"
       = some (.scalar (some "s1"))) ∧
    ((processValidlySignedAssertion (Sample.libWith true Sample.overridingAssertion)
        Sample.plainOptions 0 Sample.overridingAssertion Sample.overridingAssertion none
        Sample.emptyCache).1.profileField "nameID" = some (.scalar (some "y")) ∧
     (processValidlySignedAssertion (Sample.libWith true Sample.overridingAssertion)
        Sample.plainOptions 0 Sample.overridingAssertion Sample.overridingAssertion none
        Sample.emptyCache).1.profileField "issuer" = some (.scalar (some "other")) ∧
     (processValidlySignedAssertion (Sample.libWith true Sample.overridingAssertion)
        Sample.plainOptions 0 Sample.overridingAssertion Sample.overridingAssertion none
        Sample.emptyCache).1.profileField "sessionIndex" = some (.scalar (some "s2")) ∧
     (processValidlySignedAssertion (Sample.libWith true Sample.overridingAssertion)
        Sample.plainOptions 0 Sample.overridingAssertion Sample.overridingAssertion none
        Sample.emptyCache).1.profileField "role" = some (.scalar (some "writer"))) ∧
    (∀ (profile : Profile) (attrs : List Node) (attr : Node) (name : String) (v : PVal),
      attributeContribution attr = some (name, v) →
      (contributeAll profile (attrs ++ [attr])).get name = some v) := by
  refine ⟨by decide, by decide, ?_⟩
  intro profile attrs attr name v h
  rw [contributeAll_append_one, h]
  exact Profile.get_set_same _ name v

/-- Witness for C22: after an attribute `role` with value `reader`, the
attribute `role` with value `writer` determines the value read. -/
theorem processValidlySignedAssertion_attributes_override_witness :
    (contributeAll Profile.empty
      ([.elem "Attribute" "" [("Name", "role")] [Sample.textElem "AttributeValue" "reader"]]
        ++ [.elem "Attribute" "" [("Name", "role")]
          [Sample.textElem "AttributeValue" "writer"]])).get "role"
      = some (.scalar (some "writer")) :=
  processValidlySignedAssertion_attributes_override.2.2 Profile.empty _ _ "role" _ rfl

/-- C23: a `NotBefore` or `NotOnOrAfter` string for which `Date.parse` yields
no number never causes a rejection: for every now and every skew, the check
gives what it gives without that bound, and an assertion whose only bound is
an unparseable `NotOnOrAfter` (or `NotBefore`) passes. -/
theorem checkTimestampsValidityError_unparseable (lib : Lib) (o : Options) (nowMs : Int)
    (bound : String) (other : Option String) (hparse : lib.dateParse bound = none) :
    checkTimestampsValidityError lib o nowMs (some bound) other
      = checkTimestampsValidityError lib o nowMs none other ∧
    checkTimestampsValidityError lib o nowMs other (some bound)
      = checkTimestampsValidityError lib o nowMs other none ∧
    checkTimestampsValidityError lib o nowMs none (some bound) = none ∧
    checkTimestampsValidityError lib o nowMs (some bound) none = none ∧
    checkTimestampsValidityError lib o nowMs (some bound) (some bound) = none := by
  refine ⟨?_, ?_, ?_, ?_, ?_⟩ <;>
    simp [checkTimestampsValidityError, hparse]

/-- Witness for C23: the bound `yesterday` is not understood by `Date.parse`
and the check passes under skew `0`. -/
theorem checkTimestampsValidityError_unparseable_witness :
    checkTimestampsValidityError (Sample.libWith true Sample.unsignedNode) Sample.plainOptions
      1577840400000 none (some "yesterday") = none :=
  (checkTimestampsValidityError_unparseable (Sample.libWith true Sample.unsignedNode)
    Sample.plainOptions 1577840400000 "yesterday" none rfl).2.2.1

end Saml
